import Mathlib

set_option maxHeartbeats 1000000

/-!
Verification of the interaction-combinator reduction engine (src/lib.rs).

The Rust code is shallowly embedded as executable Lean definitions.
Machine integers (`usize`) are modelled as `Nat` (no arithmetic in the code
can overflow a 64-bit counter within any claim considered here, and the
counter is only ever incremented).  Every Rust operation that can panic
(`Port::extract` on `Invalid`, `HashMap` `unwrap`, array indexing,
`assert!`) is modelled in the `Option` monad, `none` meaning a panic.

The `HashMap<usize, Node>` arena is modelled as an association list kept in
insertion order (which, because identifiers increase strictly, is ascending
identifier order).  The unspecified `HashMap` iteration order of the source
is thereby fixed to one concrete order; order-(in)dependence of the scan is
itself proved where a claim requires it.
-/

/-- One endpoint of a connection: `Port::Invalid` or `Port::Valid{node,port}`. -/
inductive Port where
  | Invalid : Port
  | Valid : Nat → Nat → Port
  deriving DecidableEq, Repr

/-- The three agent kinds of `enum Node`. -/
inductive NKind where
  | construct : NKind
  | duplicate : NKind
  | erase : NKind
  deriving DecidableEq, Repr

/-- An agent: its kind together with its port array (`[Port; 3]` or `[Port; 1]`). -/
structure Node where
  kind : NKind
  ports : List Port
  deriving DecidableEq, Repr

/-- `Node::construct()`: a Construct agent with all three ports unconnected. -/
def Node.construct : Node := ⟨.construct, [.Invalid, .Invalid, .Invalid]⟩

/-- `Node::duplicate()`: a Duplicate agent with all three ports unconnected. -/
def Node.duplicate : Node := ⟨.duplicate, [.Invalid, .Invalid, .Invalid]⟩

/-- `Node::erase()`: an Erase agent with its single port unconnected. -/
def Node.erase : Node := ⟨.erase, [.Invalid]⟩

/-- `Node::port(p)`: read port slot `p`; out-of-range indexing panics (`none`). -/
def Node.port (n : Node) (p : Nat) : Option Port := n.ports[p]?

/-- `Node::port_mut(p)` followed by assignment: write port slot `p`. -/
def Node.setPort (n : Node) (p : Nat) (v : Port) : Option Node :=
  if p < n.ports.length then some ⟨n.kind, n.ports.set p v⟩ else none

/-- Association-list lookup, the model of `HashMap::get`. -/
def lookupN : List (Nat × Node) → Nat → Option Node
  | [], _ => none
  | (k, n) :: t, a => if a = k then some n else lookupN t a

/-- Replace the entry with the given key, the model of `HashMap::get_mut` plus write. -/
def replaceK : List (Nat × Node) → Nat → Node → List (Nat × Node)
  | [], _, _ => []
  | (k, n) :: t, a, m => if k = a then (k, m) :: replaceK t a m else (k, n) :: replaceK t a m

/-- Remove the (first) entry with the given key, the model of `HashMap::remove`. -/
def removeK : List (Nat × Node) → Nat → List (Nat × Node)
  | [], _ => []
  | (k, n) :: t, a => if k = a then t else (k, n) :: removeK t a

/-- `struct Net`: the agent arena plus the next-identifier counter. -/
structure Net where
  nodes : List (Nat × Node)
  next : Nat
  deriving DecidableEq, Repr

/-- `Net::node`: arena lookup; a missing identifier is the `unwrap` panic. -/
def Net.node? (net : Net) (a : Nat) : Option Node := lookupN net.nodes a

/-- `Net::get`: follow a port reference.  `Port::extract` panics on `Invalid`. -/
def Net.get (net : Net) (x : Port) : Option Port :=
  match x with
  | .Invalid => none
  | .Valid a p => (net.node? a).bind fun n => n.port p

/-- `*Net::get_mut(x) = v`: overwrite the slot that `x` refers to. -/
def Net.setSlot (net : Net) (x v : Port) : Option Net :=
  match x with
  | .Invalid => none
  | .Valid a p =>
    (net.node? a).bind fun n =>
    (n.setPort p v).map fun m => ⟨replaceK net.nodes a m, net.next⟩

/-- `Net::create`: insert a fresh agent under the next identifier and advance it.
The `assert!(insert(..).is_none())` is the `none` case. -/
def Net.create (net : Net) (n : Node) : Option (Nat × Net) :=
  match net.node? net.next with
  | some _ => none
  | none => some (net.next, ⟨net.nodes ++ [(net.next, n)], net.next + 1⟩)

/-- `Net::delete`: remove an agent; `assert!(remove(..).is_some())` is the `none` case. -/
def Net.delete (net : Net) (a : Nat) : Option Net :=
  match net.node? a with
  | none => none
  | some _ => some ⟨removeK net.nodes a, net.next⟩

/-- `Net::connect(x, y)`: wire `x` to `y` and `y` to `x`, overwriting both slots. -/
def Net.connect (net : Net) (x y : Port) : Option Net :=
  (net.setSlot x y).bind fun n1 => n1.setSlot y x

/-- `Net::eval_cc`: Construct–Construct annihilation (auxiliary ports crossed). -/
def Net.eval_cc (net : Net) (a b : Nat) : Option Net :=
  (net.get (.Valid a 1)).bind fun g1 =>
  (net.get (.Valid b 2)).bind fun g2 =>
  (net.connect g1 g2).bind fun n1 =>
  (n1.get (.Valid a 2)).bind fun g3 =>
  (n1.get (.Valid b 1)).bind fun g4 =>
  (n1.connect g3 g4).bind fun n2 =>
  (n2.delete a).bind fun n3 =>
  n3.delete b

/-- `Net::eval_cd`: Construct–Duplicate commutation, in source order: each
neighbor is read immediately before the `connect` that uses it. -/
def Net.eval_cd (net : Net) (a b : Nat) : Option Net :=
  (net.create Node.construct).bind fun cn =>
  (cn.2.create Node.duplicate).bind fun dn =>
  (dn.2.get (.Valid a 1)).bind fun g1 =>
  (dn.2.connect g1 (.Valid dn.1 0)).bind fun n3 =>
  (n3.get (.Valid a 2)).bind fun g2 =>
  (n3.connect g2 (.Valid b 0)).bind fun n4 =>
  (n4.get (.Valid b 1)).bind fun g3 =>
  (n4.connect g3 (.Valid a 0)).bind fun n5 =>
  (n5.get (.Valid b 2)).bind fun g4 =>
  (n5.connect g4 (.Valid cn.1 0)).bind fun n6 =>
  (n6.connect (.Valid b 1) (.Valid a 2)).bind fun n7 =>
  (n7.connect (.Valid b 2) (.Valid cn.1 2)).bind fun n8 =>
  (n8.connect (.Valid dn.1 1) (.Valid a 1)).bind fun n9 =>
  n9.connect (.Valid dn.1 2) (.Valid cn.1 1)

/-- `Net::eval_ce`: Construct–Erase; `b` is reused, one fresh Erase is created. -/
def Net.eval_ce (net : Net) (a b : Nat) : Option Net :=
  (net.create Node.erase).bind fun cn =>
  (cn.2.get (.Valid a 1)).bind fun g1 =>
  (cn.2.connect (.Valid b 0) g1).bind fun n2 =>
  (n2.get (.Valid a 2)).bind fun g2 =>
  (n2.connect (.Valid cn.1 0) g2).bind fun n3 =>
  n3.delete a

/-- `Net::eval_dd`: Duplicate–Duplicate annihilation (auxiliary ports straight). -/
def Net.eval_dd (net : Net) (a b : Nat) : Option Net :=
  (net.get (.Valid a 1)).bind fun g1 =>
  (net.get (.Valid b 1)).bind fun g2 =>
  (net.connect g1 g2).bind fun n1 =>
  (n1.get (.Valid a 2)).bind fun g3 =>
  (n1.get (.Valid b 2)).bind fun g4 =>
  (n1.connect g3 g4).bind fun n2 =>
  (n2.delete a).bind fun n3 =>
  n3.delete b

/-- `Net::eval_de`: Duplicate–Erase; same wiring scheme as `eval_ce`. -/
def Net.eval_de (net : Net) (a b : Nat) : Option Net :=
  (net.create Node.erase).bind fun cn =>
  (cn.2.get (.Valid a 1)).bind fun g1 =>
  (cn.2.connect (.Valid b 0) g1).bind fun n2 =>
  (n2.get (.Valid a 2)).bind fun g2 =>
  (n2.connect (.Valid cn.1 0) g2).bind fun n3 =>
  n3.delete a

/-- `Net::eval_ee`: Erase–Erase annihilation, two deletions. -/
def Net.eval_ee (net : Net) (a b : Nat) : Option Net :=
  (net.delete a).bind fun n1 => n1.delete b

/-- The six kind-combination buckets of the `step` scan. -/
inductive RK where
  | ee : RK
  | de : RK
  | ce : RK
  | dd : RK
  | cc : RK
  | cd : RK
  deriving DecidableEq, Repr

/-- The `match (*n, *self.node(b))` of the scan: which bucket a pair of kinds
falls into, and whether the pair must be swapped into rule order. -/
def classify : NKind → NKind → RK × Bool
  | .construct, .construct => (.cc, false)
  | .construct, .duplicate => (.cd, false)
  | .construct, .erase => (.ce, false)
  | .duplicate, .construct => (.cd, true)
  | .duplicate, .duplicate => (.dd, false)
  | .duplicate, .erase => (.de, false)
  | .erase, .construct => (.ce, true)
  | .erase, .duplicate => (.de, true)
  | .erase, .erase => (.ee, false)

/-- The six candidate vectors of the scan, indexed by bucket. -/
def Buckets := RK → List (Nat × Nat)

/-- All six buckets empty. -/
def emptyB : Buckets := fun _ => []

/-- `Vec::push` onto one bucket. -/
def push (bs : Buckets) (k : RK) (pr : Nat × Nat) : Buckets :=
  fun k2 => if k2 = k then bs k2 ++ [pr] else bs k2

/-- The scan body for one arena entry `(a, n)`: `none` is a panic
(`extract` on an invalid port 0, or `node(b)` on a dead partner);
`some none` pushes nothing; `some (some (k, pr))` pushes `pr` on bucket `k`. -/
def entryStep (net : Net) (en : Nat × Node) : Option (Option (RK × (Nat × Nat))) :=
  match en.2.port 0 with
  | none => none
  | some .Invalid => none
  | some (.Valid b p) =>
    if p = 0 ∧ en.1 < b then
      match net.node? b with
      | none => none
      | some m =>
        some (some ((classify en.2.kind m.kind).1,
          if (classify en.2.kind m.kind).2 then (b, en.1) else (en.1, b)))
    else some none

/-- The scan loop of `Net::step` over a list of arena entries. -/
def scanList (net : Net) : List (Nat × Node) → Buckets → Option Buckets
  | [], bs => some bs
  | en :: t, bs =>
    match entryStep net en with
    | none => none
    | some none => scanList net t bs
    | some (some (k, pr)) => scanList net t (push bs k pr)

/-- The full scan of `Net::step`: classify every active pair into its bucket. -/
def Net.scan (net : Net) : Option Buckets := scanList net net.nodes emptyB

/-- `Vec::pop`: the last element of a candidate vector. -/
def lastP : List (Nat × Nat) → Option (Nat × Nat)
  | [] => none
  | [x] => some x
  | _ :: y :: t => lastP (y :: t)

/-- The `pop` cascade of `Net::step`: the last element of the first non-empty
bucket in the fixed priority order ee, de, ce, dd, cc, cd. -/
def chosen (bs : Buckets) : Option (RK × (Nat × Nat)) :=
  match lastP (bs .ee) with
  | some pr => some (.ee, pr)
  | none =>
  match lastP (bs .de) with
  | some pr => some (.de, pr)
  | none =>
  match lastP (bs .ce) with
  | some pr => some (.ce, pr)
  | none =>
  match lastP (bs .dd) with
  | some pr => some (.dd, pr)
  | none =>
  match lastP (bs .cc) with
  | some pr => some (.cc, pr)
  | none =>
  match lastP (bs .cd) with
  | some pr => some (.cd, pr)
  | none => none

/-- Dispatch from a bucket to its rewrite rule. -/
def Net.evalRule (net : Net) : RK → Nat → Nat → Option Net
  | .ee, a, b => net.eval_ee a b
  | .de, a, b => net.eval_de a b
  | .ce, a, b => net.eval_ce a b
  | .dd, a, b => net.eval_dd a b
  | .cc, a, b => net.eval_cc a b
  | .cd, a, b => net.eval_cd a b

/-- `Net::step`: scan, pick one pair by priority, apply its rule.  Returns
`some (true, _)` after a rewrite, `some (false, net)` in normal form, and
`none` if the source would panic. -/
def Net.step (net : Net) : Option (Bool × Net) :=
  (net.scan).bind fun bs =>
  match chosen bs with
  | none => some (false, net)
  | some kpr => (net.evalRule kpr.1 kpr.2.1 kpr.2.2).map fun m => (true, m)

/-- `Net::new()`: the canonical seed net, built by the source's exact
create/connect sequence starting from the empty arena. -/
def Net.newO : Option Net :=
  (Net.create ⟨[], 0⟩ Node.erase).bind fun an =>
  (an.2.create Node.erase).bind fun bn =>
  (bn.2.create Node.construct).bind fun cn =>
  (cn.2.create Node.duplicate).bind fun dn =>
  (dn.2.connect (.Valid an.1 0) (.Valid cn.1 1)).bind fun n5 =>
  (n5.connect (.Valid cn.1 2) (.Valid dn.1 1)).bind fun n6 =>
  (n6.connect (.Valid dn.1 2) (.Valid bn.1 0)).bind fun n7 =>
  n7.connect (.Valid cn.1 0) (.Valid dn.1 0)

/-- The state after `n` calls to `step()` starting from `Net::new()`;
`none` if construction or any step panicked on the way. -/
def iterN : Nat → Option Net
  | 0 => Net.newO
  | n + 1 => (iterN n).bind fun s => (s.step).map Prod.snd

/-- Shorthand for an Erase node with one wired port. -/
def eN (x : Port) : Node := ⟨.erase, [x]⟩

/-- Shorthand for a Construct node with three wired ports. -/
def cN (x y z : Port) : Node := ⟨.construct, [x, y, z]⟩

/-- Shorthand for a Duplicate node with three wired ports. -/
def dN (x y z : Port) : Node := ⟨.duplicate, [x, y, z]⟩

/-- The seed net as a literal: the value of `Net::new()`. -/
def seedNet : Net :=
  ⟨[(0, eN (.Valid 2 1)), (1, eN (.Valid 3 2)),
    (2, cN (.Valid 3 0) (.Valid 0 0) (.Valid 3 1)),
    (3, dN (.Valid 2 0) (.Valid 2 2) (.Valid 1 0))], 4⟩

/-- The state one step after the seed (a Construct–Duplicate commutation). -/
def st1 : Net :=
  ⟨[(0, eN (.Valid 5 0)), (1, eN (.Valid 4 0)),
    (2, cN (.Valid 3 0) (.Valid 5 1) (.Valid 3 1)),
    (3, dN (.Valid 2 0) (.Valid 2 2) (.Valid 4 2)),
    (4, cN (.Valid 1 0) (.Valid 5 2) (.Valid 3 2)),
    (5, dN (.Valid 0 0) (.Valid 2 1) (.Valid 4 1))], 6⟩

/-- The state two steps after the seed (after a Duplicate–Erase reduction). -/
def st2 : Net :=
  ⟨[(0, eN (.Valid 2 1)), (1, eN (.Valid 4 0)),
    (2, cN (.Valid 3 0) (.Valid 0 0) (.Valid 3 1)),
    (3, dN (.Valid 2 0) (.Valid 2 2) (.Valid 4 2)),
    (4, cN (.Valid 1 0) (.Valid 6 0) (.Valid 3 2)),
    (6, eN (.Valid 4 1))], 7⟩

/-- The state three steps after the seed (after a Construct–Erase reduction). -/
def st3 : Net :=
  ⟨[(0, eN (.Valid 2 1)), (1, eN (.Valid 6 0)),
    (2, cN (.Valid 3 0) (.Valid 0 0) (.Valid 3 1)),
    (3, dN (.Valid 2 0) (.Valid 2 2) (.Valid 7 0)),
    (6, eN (.Valid 1 0)), (7, eN (.Valid 3 2))], 8⟩

/-- Phase-A state of the eventual period-4 cycle (4 agents, fresh Erase id `e`). -/
def netA (e : Nat) : Net :=
  ⟨[(0, eN (.Valid 2 1)),
    (2, cN (.Valid 3 0) (.Valid 0 0) (.Valid 3 1)),
    (3, dN (.Valid 2 0) (.Valid 2 2) (.Valid e 0)),
    (e, eN (.Valid 3 2))], e + 1⟩

/-- Phase-B state: phase A after the Construct–Duplicate commutation. -/
def netB (e : Nat) : Net :=
  ⟨[(0, eN (.Valid (e + 2) 0)),
    (2, cN (.Valid 3 0) (.Valid (e + 2) 1) (.Valid 3 1)),
    (3, dN (.Valid 2 0) (.Valid 2 2) (.Valid (e + 1) 2)),
    (e, eN (.Valid (e + 1) 0)),
    (e + 1, cN (.Valid e 0) (.Valid (e + 2) 2) (.Valid 3 2)),
    (e + 2, dN (.Valid 0 0) (.Valid 2 1) (.Valid (e + 1) 1))], e + 3⟩

/-- Phase-C state: phase B after the Duplicate–Erase reduction. -/
def netC (e : Nat) : Net :=
  ⟨[(0, eN (.Valid 2 1)),
    (2, cN (.Valid 3 0) (.Valid 0 0) (.Valid 3 1)),
    (3, dN (.Valid 2 0) (.Valid 2 2) (.Valid (e + 1) 2)),
    (e, eN (.Valid (e + 1) 0)),
    (e + 1, cN (.Valid e 0) (.Valid (e + 3) 0) (.Valid 3 2)),
    (e + 3, eN (.Valid (e + 1) 1))], e + 4⟩

/-- Phase-D state: phase C after the Construct–Erase reduction. -/
def netD (e : Nat) : Net :=
  ⟨[(0, eN (.Valid 2 1)),
    (2, cN (.Valid 3 0) (.Valid 0 0) (.Valid 3 1)),
    (3, dN (.Valid 2 0) (.Valid 2 2) (.Valid (e + 4) 0)),
    (e, eN (.Valid (e + 3) 0)),
    (e + 3, eN (.Valid e 0)),
    (e + 4, eN (.Valid 3 2))], e + 5⟩

example : Net.newO = some seedNet := by decide

example : iterN 2 = some st2 := by decide

example : iterN 3 = some st3 := by decide

example : iterN 4 = some (netA 7) := by decide

example : iterN 5 = some (netB 7) := by decide

example : iterN 6 = some (netC 7) := by decide

example : iterN 7 = some (netD 7) := by decide

example : iterN 8 = some (netA 11) := by decide

example : iterN 1 = some
  ⟨[(0, eN (.Valid 5 0)), (1, eN (.Valid 4 0)),
    (2, cN (.Valid 3 0) (.Valid 5 1) (.Valid 3 1)),
    (3, dN (.Valid 2 0) (.Valid 2 2) (.Valid 4 2)),
    (4, cN (.Valid 1 0) (.Valid 5 2) (.Valid 3 2)),
    (5, dN (.Valid 0 0) (.Valid 2 1) (.Valid 4 1))], 6⟩ := by decide

theorem lookupN_nil (a : Nat) : lookupN [] a = none := rfl

theorem lookupN_cons_self (t : List (Nat × Node)) (k : Nat) (n : Node) :
    lookupN ((k, n) :: t) k = some n := by simp [lookupN]

theorem lookupN_cons_ne (t : List (Nat × Node)) (k a : Nat) (n : Node) (h : a ≠ k) :
    lookupN ((k, n) :: t) a = lookupN t a := by simp [lookupN, h]

theorem replaceK_nil (a : Nat) (m : Node) : replaceK [] a m = [] := rfl

theorem replaceK_cons_self (t : List (Nat × Node)) (k : Nat) (n m : Node) :
    replaceK ((k, n) :: t) k m = (k, m) :: replaceK t k m := by simp [replaceK]

theorem replaceK_cons_ne (t : List (Nat × Node)) (k a : Nat) (n m : Node) (h : k ≠ a) :
    replaceK ((k, n) :: t) a m = (k, n) :: replaceK t a m := by simp [replaceK, h]

theorem removeK_nil (a : Nat) : removeK [] a = [] := rfl

theorem removeK_cons_self (t : List (Nat × Node)) (k : Nat) (n : Node) :
    removeK ((k, n) :: t) k = t := by simp [removeK]

theorem removeK_cons_ne (t : List (Nat × Node)) (k a : Nat) (n : Node) (h : k ≠ a) :
    removeK ((k, n) :: t) a = (k, n) :: removeK t a := by simp [removeK, h]



/-- One `step()` on a phase-A state performs the Construct-Duplicate commutation
and yields the phase-B state. -/
theorem stepPhaseA (e : Nat) (he : 4 ≤ e) : (netA e).step = some (true, netB e) := by
  have f1 : 0 ≠ e := by omega
  have f2 : e ≠ 0 := by omega
  have f3 : 2 ≠ e := by omega
  have f4 : e ≠ 2 := by omega
  have f5 : 3 ≠ e := by omega
  have f6 : e ≠ 3 := by omega
  have f7 : 0 ≠ e + 1 := by omega
  have f8 : e + 1 ≠ 0 := by omega
  have f9 : 2 ≠ e + 1 := by omega
  have f10 : e + 1 ≠ 2 := by omega
  have f11 : 3 ≠ e + 1 := by omega
  have f12 : e + 1 ≠ 3 := by omega
  have f13 : 0 ≠ e + 2 := by omega
  have f14 : e + 2 ≠ 0 := by omega
  have f15 : 2 ≠ e + 2 := by omega
  have f16 : e + 2 ≠ 2 := by omega
  have f17 : 3 ≠ e + 2 := by omega
  have f18 : e + 2 ≠ 3 := by omega
  have f19 : 0 ≠ e + 3 := by omega
  have f20 : e + 3 ≠ 0 := by omega
  have f21 : 2 ≠ e + 3 := by omega
  have f22 : e + 3 ≠ 2 := by omega
  have f23 : 3 ≠ e + 3 := by omega
  have f24 : e + 3 ≠ 3 := by omega
  have f25 : 0 ≠ e + 4 := by omega
  have f26 : e + 4 ≠ 0 := by omega
  have f27 : 2 ≠ e + 4 := by omega
  have f28 : e + 4 ≠ 2 := by omega
  have f29 : 3 ≠ e + 4 := by omega
  have f30 : e + 4 ≠ 3 := by omega
  have f31 : e ≠ e + 1 := by omega
  have f32 : e + 1 ≠ e := by omega
  have f33 : e ≠ e + 2 := by omega
  have f34 : e + 2 ≠ e := by omega
  have f35 : e ≠ e + 3 := by omega
  have f36 : e + 3 ≠ e := by omega
  have f37 : e ≠ e + 4 := by omega
  have f38 : e + 4 ≠ e := by omega
  have f39 : e + 1 ≠ e + 2 := by omega
  have f40 : e + 2 ≠ e + 1 := by omega
  have f41 : e + 1 ≠ e + 3 := by omega
  have f42 : e + 3 ≠ e + 1 := by omega
  have f43 : e + 1 ≠ e + 4 := by omega
  have f44 : e + 4 ≠ e + 1 := by omega
  have f45 : e + 2 ≠ e + 3 := by omega
  have f46 : e + 3 ≠ e + 2 := by omega
  have f47 : e + 2 ≠ e + 4 := by omega
  have f48 : e + 4 ≠ e + 2 := by omega
  have f49 : e + 3 ≠ e + 4 := by omega
  have f50 : e + 4 ≠ e + 3 := by omega
  have ha1 : e + 1 + 1 = e + 2 := rfl
  have ha2 : e + 2 + 1 = e + 3 := rfl
  have ha3 : e + 3 + 1 = e + 4 := rfl
  have ha4 : e + 4 + 1 = e + 5 := rfl
  have hp1 : 0 < e + 2 := by omega
  have hp2 : e < e + 1 := by omega
  have hp3 : e < e + 3 := by omega
  have hn1 : ¬ (e + 1 < e) := by omega
  have hn2 : ¬ (e + 3 < e) := by omega
  have hscan : (netA e).scan = some (push emptyB .cd (2, 3)) := rfl
  have hch : chosen (push emptyB .cd (2, 3)) = some (.cd, (2, 3)) := rfl
  have s1 : (netA e).create Node.construct =
      some (e + 1, ⟨[(0, eN (.Valid 2 1)), (2, cN (.Valid 3 0) (.Valid 0 0) (.Valid 3 1)), (3, dN (.Valid 2 0) (.Valid 2 2) (.Valid e 0)), (e, eN (.Valid 3 2)), (e + 1, Node.construct)], e + 2⟩) := by
    simp [Net.connect, Net.setSlot, Net.get, Net.create, Net.delete, Net.node?, Node.setPort, Node.port, eN, cN, dN, Node.construct, Node.duplicate, Node.erase, List.set, lookupN_nil, lookupN_cons_self, lookupN_cons_ne, replaceK_nil, replaceK_cons_self, replaceK_cons_ne, removeK_nil, removeK_cons_self, removeK_cons_ne, Nat.not_lt_zero, netA, f1, f2, f3, f4, f5, f6, f7, f8, f9, f10, f11, f12, f13, f14, f15, f16, f17, f18, f19, f20, f21, f22, f23, f24, f25, f26, f27, f28, f29, f30, f31, f32, f33, f34, f35, f36, f37, f38, f39, f40, f41, f42, f43, f44, f45, f46, f47, f48, f49, f50, ha1, ha2, ha3, ha4, hp1, hp2, hp3, hn1, hn2]

  have s2 : Net.create ⟨[(0, eN (.Valid 2 1)), (2, cN (.Valid 3 0) (.Valid 0 0) (.Valid 3 1)), (3, dN (.Valid 2 0) (.Valid 2 2) (.Valid e 0)), (e, eN (.Valid 3 2)), (e + 1, Node.construct)], e + 2⟩ Node.duplicate =
      some (e + 2, ⟨[(0, eN (.Valid 2 1)), (2, cN (.Valid 3 0) (.Valid 0 0) (.Valid 3 1)), (3, dN (.Valid 2 0) (.Valid 2 2) (.Valid e 0)), (e, eN (.Valid 3 2)), (e + 1, Node.construct), (e + 2, Node.duplicate)], e + 3⟩) := by
    simp [Net.connect, Net.setSlot, Net.get, Net.create, Net.delete, Net.node?, Node.setPort, Node.port, eN, cN, dN, Node.construct, Node.duplicate, Node.erase, List.set, lookupN_nil, lookupN_cons_self, lookupN_cons_ne, replaceK_nil, replaceK_cons_self, replaceK_cons_ne, removeK_nil, removeK_cons_self, removeK_cons_ne, Nat.not_lt_zero, f1, f2, f3, f4, f5, f6, f7, f8, f9, f10, f11, f12, f13, f14, f15, f16, f17, f18, f19, f20, f21, f22, f23, f24, f25, f26, f27, f28, f29, f30, f31, f32, f33, f34, f35, f36, f37, f38, f39, f40, f41, f42, f43, f44, f45, f46, f47, f48, f49, f50, ha1, ha2, ha3, ha4, hp1, hp2, hp3, hn1, hn2]

  have g1 : Net.get ⟨[(0, eN (.Valid 2 1)), (2, cN (.Valid 3 0) (.Valid 0 0) (.Valid 3 1)), (3, dN (.Valid 2 0) (.Valid 2 2) (.Valid e 0)), (e, eN (.Valid 3 2)), (e + 1, Node.construct), (e + 2, Node.duplicate)], e + 3⟩ (.Valid 2 1) =
      some (.Valid 0 0) := by
    simp [Net.connect, Net.setSlot, Net.get, Net.create, Net.delete, Net.node?, Node.setPort, Node.port, eN, cN, dN, Node.construct, Node.duplicate, Node.erase, List.set, lookupN_nil, lookupN_cons_self, lookupN_cons_ne, replaceK_nil, replaceK_cons_self, replaceK_cons_ne, removeK_nil, removeK_cons_self, removeK_cons_ne, Nat.not_lt_zero, f1, f2, f3, f4, f5, f6, f7, f8, f9, f10, f11, f12, f13, f14, f15, f16, f17, f18, f19, f20, f21, f22, f23, f24, f25, f26, f27, f28, f29, f30, f31, f32, f33, f34, f35, f36, f37, f38, f39, f40, f41, f42, f43, f44, f45, f46, f47, f48, f49, f50, ha1, ha2, ha3, ha4, hp1, hp2, hp3, hn1, hn2]

  have c1 : Net.connect ⟨[(0, eN (.Valid 2 1)), (2, cN (.Valid 3 0) (.Valid 0 0) (.Valid 3 1)), (3, dN (.Valid 2 0) (.Valid 2 2) (.Valid e 0)), (e, eN (.Valid 3 2)), (e + 1, Node.construct), (e + 2, Node.duplicate)], e + 3⟩ (.Valid 0 0) (.Valid (e + 2) 0) =
      some ⟨[(0, eN (.Valid (e + 2) 0)), (2, cN (.Valid 3 0) (.Valid 0 0) (.Valid 3 1)), (3, dN (.Valid 2 0) (.Valid 2 2) (.Valid e 0)), (e, eN (.Valid 3 2)), (e + 1, Node.construct), (e + 2, dN (.Valid 0 0) .Invalid .Invalid)], e + 3⟩ := by
    simp [Net.connect, Net.setSlot, Net.get, Net.create, Net.delete, Net.node?, Node.setPort, Node.port, eN, cN, dN, Node.construct, Node.duplicate, Node.erase, List.set, lookupN_nil, lookupN_cons_self, lookupN_cons_ne, replaceK_nil, replaceK_cons_self, replaceK_cons_ne, removeK_nil, removeK_cons_self, removeK_cons_ne, Nat.not_lt_zero, f1, f2, f3, f4, f5, f6, f7, f8, f9, f10, f11, f12, f13, f14, f15, f16, f17, f18, f19, f20, f21, f22, f23, f24, f25, f26, f27, f28, f29, f30, f31, f32, f33, f34, f35, f36, f37, f38, f39, f40, f41, f42, f43, f44, f45, f46, f47, f48, f49, f50, ha1, ha2, ha3, ha4, hp1, hp2, hp3, hn1, hn2]

  have g2 : Net.get ⟨[(0, eN (.Valid (e + 2) 0)), (2, cN (.Valid 3 0) (.Valid 0 0) (.Valid 3 1)), (3, dN (.Valid 2 0) (.Valid 2 2) (.Valid e 0)), (e, eN (.Valid 3 2)), (e + 1, Node.construct), (e + 2, dN (.Valid 0 0) .Invalid .Invalid)], e + 3⟩ (.Valid 2 2) =
      some (.Valid 3 1) := by
    simp [Net.connect, Net.setSlot, Net.get, Net.create, Net.delete, Net.node?, Node.setPort, Node.port, eN, cN, dN, Node.construct, Node.duplicate, Node.erase, List.set, lookupN_nil, lookupN_cons_self, lookupN_cons_ne, replaceK_nil, replaceK_cons_self, replaceK_cons_ne, removeK_nil, removeK_cons_self, removeK_cons_ne, Nat.not_lt_zero, f1, f2, f3, f4, f5, f6, f7, f8, f9, f10, f11, f12, f13, f14, f15, f16, f17, f18, f19, f20, f21, f22, f23, f24, f25, f26, f27, f28, f29, f30, f31, f32, f33, f34, f35, f36, f37, f38, f39, f40, f41, f42, f43, f44, f45, f46, f47, f48, f49, f50, ha1, ha2, ha3, ha4, hp1, hp2, hp3, hn1, hn2]

  have c2 : Net.connect ⟨[(0, eN (.Valid (e + 2) 0)), (2, cN (.Valid 3 0) (.Valid 0 0) (.Valid 3 1)), (3, dN (.Valid 2 0) (.Valid 2 2) (.Valid e 0)), (e, eN (.Valid 3 2)), (e + 1, Node.construct), (e + 2, dN (.Valid 0 0) .Invalid .Invalid)], e + 3⟩ (.Valid 3 1) (.Valid 3 0) =
      some ⟨[(0, eN (.Valid (e + 2) 0)), (2, cN (.Valid 3 0) (.Valid 0 0) (.Valid 3 1)), (3, dN (.Valid 3 1) (.Valid 3 0) (.Valid e 0)), (e, eN (.Valid 3 2)), (e + 1, Node.construct), (e + 2, dN (.Valid 0 0) .Invalid .Invalid)], e + 3⟩ := by
    simp [Net.connect, Net.setSlot, Net.get, Net.create, Net.delete, Net.node?, Node.setPort, Node.port, eN, cN, dN, Node.construct, Node.duplicate, Node.erase, List.set, lookupN_nil, lookupN_cons_self, lookupN_cons_ne, replaceK_nil, replaceK_cons_self, replaceK_cons_ne, removeK_nil, removeK_cons_self, removeK_cons_ne, Nat.not_lt_zero, f1, f2, f3, f4, f5, f6, f7, f8, f9, f10, f11, f12, f13, f14, f15, f16, f17, f18, f19, f20, f21, f22, f23, f24, f25, f26, f27, f28, f29, f30, f31, f32, f33, f34, f35, f36, f37, f38, f39, f40, f41, f42, f43, f44, f45, f46, f47, f48, f49, f50, ha1, ha2, ha3, ha4, hp1, hp2, hp3, hn1, hn2]

  have g3 : Net.get ⟨[(0, eN (.Valid (e + 2) 0)), (2, cN (.Valid 3 0) (.Valid 0 0) (.Valid 3 1)), (3, dN (.Valid 3 1) (.Valid 3 0) (.Valid e 0)), (e, eN (.Valid 3 2)), (e + 1, Node.construct), (e + 2, dN (.Valid 0 0) .Invalid .Invalid)], e + 3⟩ (.Valid 3 1) =
      some (.Valid 3 0) := by
    simp [Net.connect, Net.setSlot, Net.get, Net.create, Net.delete, Net.node?, Node.setPort, Node.port, eN, cN, dN, Node.construct, Node.duplicate, Node.erase, List.set, lookupN_nil, lookupN_cons_self, lookupN_cons_ne, replaceK_nil, replaceK_cons_self, replaceK_cons_ne, removeK_nil, removeK_cons_self, removeK_cons_ne, Nat.not_lt_zero, f1, f2, f3, f4, f5, f6, f7, f8, f9, f10, f11, f12, f13, f14, f15, f16, f17, f18, f19, f20, f21, f22, f23, f24, f25, f26, f27, f28, f29, f30, f31, f32, f33, f34, f35, f36, f37, f38, f39, f40, f41, f42, f43, f44, f45, f46, f47, f48, f49, f50, ha1, ha2, ha3, ha4, hp1, hp2, hp3, hn1, hn2]

  have c3 : Net.connect ⟨[(0, eN (.Valid (e + 2) 0)), (2, cN (.Valid 3 0) (.Valid 0 0) (.Valid 3 1)), (3, dN (.Valid 3 1) (.Valid 3 0) (.Valid e 0)), (e, eN (.Valid 3 2)), (e + 1, Node.construct), (e + 2, dN (.Valid 0 0) .Invalid .Invalid)], e + 3⟩ (.Valid 3 0) (.Valid 2 0) =
      some ⟨[(0, eN (.Valid (e + 2) 0)), (2, cN (.Valid 3 0) (.Valid 0 0) (.Valid 3 1)), (3, dN (.Valid 2 0) (.Valid 3 0) (.Valid e 0)), (e, eN (.Valid 3 2)), (e + 1, Node.construct), (e + 2, dN (.Valid 0 0) .Invalid .Invalid)], e + 3⟩ := by
    simp [Net.connect, Net.setSlot, Net.get, Net.create, Net.delete, Net.node?, Node.setPort, Node.port, eN, cN, dN, Node.construct, Node.duplicate, Node.erase, List.set, lookupN_nil, lookupN_cons_self, lookupN_cons_ne, replaceK_nil, replaceK_cons_self, replaceK_cons_ne, removeK_nil, removeK_cons_self, removeK_cons_ne, Nat.not_lt_zero, f1, f2, f3, f4, f5, f6, f7, f8, f9, f10, f11, f12, f13, f14, f15, f16, f17, f18, f19, f20, f21, f22, f23, f24, f25, f26, f27, f28, f29, f30, f31, f32, f33, f34, f35, f36, f37, f38, f39, f40, f41, f42, f43, f44, f45, f46, f47, f48, f49, f50, ha1, ha2, ha3, ha4, hp1, hp2, hp3, hn1, hn2]

  have g4 : Net.get ⟨[(0, eN (.Valid (e + 2) 0)), (2, cN (.Valid 3 0) (.Valid 0 0) (.Valid 3 1)), (3, dN (.Valid 2 0) (.Valid 3 0) (.Valid e 0)), (e, eN (.Valid 3 2)), (e + 1, Node.construct), (e + 2, dN (.Valid 0 0) .Invalid .Invalid)], e + 3⟩ (.Valid 3 2) =
      some (.Valid e 0) := by
    simp [Net.connect, Net.setSlot, Net.get, Net.create, Net.delete, Net.node?, Node.setPort, Node.port, eN, cN, dN, Node.construct, Node.duplicate, Node.erase, List.set, lookupN_nil, lookupN_cons_self, lookupN_cons_ne, replaceK_nil, replaceK_cons_self, replaceK_cons_ne, removeK_nil, removeK_cons_self, removeK_cons_ne, Nat.not_lt_zero, f1, f2, f3, f4, f5, f6, f7, f8, f9, f10, f11, f12, f13, f14, f15, f16, f17, f18, f19, f20, f21, f22, f23, f24, f25, f26, f27, f28, f29, f30, f31, f32, f33, f34, f35, f36, f37, f38, f39, f40, f41, f42, f43, f44, f45, f46, f47, f48, f49, f50, ha1, ha2, ha3, ha4, hp1, hp2, hp3, hn1, hn2]

  have c4 : Net.connect ⟨[(0, eN (.Valid (e + 2) 0)), (2, cN (.Valid 3 0) (.Valid 0 0) (.Valid 3 1)), (3, dN (.Valid 2 0) (.Valid 3 0) (.Valid e 0)), (e, eN (.Valid 3 2)), (e + 1, Node.construct), (e + 2, dN (.Valid 0 0) .Invalid .Invalid)], e + 3⟩ (.Valid e 0) (.Valid (e + 1) 0) =
      some ⟨[(0, eN (.Valid (e + 2) 0)), (2, cN (.Valid 3 0) (.Valid 0 0) (.Valid 3 1)), (3, dN (.Valid 2 0) (.Valid 3 0) (.Valid e 0)), (e, eN (.Valid (e + 1) 0)), (e + 1, cN (.Valid e 0) .Invalid .Invalid), (e + 2, dN (.Valid 0 0) .Invalid .Invalid)], e + 3⟩ := by
    simp [Net.connect, Net.setSlot, Net.get, Net.create, Net.delete, Net.node?, Node.setPort, Node.port, eN, cN, dN, Node.construct, Node.duplicate, Node.erase, List.set, lookupN_nil, lookupN_cons_self, lookupN_cons_ne, replaceK_nil, replaceK_cons_self, replaceK_cons_ne, removeK_nil, removeK_cons_self, removeK_cons_ne, Nat.not_lt_zero, f1, f2, f3, f4, f5, f6, f7, f8, f9, f10, f11, f12, f13, f14, f15, f16, f17, f18, f19, f20, f21, f22, f23, f24, f25, f26, f27, f28, f29, f30, f31, f32, f33, f34, f35, f36, f37, f38, f39, f40, f41, f42, f43, f44, f45, f46, f47, f48, f49, f50, ha1, ha2, ha3, ha4, hp1, hp2, hp3, hn1, hn2]

  have c5 : Net.connect ⟨[(0, eN (.Valid (e + 2) 0)), (2, cN (.Valid 3 0) (.Valid 0 0) (.Valid 3 1)), (3, dN (.Valid 2 0) (.Valid 3 0) (.Valid e 0)), (e, eN (.Valid (e + 1) 0)), (e + 1, cN (.Valid e 0) .Invalid .Invalid), (e + 2, dN (.Valid 0 0) .Invalid .Invalid)], e + 3⟩ (.Valid 3 1) (.Valid 2 2) =
      some ⟨[(0, eN (.Valid (e + 2) 0)), (2, cN (.Valid 3 0) (.Valid 0 0) (.Valid 3 1)), (3, dN (.Valid 2 0) (.Valid 2 2) (.Valid e 0)), (e, eN (.Valid (e + 1) 0)), (e + 1, cN (.Valid e 0) .Invalid .Invalid), (e + 2, dN (.Valid 0 0) .Invalid .Invalid)], e + 3⟩ := by
    simp [Net.connect, Net.setSlot, Net.get, Net.create, Net.delete, Net.node?, Node.setPort, Node.port, eN, cN, dN, Node.construct, Node.duplicate, Node.erase, List.set, lookupN_nil, lookupN_cons_self, lookupN_cons_ne, replaceK_nil, replaceK_cons_self, replaceK_cons_ne, removeK_nil, removeK_cons_self, removeK_cons_ne, Nat.not_lt_zero, f1, f2, f3, f4, f5, f6, f7, f8, f9, f10, f11, f12, f13, f14, f15, f16, f17, f18, f19, f20, f21, f22, f23, f24, f25, f26, f27, f28, f29, f30, f31, f32, f33, f34, f35, f36, f37, f38, f39, f40, f41, f42, f43, f44, f45, f46, f47, f48, f49, f50, ha1, ha2, ha3, ha4, hp1, hp2, hp3, hn1, hn2]

  have c6 : Net.connect ⟨[(0, eN (.Valid (e + 2) 0)), (2, cN (.Valid 3 0) (.Valid 0 0) (.Valid 3 1)), (3, dN (.Valid 2 0) (.Valid 2 2) (.Valid e 0)), (e, eN (.Valid (e + 1) 0)), (e + 1, cN (.Valid e 0) .Invalid .Invalid), (e + 2, dN (.Valid 0 0) .Invalid .Invalid)], e + 3⟩ (.Valid 3 2) (.Valid (e + 1) 2) =
      some ⟨[(0, eN (.Valid (e + 2) 0)), (2, cN (.Valid 3 0) (.Valid 0 0) (.Valid 3 1)), (3, dN (.Valid 2 0) (.Valid 2 2) (.Valid (e + 1) 2)), (e, eN (.Valid (e + 1) 0)), (e + 1, cN (.Valid e 0) .Invalid (.Valid 3 2)), (e + 2, dN (.Valid 0 0) .Invalid .Invalid)], e + 3⟩ := by
    simp [Net.connect, Net.setSlot, Net.get, Net.create, Net.delete, Net.node?, Node.setPort, Node.port, eN, cN, dN, Node.construct, Node.duplicate, Node.erase, List.set, lookupN_nil, lookupN_cons_self, lookupN_cons_ne, replaceK_nil, replaceK_cons_self, replaceK_cons_ne, removeK_nil, removeK_cons_self, removeK_cons_ne, Nat.not_lt_zero, f1, f2, f3, f4, f5, f6, f7, f8, f9, f10, f11, f12, f13, f14, f15, f16, f17, f18, f19, f20, f21, f22, f23, f24, f25, f26, f27, f28, f29, f30, f31, f32, f33, f34, f35, f36, f37, f38, f39, f40, f41, f42, f43, f44, f45, f46, f47, f48, f49, f50, ha1, ha2, ha3, ha4, hp1, hp2, hp3, hn1, hn2]

  have c7 : Net.connect ⟨[(0, eN (.Valid (e + 2) 0)), (2, cN (.Valid 3 0) (.Valid 0 0) (.Valid 3 1)), (3, dN (.Valid 2 0) (.Valid 2 2) (.Valid (e + 1) 2)), (e, eN (.Valid (e + 1) 0)), (e + 1, cN (.Valid e 0) .Invalid (.Valid 3 2)), (e + 2, dN (.Valid 0 0) .Invalid .Invalid)], e + 3⟩ (.Valid (e + 2) 1) (.Valid 2 1) =
      some ⟨[(0, eN (.Valid (e + 2) 0)), (2, cN (.Valid 3 0) (.Valid (e + 2) 1) (.Valid 3 1)), (3, dN (.Valid 2 0) (.Valid 2 2) (.Valid (e + 1) 2)), (e, eN (.Valid (e + 1) 0)), (e + 1, cN (.Valid e 0) .Invalid (.Valid 3 2)), (e + 2, dN (.Valid 0 0) (.Valid 2 1) .Invalid)], e + 3⟩ := by
    simp [Net.connect, Net.setSlot, Net.get, Net.create, Net.delete, Net.node?, Node.setPort, Node.port, eN, cN, dN, Node.construct, Node.duplicate, Node.erase, List.set, lookupN_nil, lookupN_cons_self, lookupN_cons_ne, replaceK_nil, replaceK_cons_self, replaceK_cons_ne, removeK_nil, removeK_cons_self, removeK_cons_ne, Nat.not_lt_zero, f1, f2, f3, f4, f5, f6, f7, f8, f9, f10, f11, f12, f13, f14, f15, f16, f17, f18, f19, f20, f21, f22, f23, f24, f25, f26, f27, f28, f29, f30, f31, f32, f33, f34, f35, f36, f37, f38, f39, f40, f41, f42, f43, f44, f45, f46, f47, f48, f49, f50, ha1, ha2, ha3, ha4, hp1, hp2, hp3, hn1, hn2]

  have c8 : Net.connect ⟨[(0, eN (.Valid (e + 2) 0)), (2, cN (.Valid 3 0) (.Valid (e + 2) 1) (.Valid 3 1)), (3, dN (.Valid 2 0) (.Valid 2 2) (.Valid (e + 1) 2)), (e, eN (.Valid (e + 1) 0)), (e + 1, cN (.Valid e 0) .Invalid (.Valid 3 2)), (e + 2, dN (.Valid 0 0) (.Valid 2 1) .Invalid)], e + 3⟩ (.Valid (e + 2) 2) (.Valid (e + 1) 1) =
      some (netB e) := by
    simp [Net.connect, Net.setSlot, Net.get, Net.create, Net.delete, Net.node?, Node.setPort, Node.port, eN, cN, dN, Node.construct, Node.duplicate, Node.erase, List.set, lookupN_nil, lookupN_cons_self, lookupN_cons_ne, replaceK_nil, replaceK_cons_self, replaceK_cons_ne, removeK_nil, removeK_cons_self, removeK_cons_ne, Nat.not_lt_zero, netB, f1, f2, f3, f4, f5, f6, f7, f8, f9, f10, f11, f12, f13, f14, f15, f16, f17, f18, f19, f20, f21, f22, f23, f24, f25, f26, f27, f28, f29, f30, f31, f32, f33, f34, f35, f36, f37, f38, f39, f40, f41, f42, f43, f44, f45, f46, f47, f48, f49, f50, ha1, ha2, ha3, ha4, hp1, hp2, hp3, hn1, hn2]

  simp [Net.step, hscan, hch, Net.evalRule, Net.eval_cd,
    s1, s2, g1, c1, g2, c2, g3, c3, g4, c4, c5, c6, c7, c8]

/-- One `step()` on a phase-B state performs the Duplicate-Erase reduction
(the highest-priority non-empty bucket) and yields the phase-C state. -/
theorem stepPhaseB (e : Nat) (he : 4 ≤ e) : (netB e).step = some (true, netC e) := by
  have f1 : 0 ≠ e := by omega
  have f2 : e ≠ 0 := by omega
  have f3 : 2 ≠ e := by omega
  have f4 : e ≠ 2 := by omega
  have f5 : 3 ≠ e := by omega
  have f6 : e ≠ 3 := by omega
  have f7 : 0 ≠ e + 1 := by omega
  have f8 : e + 1 ≠ 0 := by omega
  have f9 : 2 ≠ e + 1 := by omega
  have f10 : e + 1 ≠ 2 := by omega
  have f11 : 3 ≠ e + 1 := by omega
  have f12 : e + 1 ≠ 3 := by omega
  have f13 : 0 ≠ e + 2 := by omega
  have f14 : e + 2 ≠ 0 := by omega
  have f15 : 2 ≠ e + 2 := by omega
  have f16 : e + 2 ≠ 2 := by omega
  have f17 : 3 ≠ e + 2 := by omega
  have f18 : e + 2 ≠ 3 := by omega
  have f19 : 0 ≠ e + 3 := by omega
  have f20 : e + 3 ≠ 0 := by omega
  have f21 : 2 ≠ e + 3 := by omega
  have f22 : e + 3 ≠ 2 := by omega
  have f23 : 3 ≠ e + 3 := by omega
  have f24 : e + 3 ≠ 3 := by omega
  have f25 : 0 ≠ e + 4 := by omega
  have f26 : e + 4 ≠ 0 := by omega
  have f27 : 2 ≠ e + 4 := by omega
  have f28 : e + 4 ≠ 2 := by omega
  have f29 : 3 ≠ e + 4 := by omega
  have f30 : e + 4 ≠ 3 := by omega
  have f31 : e ≠ e + 1 := by omega
  have f32 : e + 1 ≠ e := by omega
  have f33 : e ≠ e + 2 := by omega
  have f34 : e + 2 ≠ e := by omega
  have f35 : e ≠ e + 3 := by omega
  have f36 : e + 3 ≠ e := by omega
  have f37 : e ≠ e + 4 := by omega
  have f38 : e + 4 ≠ e := by omega
  have f39 : e + 1 ≠ e + 2 := by omega
  have f40 : e + 2 ≠ e + 1 := by omega
  have f41 : e + 1 ≠ e + 3 := by omega
  have f42 : e + 3 ≠ e + 1 := by omega
  have f43 : e + 1 ≠ e + 4 := by omega
  have f44 : e + 4 ≠ e + 1 := by omega
  have f45 : e + 2 ≠ e + 3 := by omega
  have f46 : e + 3 ≠ e + 2 := by omega
  have f47 : e + 2 ≠ e + 4 := by omega
  have f48 : e + 4 ≠ e + 2 := by omega
  have f49 : e + 3 ≠ e + 4 := by omega
  have f50 : e + 4 ≠ e + 3 := by omega
  have ha1 : e + 1 + 1 = e + 2 := rfl
  have ha2 : e + 2 + 1 = e + 3 := rfl
  have ha3 : e + 3 + 1 = e + 4 := rfl
  have ha4 : e + 4 + 1 = e + 5 := rfl
  have hp1 : 0 < e + 2 := by omega
  have hp2 : e < e + 1 := by omega
  have hp3 : e < e + 3 := by omega
  have hn1 : ¬ (e + 1 < e) := by omega
  have hn2 : ¬ (e + 3 < e) := by omega
  have hscan : (netB e).scan = some (push (push (push emptyB .de (e + 2, 0)) .cd (2, 3)) .ce (e + 1, e)) := by
    simp [Net.scan, scanList, entryStep, classify, Net.node?, Node.port, eN, cN, dN, Node.construct, Node.duplicate, Node.erase, lookupN_nil, lookupN_cons_self, lookupN_cons_ne, Nat.not_lt_zero, netB, f1, f2, f3, f4, f5, f6, f7, f8, f9, f10, f11, f12, f13, f14, f15, f16, f17, f18, f19, f20, f21, f22, f23, f24, f25, f26, f27, f28, f29, f30, f31, f32, f33, f34, f35, f36, f37, f38, f39, f40, f41, f42, f43, f44, f45, f46, f47, f48, f49, f50, ha1, ha2, ha3, ha4, hp1, hp2, hp3, hn1, hn2]
  have hch : chosen (push (push (push emptyB .de (e + 2, 0)) .cd (2, 3)) .ce (e + 1, e)) = some (.de, (e + 2, 0)) := rfl
  have s1 : (netB e).create Node.erase =
      some (e + 3, ⟨[(0, eN (.Valid (e + 2) 0)), (2, cN (.Valid 3 0) (.Valid (e + 2) 1) (.Valid 3 1)), (3, dN (.Valid 2 0) (.Valid 2 2) (.Valid (e + 1) 2)), (e, eN (.Valid (e + 1) 0)), (e + 1, cN (.Valid e 0) (.Valid (e + 2) 2) (.Valid 3 2)), (e + 2, dN (.Valid 0 0) (.Valid 2 1) (.Valid (e + 1) 1)), (e + 3, Node.erase)], e + 4⟩) := by
    simp [Net.connect, Net.setSlot, Net.get, Net.create, Net.delete, Net.node?, Node.setPort, Node.port, eN, cN, dN, Node.construct, Node.duplicate, Node.erase, List.set, lookupN_nil, lookupN_cons_self, lookupN_cons_ne, replaceK_nil, replaceK_cons_self, replaceK_cons_ne, removeK_nil, removeK_cons_self, removeK_cons_ne, Nat.not_lt_zero, netB, f1, f2, f3, f4, f5, f6, f7, f8, f9, f10, f11, f12, f13, f14, f15, f16, f17, f18, f19, f20, f21, f22, f23, f24, f25, f26, f27, f28, f29, f30, f31, f32, f33, f34, f35, f36, f37, f38, f39, f40, f41, f42, f43, f44, f45, f46, f47, f48, f49, f50, ha1, ha2, ha3, ha4, hp1, hp2, hp3, hn1, hn2]

  have g1 : Net.get ⟨[(0, eN (.Valid (e + 2) 0)), (2, cN (.Valid 3 0) (.Valid (e + 2) 1) (.Valid 3 1)), (3, dN (.Valid 2 0) (.Valid 2 2) (.Valid (e + 1) 2)), (e, eN (.Valid (e + 1) 0)), (e + 1, cN (.Valid e 0) (.Valid (e + 2) 2) (.Valid 3 2)), (e + 2, dN (.Valid 0 0) (.Valid 2 1) (.Valid (e + 1) 1)), (e + 3, Node.erase)], e + 4⟩ (.Valid (e + 2) 1) =
      some (.Valid 2 1) := by
    simp [Net.connect, Net.setSlot, Net.get, Net.create, Net.delete, Net.node?, Node.setPort, Node.port, eN, cN, dN, Node.construct, Node.duplicate, Node.erase, List.set, lookupN_nil, lookupN_cons_self, lookupN_cons_ne, replaceK_nil, replaceK_cons_self, replaceK_cons_ne, removeK_nil, removeK_cons_self, removeK_cons_ne, Nat.not_lt_zero, f1, f2, f3, f4, f5, f6, f7, f8, f9, f10, f11, f12, f13, f14, f15, f16, f17, f18, f19, f20, f21, f22, f23, f24, f25, f26, f27, f28, f29, f30, f31, f32, f33, f34, f35, f36, f37, f38, f39, f40, f41, f42, f43, f44, f45, f46, f47, f48, f49, f50, ha1, ha2, ha3, ha4, hp1, hp2, hp3, hn1, hn2]

  have c1 : Net.connect ⟨[(0, eN (.Valid (e + 2) 0)), (2, cN (.Valid 3 0) (.Valid (e + 2) 1) (.Valid 3 1)), (3, dN (.Valid 2 0) (.Valid 2 2) (.Valid (e + 1) 2)), (e, eN (.Valid (e + 1) 0)), (e + 1, cN (.Valid e 0) (.Valid (e + 2) 2) (.Valid 3 2)), (e + 2, dN (.Valid 0 0) (.Valid 2 1) (.Valid (e + 1) 1)), (e + 3, Node.erase)], e + 4⟩ (.Valid 0 0) (.Valid 2 1) =
      some ⟨[(0, eN (.Valid 2 1)), (2, cN (.Valid 3 0) (.Valid 0 0) (.Valid 3 1)), (3, dN (.Valid 2 0) (.Valid 2 2) (.Valid (e + 1) 2)), (e, eN (.Valid (e + 1) 0)), (e + 1, cN (.Valid e 0) (.Valid (e + 2) 2) (.Valid 3 2)), (e + 2, dN (.Valid 0 0) (.Valid 2 1) (.Valid (e + 1) 1)), (e + 3, Node.erase)], e + 4⟩ := by
    simp [Net.connect, Net.setSlot, Net.get, Net.create, Net.delete, Net.node?, Node.setPort, Node.port, eN, cN, dN, Node.construct, Node.duplicate, Node.erase, List.set, lookupN_nil, lookupN_cons_self, lookupN_cons_ne, replaceK_nil, replaceK_cons_self, replaceK_cons_ne, removeK_nil, removeK_cons_self, removeK_cons_ne, Nat.not_lt_zero, f1, f2, f3, f4, f5, f6, f7, f8, f9, f10, f11, f12, f13, f14, f15, f16, f17, f18, f19, f20, f21, f22, f23, f24, f25, f26, f27, f28, f29, f30, f31, f32, f33, f34, f35, f36, f37, f38, f39, f40, f41, f42, f43, f44, f45, f46, f47, f48, f49, f50, ha1, ha2, ha3, ha4, hp1, hp2, hp3, hn1, hn2]

  have g2 : Net.get ⟨[(0, eN (.Valid 2 1)), (2, cN (.Valid 3 0) (.Valid 0 0) (.Valid 3 1)), (3, dN (.Valid 2 0) (.Valid 2 2) (.Valid (e + 1) 2)), (e, eN (.Valid (e + 1) 0)), (e + 1, cN (.Valid e 0) (.Valid (e + 2) 2) (.Valid 3 2)), (e + 2, dN (.Valid 0 0) (.Valid 2 1) (.Valid (e + 1) 1)), (e + 3, Node.erase)], e + 4⟩ (.Valid (e + 2) 2) =
      some (.Valid (e + 1) 1) := by
    simp [Net.connect, Net.setSlot, Net.get, Net.create, Net.delete, Net.node?, Node.setPort, Node.port, eN, cN, dN, Node.construct, Node.duplicate, Node.erase, List.set, lookupN_nil, lookupN_cons_self, lookupN_cons_ne, replaceK_nil, replaceK_cons_self, replaceK_cons_ne, removeK_nil, removeK_cons_self, removeK_cons_ne, Nat.not_lt_zero, f1, f2, f3, f4, f5, f6, f7, f8, f9, f10, f11, f12, f13, f14, f15, f16, f17, f18, f19, f20, f21, f22, f23, f24, f25, f26, f27, f28, f29, f30, f31, f32, f33, f34, f35, f36, f37, f38, f39, f40, f41, f42, f43, f44, f45, f46, f47, f48, f49, f50, ha1, ha2, ha3, ha4, hp1, hp2, hp3, hn1, hn2]

  have c2 : Net.connect ⟨[(0, eN (.Valid 2 1)), (2, cN (.Valid 3 0) (.Valid 0 0) (.Valid 3 1)), (3, dN (.Valid 2 0) (.Valid 2 2) (.Valid (e + 1) 2)), (e, eN (.Valid (e + 1) 0)), (e + 1, cN (.Valid e 0) (.Valid (e + 2) 2) (.Valid 3 2)), (e + 2, dN (.Valid 0 0) (.Valid 2 1) (.Valid (e + 1) 1)), (e + 3, Node.erase)], e + 4⟩ (.Valid (e + 3) 0) (.Valid (e + 1) 1) =
      some ⟨[(0, eN (.Valid 2 1)), (2, cN (.Valid 3 0) (.Valid 0 0) (.Valid 3 1)), (3, dN (.Valid 2 0) (.Valid 2 2) (.Valid (e + 1) 2)), (e, eN (.Valid (e + 1) 0)), (e + 1, cN (.Valid e 0) (.Valid (e + 3) 0) (.Valid 3 2)), (e + 2, dN (.Valid 0 0) (.Valid 2 1) (.Valid (e + 1) 1)), (e + 3, eN (.Valid (e + 1) 1))], e + 4⟩ := by
    simp [Net.connect, Net.setSlot, Net.get, Net.create, Net.delete, Net.node?, Node.setPort, Node.port, eN, cN, dN, Node.construct, Node.duplicate, Node.erase, List.set, lookupN_nil, lookupN_cons_self, lookupN_cons_ne, replaceK_nil, replaceK_cons_self, replaceK_cons_ne, removeK_nil, removeK_cons_self, removeK_cons_ne, Nat.not_lt_zero, f1, f2, f3, f4, f5, f6, f7, f8, f9, f10, f11, f12, f13, f14, f15, f16, f17, f18, f19, f20, f21, f22, f23, f24, f25, f26, f27, f28, f29, f30, f31, f32, f33, f34, f35, f36, f37, f38, f39, f40, f41, f42, f43, f44, f45, f46, f47, f48, f49, f50, ha1, ha2, ha3, ha4, hp1, hp2, hp3, hn1, hn2]

  have d1 : Net.delete ⟨[(0, eN (.Valid 2 1)), (2, cN (.Valid 3 0) (.Valid 0 0) (.Valid 3 1)), (3, dN (.Valid 2 0) (.Valid 2 2) (.Valid (e + 1) 2)), (e, eN (.Valid (e + 1) 0)), (e + 1, cN (.Valid e 0) (.Valid (e + 3) 0) (.Valid 3 2)), (e + 2, dN (.Valid 0 0) (.Valid 2 1) (.Valid (e + 1) 1)), (e + 3, eN (.Valid (e + 1) 1))], e + 4⟩ (e + 2) =
      some (netC e) := by
    simp [Net.connect, Net.setSlot, Net.get, Net.create, Net.delete, Net.node?, Node.setPort, Node.port, eN, cN, dN, Node.construct, Node.duplicate, Node.erase, List.set, lookupN_nil, lookupN_cons_self, lookupN_cons_ne, replaceK_nil, replaceK_cons_self, replaceK_cons_ne, removeK_nil, removeK_cons_self, removeK_cons_ne, Nat.not_lt_zero, netC, f1, f2, f3, f4, f5, f6, f7, f8, f9, f10, f11, f12, f13, f14, f15, f16, f17, f18, f19, f20, f21, f22, f23, f24, f25, f26, f27, f28, f29, f30, f31, f32, f33, f34, f35, f36, f37, f38, f39, f40, f41, f42, f43, f44, f45, f46, f47, f48, f49, f50, ha1, ha2, ha3, ha4, hp1, hp2, hp3, hn1, hn2]

  simp [Net.step, hscan, hch, Net.evalRule, Net.eval_de,
    s1, g1, c1, g2, c2, d1]

/-- One `step()` on a phase-C state performs the Construct-Erase reduction
and yields the phase-D state. -/
theorem stepPhaseC (e : Nat) (he : 4 ≤ e) : (netC e).step = some (true, netD e) := by
  have f1 : 0 ≠ e := by omega
  have f2 : e ≠ 0 := by omega
  have f3 : 2 ≠ e := by omega
  have f4 : e ≠ 2 := by omega
  have f5 : 3 ≠ e := by omega
  have f6 : e ≠ 3 := by omega
  have f7 : 0 ≠ e + 1 := by omega
  have f8 : e + 1 ≠ 0 := by omega
  have f9 : 2 ≠ e + 1 := by omega
  have f10 : e + 1 ≠ 2 := by omega
  have f11 : 3 ≠ e + 1 := by omega
  have f12 : e + 1 ≠ 3 := by omega
  have f13 : 0 ≠ e + 2 := by omega
  have f14 : e + 2 ≠ 0 := by omega
  have f15 : 2 ≠ e + 2 := by omega
  have f16 : e + 2 ≠ 2 := by omega
  have f17 : 3 ≠ e + 2 := by omega
  have f18 : e + 2 ≠ 3 := by omega
  have f19 : 0 ≠ e + 3 := by omega
  have f20 : e + 3 ≠ 0 := by omega
  have f21 : 2 ≠ e + 3 := by omega
  have f22 : e + 3 ≠ 2 := by omega
  have f23 : 3 ≠ e + 3 := by omega
  have f24 : e + 3 ≠ 3 := by omega
  have f25 : 0 ≠ e + 4 := by omega
  have f26 : e + 4 ≠ 0 := by omega
  have f27 : 2 ≠ e + 4 := by omega
  have f28 : e + 4 ≠ 2 := by omega
  have f29 : 3 ≠ e + 4 := by omega
  have f30 : e + 4 ≠ 3 := by omega
  have f31 : e ≠ e + 1 := by omega
  have f32 : e + 1 ≠ e := by omega
  have f33 : e ≠ e + 2 := by omega
  have f34 : e + 2 ≠ e := by omega
  have f35 : e ≠ e + 3 := by omega
  have f36 : e + 3 ≠ e := by omega
  have f37 : e ≠ e + 4 := by omega
  have f38 : e + 4 ≠ e := by omega
  have f39 : e + 1 ≠ e + 2 := by omega
  have f40 : e + 2 ≠ e + 1 := by omega
  have f41 : e + 1 ≠ e + 3 := by omega
  have f42 : e + 3 ≠ e + 1 := by omega
  have f43 : e + 1 ≠ e + 4 := by omega
  have f44 : e + 4 ≠ e + 1 := by omega
  have f45 : e + 2 ≠ e + 3 := by omega
  have f46 : e + 3 ≠ e + 2 := by omega
  have f47 : e + 2 ≠ e + 4 := by omega
  have f48 : e + 4 ≠ e + 2 := by omega
  have f49 : e + 3 ≠ e + 4 := by omega
  have f50 : e + 4 ≠ e + 3 := by omega
  have ha1 : e + 1 + 1 = e + 2 := rfl
  have ha2 : e + 2 + 1 = e + 3 := rfl
  have ha3 : e + 3 + 1 = e + 4 := rfl
  have ha4 : e + 4 + 1 = e + 5 := rfl
  have hp1 : 0 < e + 2 := by omega
  have hp2 : e < e + 1 := by omega
  have hp3 : e < e + 3 := by omega
  have hn1 : ¬ (e + 1 < e) := by omega
  have hn2 : ¬ (e + 3 < e) := by omega
  have hscan : (netC e).scan = some (push (push emptyB .cd (2, 3)) .ce (e + 1, e)) := by
    simp [Net.scan, scanList, entryStep, classify, Net.node?, Node.port, eN, cN, dN, Node.construct, Node.duplicate, Node.erase, lookupN_nil, lookupN_cons_self, lookupN_cons_ne, Nat.not_lt_zero, netC, f1, f2, f3, f4, f5, f6, f7, f8, f9, f10, f11, f12, f13, f14, f15, f16, f17, f18, f19, f20, f21, f22, f23, f24, f25, f26, f27, f28, f29, f30, f31, f32, f33, f34, f35, f36, f37, f38, f39, f40, f41, f42, f43, f44, f45, f46, f47, f48, f49, f50, ha1, ha2, ha3, ha4, hp1, hp2, hp3, hn1, hn2]
  have hch : chosen (push (push emptyB .cd (2, 3)) .ce (e + 1, e)) = some (.ce, (e + 1, e)) := rfl
  have s1 : (netC e).create Node.erase =
      some (e + 4, ⟨[(0, eN (.Valid 2 1)), (2, cN (.Valid 3 0) (.Valid 0 0) (.Valid 3 1)), (3, dN (.Valid 2 0) (.Valid 2 2) (.Valid (e + 1) 2)), (e, eN (.Valid (e + 1) 0)), (e + 1, cN (.Valid e 0) (.Valid (e + 3) 0) (.Valid 3 2)), (e + 3, eN (.Valid (e + 1) 1)), (e + 4, Node.erase)], e + 5⟩) := by
    simp [Net.connect, Net.setSlot, Net.get, Net.create, Net.delete, Net.node?, Node.setPort, Node.port, eN, cN, dN, Node.construct, Node.duplicate, Node.erase, List.set, lookupN_nil, lookupN_cons_self, lookupN_cons_ne, replaceK_nil, replaceK_cons_self, replaceK_cons_ne, removeK_nil, removeK_cons_self, removeK_cons_ne, Nat.not_lt_zero, netC, f1, f2, f3, f4, f5, f6, f7, f8, f9, f10, f11, f12, f13, f14, f15, f16, f17, f18, f19, f20, f21, f22, f23, f24, f25, f26, f27, f28, f29, f30, f31, f32, f33, f34, f35, f36, f37, f38, f39, f40, f41, f42, f43, f44, f45, f46, f47, f48, f49, f50, ha1, ha2, ha3, ha4, hp1, hp2, hp3, hn1, hn2]

  have g1 : Net.get ⟨[(0, eN (.Valid 2 1)), (2, cN (.Valid 3 0) (.Valid 0 0) (.Valid 3 1)), (3, dN (.Valid 2 0) (.Valid 2 2) (.Valid (e + 1) 2)), (e, eN (.Valid (e + 1) 0)), (e + 1, cN (.Valid e 0) (.Valid (e + 3) 0) (.Valid 3 2)), (e + 3, eN (.Valid (e + 1) 1)), (e + 4, Node.erase)], e + 5⟩ (.Valid (e + 1) 1) =
      some (.Valid (e + 3) 0) := by
    simp [Net.connect, Net.setSlot, Net.get, Net.create, Net.delete, Net.node?, Node.setPort, Node.port, eN, cN, dN, Node.construct, Node.duplicate, Node.erase, List.set, lookupN_nil, lookupN_cons_self, lookupN_cons_ne, replaceK_nil, replaceK_cons_self, replaceK_cons_ne, removeK_nil, removeK_cons_self, removeK_cons_ne, Nat.not_lt_zero, f1, f2, f3, f4, f5, f6, f7, f8, f9, f10, f11, f12, f13, f14, f15, f16, f17, f18, f19, f20, f21, f22, f23, f24, f25, f26, f27, f28, f29, f30, f31, f32, f33, f34, f35, f36, f37, f38, f39, f40, f41, f42, f43, f44, f45, f46, f47, f48, f49, f50, ha1, ha2, ha3, ha4, hp1, hp2, hp3, hn1, hn2]

  have c1 : Net.connect ⟨[(0, eN (.Valid 2 1)), (2, cN (.Valid 3 0) (.Valid 0 0) (.Valid 3 1)), (3, dN (.Valid 2 0) (.Valid 2 2) (.Valid (e + 1) 2)), (e, eN (.Valid (e + 1) 0)), (e + 1, cN (.Valid e 0) (.Valid (e + 3) 0) (.Valid 3 2)), (e + 3, eN (.Valid (e + 1) 1)), (e + 4, Node.erase)], e + 5⟩ (.Valid e 0) (.Valid (e + 3) 0) =
      some ⟨[(0, eN (.Valid 2 1)), (2, cN (.Valid 3 0) (.Valid 0 0) (.Valid 3 1)), (3, dN (.Valid 2 0) (.Valid 2 2) (.Valid (e + 1) 2)), (e, eN (.Valid (e + 3) 0)), (e + 1, cN (.Valid e 0) (.Valid (e + 3) 0) (.Valid 3 2)), (e + 3, eN (.Valid e 0)), (e + 4, Node.erase)], e + 5⟩ := by
    simp [Net.connect, Net.setSlot, Net.get, Net.create, Net.delete, Net.node?, Node.setPort, Node.port, eN, cN, dN, Node.construct, Node.duplicate, Node.erase, List.set, lookupN_nil, lookupN_cons_self, lookupN_cons_ne, replaceK_nil, replaceK_cons_self, replaceK_cons_ne, removeK_nil, removeK_cons_self, removeK_cons_ne, Nat.not_lt_zero, f1, f2, f3, f4, f5, f6, f7, f8, f9, f10, f11, f12, f13, f14, f15, f16, f17, f18, f19, f20, f21, f22, f23, f24, f25, f26, f27, f28, f29, f30, f31, f32, f33, f34, f35, f36, f37, f38, f39, f40, f41, f42, f43, f44, f45, f46, f47, f48, f49, f50, ha1, ha2, ha3, ha4, hp1, hp2, hp3, hn1, hn2]

  have g2 : Net.get ⟨[(0, eN (.Valid 2 1)), (2, cN (.Valid 3 0) (.Valid 0 0) (.Valid 3 1)), (3, dN (.Valid 2 0) (.Valid 2 2) (.Valid (e + 1) 2)), (e, eN (.Valid (e + 3) 0)), (e + 1, cN (.Valid e 0) (.Valid (e + 3) 0) (.Valid 3 2)), (e + 3, eN (.Valid e 0)), (e + 4, Node.erase)], e + 5⟩ (.Valid (e + 1) 2) =
      some (.Valid 3 2) := by
    simp [Net.connect, Net.setSlot, Net.get, Net.create, Net.delete, Net.node?, Node.setPort, Node.port, eN, cN, dN, Node.construct, Node.duplicate, Node.erase, List.set, lookupN_nil, lookupN_cons_self, lookupN_cons_ne, replaceK_nil, replaceK_cons_self, replaceK_cons_ne, removeK_nil, removeK_cons_self, removeK_cons_ne, Nat.not_lt_zero, f1, f2, f3, f4, f5, f6, f7, f8, f9, f10, f11, f12, f13, f14, f15, f16, f17, f18, f19, f20, f21, f22, f23, f24, f25, f26, f27, f28, f29, f30, f31, f32, f33, f34, f35, f36, f37, f38, f39, f40, f41, f42, f43, f44, f45, f46, f47, f48, f49, f50, ha1, ha2, ha3, ha4, hp1, hp2, hp3, hn1, hn2]

  have c2 : Net.connect ⟨[(0, eN (.Valid 2 1)), (2, cN (.Valid 3 0) (.Valid 0 0) (.Valid 3 1)), (3, dN (.Valid 2 0) (.Valid 2 2) (.Valid (e + 1) 2)), (e, eN (.Valid (e + 3) 0)), (e + 1, cN (.Valid e 0) (.Valid (e + 3) 0) (.Valid 3 2)), (e + 3, eN (.Valid e 0)), (e + 4, Node.erase)], e + 5⟩ (.Valid (e + 4) 0) (.Valid 3 2) =
      some ⟨[(0, eN (.Valid 2 1)), (2, cN (.Valid 3 0) (.Valid 0 0) (.Valid 3 1)), (3, dN (.Valid 2 0) (.Valid 2 2) (.Valid (e + 4) 0)), (e, eN (.Valid (e + 3) 0)), (e + 1, cN (.Valid e 0) (.Valid (e + 3) 0) (.Valid 3 2)), (e + 3, eN (.Valid e 0)), (e + 4, eN (.Valid 3 2))], e + 5⟩ := by
    simp [Net.connect, Net.setSlot, Net.get, Net.create, Net.delete, Net.node?, Node.setPort, Node.port, eN, cN, dN, Node.construct, Node.duplicate, Node.erase, List.set, lookupN_nil, lookupN_cons_self, lookupN_cons_ne, replaceK_nil, replaceK_cons_self, replaceK_cons_ne, removeK_nil, removeK_cons_self, removeK_cons_ne, Nat.not_lt_zero, f1, f2, f3, f4, f5, f6, f7, f8, f9, f10, f11, f12, f13, f14, f15, f16, f17, f18, f19, f20, f21, f22, f23, f24, f25, f26, f27, f28, f29, f30, f31, f32, f33, f34, f35, f36, f37, f38, f39, f40, f41, f42, f43, f44, f45, f46, f47, f48, f49, f50, ha1, ha2, ha3, ha4, hp1, hp2, hp3, hn1, hn2]

  have d1 : Net.delete ⟨[(0, eN (.Valid 2 1)), (2, cN (.Valid 3 0) (.Valid 0 0) (.Valid 3 1)), (3, dN (.Valid 2 0) (.Valid 2 2) (.Valid (e + 4) 0)), (e, eN (.Valid (e + 3) 0)), (e + 1, cN (.Valid e 0) (.Valid (e + 3) 0) (.Valid 3 2)), (e + 3, eN (.Valid e 0)), (e + 4, eN (.Valid 3 2))], e + 5⟩ (e + 1) =
      some (netD e) := by
    simp [Net.connect, Net.setSlot, Net.get, Net.create, Net.delete, Net.node?, Node.setPort, Node.port, eN, cN, dN, Node.construct, Node.duplicate, Node.erase, List.set, lookupN_nil, lookupN_cons_self, lookupN_cons_ne, replaceK_nil, replaceK_cons_self, replaceK_cons_ne, removeK_nil, removeK_cons_self, removeK_cons_ne, Nat.not_lt_zero, netD, f1, f2, f3, f4, f5, f6, f7, f8, f9, f10, f11, f12, f13, f14, f15, f16, f17, f18, f19, f20, f21, f22, f23, f24, f25, f26, f27, f28, f29, f30, f31, f32, f33, f34, f35, f36, f37, f38, f39, f40, f41, f42, f43, f44, f45, f46, f47, f48, f49, f50, ha1, ha2, ha3, ha4, hp1, hp2, hp3, hn1, hn2]

  simp [Net.step, hscan, hch, Net.evalRule, Net.eval_ce,
    s1, g1, c1, g2, c2, d1]

/-- One `step()` on a phase-D state performs the Erase-Erase annihilation
and yields the phase-A state with the fresh-Erase identifier advanced by 4. -/
theorem stepPhaseD (e : Nat) (he : 4 ≤ e) : (netD e).step = some (true, netA (e + 4)) := by
  have f1 : 0 ≠ e := by omega
  have f2 : e ≠ 0 := by omega
  have f3 : 2 ≠ e := by omega
  have f4 : e ≠ 2 := by omega
  have f5 : 3 ≠ e := by omega
  have f6 : e ≠ 3 := by omega
  have f7 : 0 ≠ e + 1 := by omega
  have f8 : e + 1 ≠ 0 := by omega
  have f9 : 2 ≠ e + 1 := by omega
  have f10 : e + 1 ≠ 2 := by omega
  have f11 : 3 ≠ e + 1 := by omega
  have f12 : e + 1 ≠ 3 := by omega
  have f13 : 0 ≠ e + 2 := by omega
  have f14 : e + 2 ≠ 0 := by omega
  have f15 : 2 ≠ e + 2 := by omega
  have f16 : e + 2 ≠ 2 := by omega
  have f17 : 3 ≠ e + 2 := by omega
  have f18 : e + 2 ≠ 3 := by omega
  have f19 : 0 ≠ e + 3 := by omega
  have f20 : e + 3 ≠ 0 := by omega
  have f21 : 2 ≠ e + 3 := by omega
  have f22 : e + 3 ≠ 2 := by omega
  have f23 : 3 ≠ e + 3 := by omega
  have f24 : e + 3 ≠ 3 := by omega
  have f25 : 0 ≠ e + 4 := by omega
  have f26 : e + 4 ≠ 0 := by omega
  have f27 : 2 ≠ e + 4 := by omega
  have f28 : e + 4 ≠ 2 := by omega
  have f29 : 3 ≠ e + 4 := by omega
  have f30 : e + 4 ≠ 3 := by omega
  have f31 : e ≠ e + 1 := by omega
  have f32 : e + 1 ≠ e := by omega
  have f33 : e ≠ e + 2 := by omega
  have f34 : e + 2 ≠ e := by omega
  have f35 : e ≠ e + 3 := by omega
  have f36 : e + 3 ≠ e := by omega
  have f37 : e ≠ e + 4 := by omega
  have f38 : e + 4 ≠ e := by omega
  have f39 : e + 1 ≠ e + 2 := by omega
  have f40 : e + 2 ≠ e + 1 := by omega
  have f41 : e + 1 ≠ e + 3 := by omega
  have f42 : e + 3 ≠ e + 1 := by omega
  have f43 : e + 1 ≠ e + 4 := by omega
  have f44 : e + 4 ≠ e + 1 := by omega
  have f45 : e + 2 ≠ e + 3 := by omega
  have f46 : e + 3 ≠ e + 2 := by omega
  have f47 : e + 2 ≠ e + 4 := by omega
  have f48 : e + 4 ≠ e + 2 := by omega
  have f49 : e + 3 ≠ e + 4 := by omega
  have f50 : e + 4 ≠ e + 3 := by omega
  have ha1 : e + 1 + 1 = e + 2 := rfl
  have ha2 : e + 2 + 1 = e + 3 := rfl
  have ha3 : e + 3 + 1 = e + 4 := rfl
  have ha4 : e + 4 + 1 = e + 5 := rfl
  have hp1 : 0 < e + 2 := by omega
  have hp2 : e < e + 1 := by omega
  have hp3 : e < e + 3 := by omega
  have hn1 : ¬ (e + 1 < e) := by omega
  have hn2 : ¬ (e + 3 < e) := by omega
  have hscan : (netD e).scan = some (push (push emptyB .cd (2, 3)) .ee (e, e + 3)) := by
    simp [Net.scan, scanList, entryStep, classify, Net.node?, Node.port, eN, cN, dN, Node.construct, Node.duplicate, Node.erase, lookupN_nil, lookupN_cons_self, lookupN_cons_ne, Nat.not_lt_zero, netD, f1, f2, f3, f4, f5, f6, f7, f8, f9, f10, f11, f12, f13, f14, f15, f16, f17, f18, f19, f20, f21, f22, f23, f24, f25, f26, f27, f28, f29, f30, f31, f32, f33, f34, f35, f36, f37, f38, f39, f40, f41, f42, f43, f44, f45, f46, f47, f48, f49, f50, ha1, ha2, ha3, ha4, hp1, hp2, hp3, hn1, hn2]
  have hch : chosen (push (push emptyB .cd (2, 3)) .ee (e, e + 3)) = some (.ee, (e, e + 3)) := rfl
  have d1 : (netD e).delete e =
      some ⟨[(0, eN (.Valid 2 1)), (2, cN (.Valid 3 0) (.Valid 0 0) (.Valid 3 1)), (3, dN (.Valid 2 0) (.Valid 2 2) (.Valid (e + 4) 0)), (e + 3, eN (.Valid e 0)), (e + 4, eN (.Valid 3 2))], e + 5⟩ := by
    simp [Net.connect, Net.setSlot, Net.get, Net.create, Net.delete, Net.node?, Node.setPort, Node.port, eN, cN, dN, Node.construct, Node.duplicate, Node.erase, List.set, lookupN_nil, lookupN_cons_self, lookupN_cons_ne, replaceK_nil, replaceK_cons_self, replaceK_cons_ne, removeK_nil, removeK_cons_self, removeK_cons_ne, Nat.not_lt_zero, netD, f1, f2, f3, f4, f5, f6, f7, f8, f9, f10, f11, f12, f13, f14, f15, f16, f17, f18, f19, f20, f21, f22, f23, f24, f25, f26, f27, f28, f29, f30, f31, f32, f33, f34, f35, f36, f37, f38, f39, f40, f41, f42, f43, f44, f45, f46, f47, f48, f49, f50, ha1, ha2, ha3, ha4, hp1, hp2, hp3, hn1, hn2]

  have d2 : Net.delete ⟨[(0, eN (.Valid 2 1)), (2, cN (.Valid 3 0) (.Valid 0 0) (.Valid 3 1)), (3, dN (.Valid 2 0) (.Valid 2 2) (.Valid (e + 4) 0)), (e + 3, eN (.Valid e 0)), (e + 4, eN (.Valid 3 2))], e + 5⟩ (e + 3) =
      some (netA (e + 4)) := by
    simp [Net.connect, Net.setSlot, Net.get, Net.create, Net.delete, Net.node?, Node.setPort, Node.port, eN, cN, dN, Node.construct, Node.duplicate, Node.erase, List.set, lookupN_nil, lookupN_cons_self, lookupN_cons_ne, replaceK_nil, replaceK_cons_self, replaceK_cons_ne, removeK_nil, removeK_cons_self, removeK_cons_ne, Nat.not_lt_zero, netA, f1, f2, f3, f4, f5, f6, f7, f8, f9, f10, f11, f12, f13, f14, f15, f16, f17, f18, f19, f20, f21, f22, f23, f24, f25, f26, f27, f28, f29, f30, f31, f32, f33, f34, f35, f36, f37, f38, f39, f40, f41, f42, f43, f44, f45, f46, f47, f48, f49, f50, ha1, ha2, ha3, ha4, hp1, hp2, hp3, hn1, hn2]

  simp [Net.step, hscan, hch, Net.evalRule, Net.eval_ee, d1, d2]

/-- The reduction trajectory is periodic with period 4 from step 4 on:
states at steps 4k+4..4k+7 are the four phase states with fresh id 4k+7. -/
theorem iterPhase (k : Nat) :
    iterN (4 * k + 4) = some (netA (4 * k + 7)) ∧
    iterN (4 * k + 5) = some (netB (4 * k + 7)) ∧
    iterN (4 * k + 6) = some (netC (4 * k + 7)) ∧
    iterN (4 * k + 7) = some (netD (4 * k + 7)) := by
  induction k with
  | zero => exact ⟨by decide, by decide, by decide, by decide⟩
  | succ n ih =>
    obtain ⟨iA, iB, iC, iD⟩ := ih
    have he : 4 ≤ 4 * n + 7 := by omega
    have he2 : 4 ≤ 4 * (n + 1) + 7 := by omega
    have hA : iterN (4 * (n + 1) + 4) = some (netA (4 * (n + 1) + 7)) := by
      have h1 : 4 * (n + 1) + 4 = (4 * n + 7) + 1 := by ring
      have h2 : 4 * n + 7 + 4 = 4 * (n + 1) + 7 := by ring
      rw [h1, iterN, iD]
      simp [stepPhaseD _ he, h2]
    have hB : iterN (4 * (n + 1) + 5) = some (netB (4 * (n + 1) + 7)) := by
      have h1 : 4 * (n + 1) + 5 = (4 * (n + 1) + 4) + 1 := by ring
      rw [h1, iterN, hA]
      simp [stepPhaseA _ he2]
    have hC : iterN (4 * (n + 1) + 6) = some (netC (4 * (n + 1) + 7)) := by
      have h1 : 4 * (n + 1) + 6 = (4 * (n + 1) + 5) + 1 := by ring
      rw [h1, iterN, hB]
      simp [stepPhaseB _ he2]
    have hD : iterN (4 * (n + 1) + 7) = some (netD (4 * (n + 1) + 7)) := by
      have h1 : 4 * (n + 1) + 7 = (4 * (n + 1) + 6) + 1 := by ring
      rw [h1, iterN, hC]
      simp [stepPhaseC _ he2]
    exact ⟨hA, hB, hC, hD⟩

/-- Every state reachable from `Net::new()` is one of the four initial states
or a phase state of the period-4 cycle. -/
theorem iterShape (n : Nat) : ∃ s, iterN n = some s ∧
    (s = seedNet ∨ s = st1 ∨ s = st2 ∨ s = st3 ∨
     ∃ e, 4 ≤ e ∧ (s = netA e ∨ s = netB e ∨ s = netC e ∨ s = netD e)) := by
  match n with
  | 0 => exact ⟨seedNet, by decide, Or.inl rfl⟩
  | 1 => exact ⟨st1, by decide, Or.inr (Or.inl rfl)⟩
  | 2 => exact ⟨st2, by decide, Or.inr (Or.inr (Or.inl rfl))⟩
  | 3 => exact ⟨st3, by decide, Or.inr (Or.inr (Or.inr (Or.inl rfl)))⟩
  | (m + 4) =>
    obtain ⟨hA, hB, hC, hD⟩ := iterPhase (m / 4)
    have he : 4 ≤ 4 * (m / 4) + 7 := by omega
    have hr : m % 4 = 0 ∨ m % 4 = 1 ∨ m % 4 = 2 ∨ m % 4 = 3 := by omega
    rcases hr with h | h | h | h
    · have hi : m + 4 = 4 * (m / 4) + 4 := by omega
      exact ⟨netA (4 * (m / 4) + 7), by rw [hi]; exact hA,
        Or.inr (Or.inr (Or.inr (Or.inr ⟨_, he, Or.inl rfl⟩)))⟩
    · have hi : m + 4 = 4 * (m / 4) + 5 := by omega
      exact ⟨netB (4 * (m / 4) + 7), by rw [hi]; exact hB,
        Or.inr (Or.inr (Or.inr (Or.inr ⟨_, he, Or.inr (Or.inl rfl)⟩)))⟩
    · have hi : m + 4 = 4 * (m / 4) + 6 := by omega
      exact ⟨netC (4 * (m / 4) + 7), by rw [hi]; exact hC,
        Or.inr (Or.inr (Or.inr (Or.inr ⟨_, he, Or.inr (Or.inr (Or.inl rfl))⟩)))⟩
    · have hi : m + 4 = 4 * (m / 4) + 7 := by omega
      exact ⟨netD (4 * (m / 4) + 7), by rw [hi]; exact hD,
        Or.inr (Or.inr (Or.inr (Or.inr ⟨_, he, Or.inr (Or.inr (Or.inr rfl))⟩)))⟩

/-- The slot a `Valid` port reference points at. -/
def portTarget : Port → Option (Nat × Nat)
  | .Invalid => none
  | .Valid b q => some (b, q)

/-- Follow a live slot `(a, p)`: `some (b, q)` when agent `a` is live and its
port slot `p` holds a `Valid` reference to `(b, q)`. -/
def followB (net : Net) (a p : Nat) : Option (Nat × Nat) :=
  (net.node? a).bind fun n => (n.port p).bind portTarget

/-- One slot of the involution check: following `(a, p)` yields a slot `(b, q)`
of a live agent, and following `(b, q)` yields `(a, p)` back. -/
def slotInvolB (net : Net) (a p : Nat) : Bool :=
  match followB net a p with
  | none => false
  | some bq => followB net bq.1 bq.2 == some (a, p)

/-- The wiring involution over every port slot of every live agent. -/
def involB (net : Net) : Bool :=
  net.nodes.all fun en => (List.range en.2.ports.length).all fun p => slotInvolB net en.1 p

/-- Well-formedness: every port slot of every live agent holds a `Valid`
reference to an in-range port slot of a live agent. -/
def wfB (net : Net) : Bool :=
  net.nodes.all fun en => (List.range en.2.ports.length).all fun p =>
    match (en.2.port p).bind portTarget with
    | some bq =>
      match net.node? bq.1 with
      | some m => decide (bq.2 < m.ports.length)
      | none => false
    | none => false


/-- The phase-A state satisfies the wiring involution check. -/
theorem involPhaseA (e : Nat) (he : 4 ≤ e) : involB (netA e) = true := by
  have f1 : 0 ≠ e := by omega
  have f2 : e ≠ 0 := by omega
  have f3 : 2 ≠ e := by omega
  have f4 : e ≠ 2 := by omega
  have f5 : 3 ≠ e := by omega
  have f6 : e ≠ 3 := by omega
  have f7 : 0 ≠ e + 1 := by omega
  have f8 : e + 1 ≠ 0 := by omega
  have f9 : 2 ≠ e + 1 := by omega
  have f10 : e + 1 ≠ 2 := by omega
  have f11 : 3 ≠ e + 1 := by omega
  have f12 : e + 1 ≠ 3 := by omega
  have f13 : 0 ≠ e + 2 := by omega
  have f14 : e + 2 ≠ 0 := by omega
  have f15 : 2 ≠ e + 2 := by omega
  have f16 : e + 2 ≠ 2 := by omega
  have f17 : 3 ≠ e + 2 := by omega
  have f18 : e + 2 ≠ 3 := by omega
  have f19 : 0 ≠ e + 3 := by omega
  have f20 : e + 3 ≠ 0 := by omega
  have f21 : 2 ≠ e + 3 := by omega
  have f22 : e + 3 ≠ 2 := by omega
  have f23 : 3 ≠ e + 3 := by omega
  have f24 : e + 3 ≠ 3 := by omega
  have f25 : 0 ≠ e + 4 := by omega
  have f26 : e + 4 ≠ 0 := by omega
  have f27 : 2 ≠ e + 4 := by omega
  have f28 : e + 4 ≠ 2 := by omega
  have f29 : 3 ≠ e + 4 := by omega
  have f30 : e + 4 ≠ 3 := by omega
  have f31 : e ≠ e + 1 := by omega
  have f32 : e + 1 ≠ e := by omega
  have f33 : e ≠ e + 2 := by omega
  have f34 : e + 2 ≠ e := by omega
  have f35 : e ≠ e + 3 := by omega
  have f36 : e + 3 ≠ e := by omega
  have f37 : e ≠ e + 4 := by omega
  have f38 : e + 4 ≠ e := by omega
  have f39 : e + 1 ≠ e + 2 := by omega
  have f40 : e + 2 ≠ e + 1 := by omega
  have f41 : e + 1 ≠ e + 3 := by omega
  have f42 : e + 3 ≠ e + 1 := by omega
  have f43 : e + 1 ≠ e + 4 := by omega
  have f44 : e + 4 ≠ e + 1 := by omega
  have f45 : e + 2 ≠ e + 3 := by omega
  have f46 : e + 3 ≠ e + 2 := by omega
  have f47 : e + 2 ≠ e + 4 := by omega
  have f48 : e + 4 ≠ e + 2 := by omega
  have f49 : e + 3 ≠ e + 4 := by omega
  have f50 : e + 4 ≠ e + 3 := by omega
  simp [involB, slotInvolB, followB, portTarget, netA, Net.node?, Node.port, eN, cN, dN, lookupN_nil, lookupN_cons_self, lookupN_cons_ne, List.range, List.range.loop, f1, f2, f3, f4, f5, f6, f7, f8, f9, f10, f11, f12, f13, f14, f15, f16, f17, f18, f19, f20, f21, f22, f23, f24, f25, f26, f27, f28, f29, f30, f31, f32, f33, f34, f35, f36, f37, f38, f39, f40, f41, f42, f43, f44, f45, f46, f47, f48, f49, f50]

/-- The phase-A state satisfies the validity/liveness well-formedness check. -/
theorem wfPhaseA (e : Nat) (he : 4 ≤ e) : wfB (netA e) = true := by
  have f1 : 0 ≠ e := by omega
  have f2 : e ≠ 0 := by omega
  have f3 : 2 ≠ e := by omega
  have f4 : e ≠ 2 := by omega
  have f5 : 3 ≠ e := by omega
  have f6 : e ≠ 3 := by omega
  have f7 : 0 ≠ e + 1 := by omega
  have f8 : e + 1 ≠ 0 := by omega
  have f9 : 2 ≠ e + 1 := by omega
  have f10 : e + 1 ≠ 2 := by omega
  have f11 : 3 ≠ e + 1 := by omega
  have f12 : e + 1 ≠ 3 := by omega
  have f13 : 0 ≠ e + 2 := by omega
  have f14 : e + 2 ≠ 0 := by omega
  have f15 : 2 ≠ e + 2 := by omega
  have f16 : e + 2 ≠ 2 := by omega
  have f17 : 3 ≠ e + 2 := by omega
  have f18 : e + 2 ≠ 3 := by omega
  have f19 : 0 ≠ e + 3 := by omega
  have f20 : e + 3 ≠ 0 := by omega
  have f21 : 2 ≠ e + 3 := by omega
  have f22 : e + 3 ≠ 2 := by omega
  have f23 : 3 ≠ e + 3 := by omega
  have f24 : e + 3 ≠ 3 := by omega
  have f25 : 0 ≠ e + 4 := by omega
  have f26 : e + 4 ≠ 0 := by omega
  have f27 : 2 ≠ e + 4 := by omega
  have f28 : e + 4 ≠ 2 := by omega
  have f29 : 3 ≠ e + 4 := by omega
  have f30 : e + 4 ≠ 3 := by omega
  have f31 : e ≠ e + 1 := by omega
  have f32 : e + 1 ≠ e := by omega
  have f33 : e ≠ e + 2 := by omega
  have f34 : e + 2 ≠ e := by omega
  have f35 : e ≠ e + 3 := by omega
  have f36 : e + 3 ≠ e := by omega
  have f37 : e ≠ e + 4 := by omega
  have f38 : e + 4 ≠ e := by omega
  have f39 : e + 1 ≠ e + 2 := by omega
  have f40 : e + 2 ≠ e + 1 := by omega
  have f41 : e + 1 ≠ e + 3 := by omega
  have f42 : e + 3 ≠ e + 1 := by omega
  have f43 : e + 1 ≠ e + 4 := by omega
  have f44 : e + 4 ≠ e + 1 := by omega
  have f45 : e + 2 ≠ e + 3 := by omega
  have f46 : e + 3 ≠ e + 2 := by omega
  have f47 : e + 2 ≠ e + 4 := by omega
  have f48 : e + 4 ≠ e + 2 := by omega
  have f49 : e + 3 ≠ e + 4 := by omega
  have f50 : e + 4 ≠ e + 3 := by omega
  simp [wfB, portTarget, netA, Net.node?, Node.port, eN, cN, dN, lookupN_nil, lookupN_cons_self, lookupN_cons_ne, List.range, List.range.loop, f1, f2, f3, f4, f5, f6, f7, f8, f9, f10, f11, f12, f13, f14, f15, f16, f17, f18, f19, f20, f21, f22, f23, f24, f25, f26, f27, f28, f29, f30, f31, f32, f33, f34, f35, f36, f37, f38, f39, f40, f41, f42, f43, f44, f45, f46, f47, f48, f49, f50]

/-- The phase-B state satisfies the wiring involution check. -/
theorem involPhaseB (e : Nat) (he : 4 ≤ e) : involB (netB e) = true := by
  have f1 : 0 ≠ e := by omega
  have f2 : e ≠ 0 := by omega
  have f3 : 2 ≠ e := by omega
  have f4 : e ≠ 2 := by omega
  have f5 : 3 ≠ e := by omega
  have f6 : e ≠ 3 := by omega
  have f7 : 0 ≠ e + 1 := by omega
  have f8 : e + 1 ≠ 0 := by omega
  have f9 : 2 ≠ e + 1 := by omega
  have f10 : e + 1 ≠ 2 := by omega
  have f11 : 3 ≠ e + 1 := by omega
  have f12 : e + 1 ≠ 3 := by omega
  have f13 : 0 ≠ e + 2 := by omega
  have f14 : e + 2 ≠ 0 := by omega
  have f15 : 2 ≠ e + 2 := by omega
  have f16 : e + 2 ≠ 2 := by omega
  have f17 : 3 ≠ e + 2 := by omega
  have f18 : e + 2 ≠ 3 := by omega
  have f19 : 0 ≠ e + 3 := by omega
  have f20 : e + 3 ≠ 0 := by omega
  have f21 : 2 ≠ e + 3 := by omega
  have f22 : e + 3 ≠ 2 := by omega
  have f23 : 3 ≠ e + 3 := by omega
  have f24 : e + 3 ≠ 3 := by omega
  have f25 : 0 ≠ e + 4 := by omega
  have f26 : e + 4 ≠ 0 := by omega
  have f27 : 2 ≠ e + 4 := by omega
  have f28 : e + 4 ≠ 2 := by omega
  have f29 : 3 ≠ e + 4 := by omega
  have f30 : e + 4 ≠ 3 := by omega
  have f31 : e ≠ e + 1 := by omega
  have f32 : e + 1 ≠ e := by omega
  have f33 : e ≠ e + 2 := by omega
  have f34 : e + 2 ≠ e := by omega
  have f35 : e ≠ e + 3 := by omega
  have f36 : e + 3 ≠ e := by omega
  have f37 : e ≠ e + 4 := by omega
  have f38 : e + 4 ≠ e := by omega
  have f39 : e + 1 ≠ e + 2 := by omega
  have f40 : e + 2 ≠ e + 1 := by omega
  have f41 : e + 1 ≠ e + 3 := by omega
  have f42 : e + 3 ≠ e + 1 := by omega
  have f43 : e + 1 ≠ e + 4 := by omega
  have f44 : e + 4 ≠ e + 1 := by omega
  have f45 : e + 2 ≠ e + 3 := by omega
  have f46 : e + 3 ≠ e + 2 := by omega
  have f47 : e + 2 ≠ e + 4 := by omega
  have f48 : e + 4 ≠ e + 2 := by omega
  have f49 : e + 3 ≠ e + 4 := by omega
  have f50 : e + 4 ≠ e + 3 := by omega
  simp [involB, slotInvolB, followB, portTarget, netB, Net.node?, Node.port, eN, cN, dN, lookupN_nil, lookupN_cons_self, lookupN_cons_ne, List.range, List.range.loop, f1, f2, f3, f4, f5, f6, f7, f8, f9, f10, f11, f12, f13, f14, f15, f16, f17, f18, f19, f20, f21, f22, f23, f24, f25, f26, f27, f28, f29, f30, f31, f32, f33, f34, f35, f36, f37, f38, f39, f40, f41, f42, f43, f44, f45, f46, f47, f48, f49, f50]

/-- The phase-B state satisfies the validity/liveness well-formedness check. -/
theorem wfPhaseB (e : Nat) (he : 4 ≤ e) : wfB (netB e) = true := by
  have f1 : 0 ≠ e := by omega
  have f2 : e ≠ 0 := by omega
  have f3 : 2 ≠ e := by omega
  have f4 : e ≠ 2 := by omega
  have f5 : 3 ≠ e := by omega
  have f6 : e ≠ 3 := by omega
  have f7 : 0 ≠ e + 1 := by omega
  have f8 : e + 1 ≠ 0 := by omega
  have f9 : 2 ≠ e + 1 := by omega
  have f10 : e + 1 ≠ 2 := by omega
  have f11 : 3 ≠ e + 1 := by omega
  have f12 : e + 1 ≠ 3 := by omega
  have f13 : 0 ≠ e + 2 := by omega
  have f14 : e + 2 ≠ 0 := by omega
  have f15 : 2 ≠ e + 2 := by omega
  have f16 : e + 2 ≠ 2 := by omega
  have f17 : 3 ≠ e + 2 := by omega
  have f18 : e + 2 ≠ 3 := by omega
  have f19 : 0 ≠ e + 3 := by omega
  have f20 : e + 3 ≠ 0 := by omega
  have f21 : 2 ≠ e + 3 := by omega
  have f22 : e + 3 ≠ 2 := by omega
  have f23 : 3 ≠ e + 3 := by omega
  have f24 : e + 3 ≠ 3 := by omega
  have f25 : 0 ≠ e + 4 := by omega
  have f26 : e + 4 ≠ 0 := by omega
  have f27 : 2 ≠ e + 4 := by omega
  have f28 : e + 4 ≠ 2 := by omega
  have f29 : 3 ≠ e + 4 := by omega
  have f30 : e + 4 ≠ 3 := by omega
  have f31 : e ≠ e + 1 := by omega
  have f32 : e + 1 ≠ e := by omega
  have f33 : e ≠ e + 2 := by omega
  have f34 : e + 2 ≠ e := by omega
  have f35 : e ≠ e + 3 := by omega
  have f36 : e + 3 ≠ e := by omega
  have f37 : e ≠ e + 4 := by omega
  have f38 : e + 4 ≠ e := by omega
  have f39 : e + 1 ≠ e + 2 := by omega
  have f40 : e + 2 ≠ e + 1 := by omega
  have f41 : e + 1 ≠ e + 3 := by omega
  have f42 : e + 3 ≠ e + 1 := by omega
  have f43 : e + 1 ≠ e + 4 := by omega
  have f44 : e + 4 ≠ e + 1 := by omega
  have f45 : e + 2 ≠ e + 3 := by omega
  have f46 : e + 3 ≠ e + 2 := by omega
  have f47 : e + 2 ≠ e + 4 := by omega
  have f48 : e + 4 ≠ e + 2 := by omega
  have f49 : e + 3 ≠ e + 4 := by omega
  have f50 : e + 4 ≠ e + 3 := by omega
  simp [wfB, portTarget, netB, Net.node?, Node.port, eN, cN, dN, lookupN_nil, lookupN_cons_self, lookupN_cons_ne, List.range, List.range.loop, f1, f2, f3, f4, f5, f6, f7, f8, f9, f10, f11, f12, f13, f14, f15, f16, f17, f18, f19, f20, f21, f22, f23, f24, f25, f26, f27, f28, f29, f30, f31, f32, f33, f34, f35, f36, f37, f38, f39, f40, f41, f42, f43, f44, f45, f46, f47, f48, f49, f50]

/-- The phase-C state satisfies the wiring involution check. -/
theorem involPhaseC (e : Nat) (he : 4 ≤ e) : involB (netC e) = true := by
  have f1 : 0 ≠ e := by omega
  have f2 : e ≠ 0 := by omega
  have f3 : 2 ≠ e := by omega
  have f4 : e ≠ 2 := by omega
  have f5 : 3 ≠ e := by omega
  have f6 : e ≠ 3 := by omega
  have f7 : 0 ≠ e + 1 := by omega
  have f8 : e + 1 ≠ 0 := by omega
  have f9 : 2 ≠ e + 1 := by omega
  have f10 : e + 1 ≠ 2 := by omega
  have f11 : 3 ≠ e + 1 := by omega
  have f12 : e + 1 ≠ 3 := by omega
  have f13 : 0 ≠ e + 2 := by omega
  have f14 : e + 2 ≠ 0 := by omega
  have f15 : 2 ≠ e + 2 := by omega
  have f16 : e + 2 ≠ 2 := by omega
  have f17 : 3 ≠ e + 2 := by omega
  have f18 : e + 2 ≠ 3 := by omega
  have f19 : 0 ≠ e + 3 := by omega
  have f20 : e + 3 ≠ 0 := by omega
  have f21 : 2 ≠ e + 3 := by omega
  have f22 : e + 3 ≠ 2 := by omega
  have f23 : 3 ≠ e + 3 := by omega
  have f24 : e + 3 ≠ 3 := by omega
  have f25 : 0 ≠ e + 4 := by omega
  have f26 : e + 4 ≠ 0 := by omega
  have f27 : 2 ≠ e + 4 := by omega
  have f28 : e + 4 ≠ 2 := by omega
  have f29 : 3 ≠ e + 4 := by omega
  have f30 : e + 4 ≠ 3 := by omega
  have f31 : e ≠ e + 1 := by omega
  have f32 : e + 1 ≠ e := by omega
  have f33 : e ≠ e + 2 := by omega
  have f34 : e + 2 ≠ e := by omega
  have f35 : e ≠ e + 3 := by omega
  have f36 : e + 3 ≠ e := by omega
  have f37 : e ≠ e + 4 := by omega
  have f38 : e + 4 ≠ e := by omega
  have f39 : e + 1 ≠ e + 2 := by omega
  have f40 : e + 2 ≠ e + 1 := by omega
  have f41 : e + 1 ≠ e + 3 := by omega
  have f42 : e + 3 ≠ e + 1 := by omega
  have f43 : e + 1 ≠ e + 4 := by omega
  have f44 : e + 4 ≠ e + 1 := by omega
  have f45 : e + 2 ≠ e + 3 := by omega
  have f46 : e + 3 ≠ e + 2 := by omega
  have f47 : e + 2 ≠ e + 4 := by omega
  have f48 : e + 4 ≠ e + 2 := by omega
  have f49 : e + 3 ≠ e + 4 := by omega
  have f50 : e + 4 ≠ e + 3 := by omega
  simp [involB, slotInvolB, followB, portTarget, netC, Net.node?, Node.port, eN, cN, dN, lookupN_nil, lookupN_cons_self, lookupN_cons_ne, List.range, List.range.loop, f1, f2, f3, f4, f5, f6, f7, f8, f9, f10, f11, f12, f13, f14, f15, f16, f17, f18, f19, f20, f21, f22, f23, f24, f25, f26, f27, f28, f29, f30, f31, f32, f33, f34, f35, f36, f37, f38, f39, f40, f41, f42, f43, f44, f45, f46, f47, f48, f49, f50]

/-- The phase-C state satisfies the validity/liveness well-formedness check. -/
theorem wfPhaseC (e : Nat) (he : 4 ≤ e) : wfB (netC e) = true := by
  have f1 : 0 ≠ e := by omega
  have f2 : e ≠ 0 := by omega
  have f3 : 2 ≠ e := by omega
  have f4 : e ≠ 2 := by omega
  have f5 : 3 ≠ e := by omega
  have f6 : e ≠ 3 := by omega
  have f7 : 0 ≠ e + 1 := by omega
  have f8 : e + 1 ≠ 0 := by omega
  have f9 : 2 ≠ e + 1 := by omega
  have f10 : e + 1 ≠ 2 := by omega
  have f11 : 3 ≠ e + 1 := by omega
  have f12 : e + 1 ≠ 3 := by omega
  have f13 : 0 ≠ e + 2 := by omega
  have f14 : e + 2 ≠ 0 := by omega
  have f15 : 2 ≠ e + 2 := by omega
  have f16 : e + 2 ≠ 2 := by omega
  have f17 : 3 ≠ e + 2 := by omega
  have f18 : e + 2 ≠ 3 := by omega
  have f19 : 0 ≠ e + 3 := by omega
  have f20 : e + 3 ≠ 0 := by omega
  have f21 : 2 ≠ e + 3 := by omega
  have f22 : e + 3 ≠ 2 := by omega
  have f23 : 3 ≠ e + 3 := by omega
  have f24 : e + 3 ≠ 3 := by omega
  have f25 : 0 ≠ e + 4 := by omega
  have f26 : e + 4 ≠ 0 := by omega
  have f27 : 2 ≠ e + 4 := by omega
  have f28 : e + 4 ≠ 2 := by omega
  have f29 : 3 ≠ e + 4 := by omega
  have f30 : e + 4 ≠ 3 := by omega
  have f31 : e ≠ e + 1 := by omega
  have f32 : e + 1 ≠ e := by omega
  have f33 : e ≠ e + 2 := by omega
  have f34 : e + 2 ≠ e := by omega
  have f35 : e ≠ e + 3 := by omega
  have f36 : e + 3 ≠ e := by omega
  have f37 : e ≠ e + 4 := by omega
  have f38 : e + 4 ≠ e := by omega
  have f39 : e + 1 ≠ e + 2 := by omega
  have f40 : e + 2 ≠ e + 1 := by omega
  have f41 : e + 1 ≠ e + 3 := by omega
  have f42 : e + 3 ≠ e + 1 := by omega
  have f43 : e + 1 ≠ e + 4 := by omega
  have f44 : e + 4 ≠ e + 1 := by omega
  have f45 : e + 2 ≠ e + 3 := by omega
  have f46 : e + 3 ≠ e + 2 := by omega
  have f47 : e + 2 ≠ e + 4 := by omega
  have f48 : e + 4 ≠ e + 2 := by omega
  have f49 : e + 3 ≠ e + 4 := by omega
  have f50 : e + 4 ≠ e + 3 := by omega
  simp [wfB, portTarget, netC, Net.node?, Node.port, eN, cN, dN, lookupN_nil, lookupN_cons_self, lookupN_cons_ne, List.range, List.range.loop, f1, f2, f3, f4, f5, f6, f7, f8, f9, f10, f11, f12, f13, f14, f15, f16, f17, f18, f19, f20, f21, f22, f23, f24, f25, f26, f27, f28, f29, f30, f31, f32, f33, f34, f35, f36, f37, f38, f39, f40, f41, f42, f43, f44, f45, f46, f47, f48, f49, f50]

/-- The phase-D state satisfies the wiring involution check. -/
theorem involPhaseD (e : Nat) (he : 4 ≤ e) : involB (netD e) = true := by
  have f1 : 0 ≠ e := by omega
  have f2 : e ≠ 0 := by omega
  have f3 : 2 ≠ e := by omega
  have f4 : e ≠ 2 := by omega
  have f5 : 3 ≠ e := by omega
  have f6 : e ≠ 3 := by omega
  have f7 : 0 ≠ e + 1 := by omega
  have f8 : e + 1 ≠ 0 := by omega
  have f9 : 2 ≠ e + 1 := by omega
  have f10 : e + 1 ≠ 2 := by omega
  have f11 : 3 ≠ e + 1 := by omega
  have f12 : e + 1 ≠ 3 := by omega
  have f13 : 0 ≠ e + 2 := by omega
  have f14 : e + 2 ≠ 0 := by omega
  have f15 : 2 ≠ e + 2 := by omega
  have f16 : e + 2 ≠ 2 := by omega
  have f17 : 3 ≠ e + 2 := by omega
  have f18 : e + 2 ≠ 3 := by omega
  have f19 : 0 ≠ e + 3 := by omega
  have f20 : e + 3 ≠ 0 := by omega
  have f21 : 2 ≠ e + 3 := by omega
  have f22 : e + 3 ≠ 2 := by omega
  have f23 : 3 ≠ e + 3 := by omega
  have f24 : e + 3 ≠ 3 := by omega
  have f25 : 0 ≠ e + 4 := by omega
  have f26 : e + 4 ≠ 0 := by omega
  have f27 : 2 ≠ e + 4 := by omega
  have f28 : e + 4 ≠ 2 := by omega
  have f29 : 3 ≠ e + 4 := by omega
  have f30 : e + 4 ≠ 3 := by omega
  have f31 : e ≠ e + 1 := by omega
  have f32 : e + 1 ≠ e := by omega
  have f33 : e ≠ e + 2 := by omega
  have f34 : e + 2 ≠ e := by omega
  have f35 : e ≠ e + 3 := by omega
  have f36 : e + 3 ≠ e := by omega
  have f37 : e ≠ e + 4 := by omega
  have f38 : e + 4 ≠ e := by omega
  have f39 : e + 1 ≠ e + 2 := by omega
  have f40 : e + 2 ≠ e + 1 := by omega
  have f41 : e + 1 ≠ e + 3 := by omega
  have f42 : e + 3 ≠ e + 1 := by omega
  have f43 : e + 1 ≠ e + 4 := by omega
  have f44 : e + 4 ≠ e + 1 := by omega
  have f45 : e + 2 ≠ e + 3 := by omega
  have f46 : e + 3 ≠ e + 2 := by omega
  have f47 : e + 2 ≠ e + 4 := by omega
  have f48 : e + 4 ≠ e + 2 := by omega
  have f49 : e + 3 ≠ e + 4 := by omega
  have f50 : e + 4 ≠ e + 3 := by omega
  simp [involB, slotInvolB, followB, portTarget, netD, Net.node?, Node.port, eN, cN, dN, lookupN_nil, lookupN_cons_self, lookupN_cons_ne, List.range, List.range.loop, f1, f2, f3, f4, f5, f6, f7, f8, f9, f10, f11, f12, f13, f14, f15, f16, f17, f18, f19, f20, f21, f22, f23, f24, f25, f26, f27, f28, f29, f30, f31, f32, f33, f34, f35, f36, f37, f38, f39, f40, f41, f42, f43, f44, f45, f46, f47, f48, f49, f50]

/-- The phase-D state satisfies the validity/liveness well-formedness check. -/
theorem wfPhaseD (e : Nat) (he : 4 ≤ e) : wfB (netD e) = true := by
  have f1 : 0 ≠ e := by omega
  have f2 : e ≠ 0 := by omega
  have f3 : 2 ≠ e := by omega
  have f4 : e ≠ 2 := by omega
  have f5 : 3 ≠ e := by omega
  have f6 : e ≠ 3 := by omega
  have f7 : 0 ≠ e + 1 := by omega
  have f8 : e + 1 ≠ 0 := by omega
  have f9 : 2 ≠ e + 1 := by omega
  have f10 : e + 1 ≠ 2 := by omega
  have f11 : 3 ≠ e + 1 := by omega
  have f12 : e + 1 ≠ 3 := by omega
  have f13 : 0 ≠ e + 2 := by omega
  have f14 : e + 2 ≠ 0 := by omega
  have f15 : 2 ≠ e + 2 := by omega
  have f16 : e + 2 ≠ 2 := by omega
  have f17 : 3 ≠ e + 2 := by omega
  have f18 : e + 2 ≠ 3 := by omega
  have f19 : 0 ≠ e + 3 := by omega
  have f20 : e + 3 ≠ 0 := by omega
  have f21 : 2 ≠ e + 3 := by omega
  have f22 : e + 3 ≠ 2 := by omega
  have f23 : 3 ≠ e + 3 := by omega
  have f24 : e + 3 ≠ 3 := by omega
  have f25 : 0 ≠ e + 4 := by omega
  have f26 : e + 4 ≠ 0 := by omega
  have f27 : 2 ≠ e + 4 := by omega
  have f28 : e + 4 ≠ 2 := by omega
  have f29 : 3 ≠ e + 4 := by omega
  have f30 : e + 4 ≠ 3 := by omega
  have f31 : e ≠ e + 1 := by omega
  have f32 : e + 1 ≠ e := by omega
  have f33 : e ≠ e + 2 := by omega
  have f34 : e + 2 ≠ e := by omega
  have f35 : e ≠ e + 3 := by omega
  have f36 : e + 3 ≠ e := by omega
  have f37 : e ≠ e + 4 := by omega
  have f38 : e + 4 ≠ e := by omega
  have f39 : e + 1 ≠ e + 2 := by omega
  have f40 : e + 2 ≠ e + 1 := by omega
  have f41 : e + 1 ≠ e + 3 := by omega
  have f42 : e + 3 ≠ e + 1 := by omega
  have f43 : e + 1 ≠ e + 4 := by omega
  have f44 : e + 4 ≠ e + 1 := by omega
  have f45 : e + 2 ≠ e + 3 := by omega
  have f46 : e + 3 ≠ e + 2 := by omega
  have f47 : e + 2 ≠ e + 4 := by omega
  have f48 : e + 4 ≠ e + 2 := by omega
  have f49 : e + 3 ≠ e + 4 := by omega
  have f50 : e + 4 ≠ e + 3 := by omega
  simp [wfB, portTarget, netD, Net.node?, Node.port, eN, cN, dN, lookupN_nil, lookupN_cons_self, lookupN_cons_ne, List.range, List.range.loop, f1, f2, f3, f4, f5, f6, f7, f8, f9, f10, f11, f12, f13, f14, f15, f16, f17, f18, f19, f20, f21, f22, f23, f24, f25, f26, f27, f28, f29, f30, f31, f32, f33, f34, f35, f36, f37, f38, f39, f40, f41, f42, f43, f44, f45, f46, f47, f48, f49, f50]

/-- Every reachable state steps again with `true` (a rewrite is always found)
and holds exactly 4 or 6 live agents. -/
theorem reachStepTrue (n : Nat) : ∃ s m, iterN n = some s ∧ s.step = some (true, m) ∧
    (s.nodes.length = 4 ∨ s.nodes.length = 6) := by
  obtain ⟨s, hs, hsh⟩ := iterShape n
  rcases hsh with rfl | rfl | rfl | rfl | ⟨e, he, rfl | rfl | rfl | rfl⟩
  · exact ⟨_, st1, hs, by decide, by decide⟩
  · exact ⟨_, st2, hs, by decide, by decide⟩
  · exact ⟨_, st3, hs, by decide, by decide⟩
  · exact ⟨_, netA 7, hs, by decide, by decide⟩
  · exact ⟨_, _, hs, stepPhaseA e he, Or.inl rfl⟩
  · exact ⟨_, _, hs, stepPhaseB e he, Or.inr rfl⟩
  · exact ⟨_, _, hs, stepPhaseC e he, Or.inr rfl⟩
  · exact ⟨_, _, hs, stepPhaseD e he, Or.inr rfl⟩

/-- Claim C1 is false: there is no number of `step()` calls after which the
seed net is in normal form (`step()` returning `false`) with zero live agents. -/
theorem C1_cex_no_normal_form : ¬ ∃ n s m, iterN n = some s ∧
    s.step = some (false, m) ∧ s.nodes.length = 0 := by
  rintro ⟨n, s, m, hs, hstep, hlen⟩
  obtain ⟨s2, m2, hs2, hstep2, hlen2⟩ := reachStepTrue n
  rw [hs] at hs2
  injection hs2 with h
  subst h
  rw [hstep] at hstep2
  injection hstep2 with h2
  exact Bool.noConfusion (congrArg Prod.fst h2)

/-- Claim C1 (amended): the canonical seed net never reaches normal form.
After any number of `step()` calls the step succeeds, returns `true` (a
rewrite was applied), and the net always holds exactly 4 or 6 live agents,
never zero; the run is an endless period-4 cycle. -/
theorem C1_seed_never_normal (n : Nat) : ∃ s m, iterN n = some s ∧
    s.step = some (true, m) ∧ (s.nodes.length = 4 ∨ s.nodes.length = 6) :=
  reachStepTrue n

/-- Claim C2: every state reachable from `Net::new()` by `step()` calls
satisfies the wiring involution: following any live port slot yields a port
of a live agent, and following that port leads back. -/
theorem C2_reachable_involution (n : Nat) : ∃ s, iterN n = some s ∧ involB s = true := by
  obtain ⟨s, hs, hsh⟩ := iterShape n
  refine ⟨s, hs, ?_⟩
  rcases hsh with rfl | rfl | rfl | rfl | ⟨e, he, rfl | rfl | rfl | rfl⟩
  · decide
  · decide
  · decide
  · decide
  · exact involPhaseA e he
  · exact involPhaseB e he
  · exact involPhaseC e he
  · exact involPhaseD e he

/-- Claim C9: on every reachable state, every port slot of every live agent
holds a `Valid` reference to an in-range port of a live agent, and `step()`
is total: it never reaches the `Port::extract` panic or a `node`/`node_mut`
unwrap failure. -/
theorem C9_reachable_total (n : Nat) : ∃ s, iterN n = some s ∧ wfB s = true ∧
    (s.step).isSome = true := by
  obtain ⟨s, hs, hsh⟩ := iterShape n
  refine ⟨s, hs, ?_, ?_⟩
  · rcases hsh with rfl | rfl | rfl | rfl | ⟨e, he, rfl | rfl | rfl | rfl⟩
    · decide
    · decide
    · decide
    · decide
    · exact wfPhaseA e he
    · exact wfPhaseB e he
    · exact wfPhaseC e he
    · exact wfPhaseD e he
  · rcases hsh with rfl | rfl | rfl | rfl | ⟨e, he, rfl | rfl | rfl | rfl⟩
    · decide
    · decide
    · decide
    · decide
    · rw [stepPhaseA e he]; rfl
    · rw [stepPhaseB e he]; rfl
    · rw [stepPhaseC e he]; rfl
    · rw [stepPhaseD e he]; rfl

/-- Claim C6: whenever `step()` returns `false` it leaves the net unchanged,
and calling `step()` again on that unchanged net returns `false` again:
normal form is stable under repeated stepping. -/
theorem C6_normal_form_stable (net m : Net) (h : net.step = some (false, m)) :
    m = net ∧ m.step = some (false, m) := by
  unfold Net.step at h ⊢
  rcases hscan : net.scan with _ | bs
  · rw [hscan] at h; exact absurd h (by simp)
  · rw [hscan] at h
    simp only [Option.some_bind] at h
    rcases hch : chosen bs with _ | kpr
    · simp only [hch, Option.some.injEq, Prod.mk.injEq] at h
      obtain ⟨-, rfl⟩ := h
      refine ⟨rfl, ?_⟩
      rw [hscan]
      simp only [Option.some_bind, hch]
    · simp only [hch] at h
      rcases hev : net.evalRule kpr.1 kpr.2.1 kpr.2.2 with _ | x
      · rw [hev] at h; simp at h
      · rw [hev] at h; simp at h

/-- A normal-form witness configuration: the empty net. -/
def emptyNet : Net := ⟨[], 0⟩

/-- Witness for C6: the empty net is in normal form and `step()` on it returns
`false` with the net unchanged, twice over. -/
theorem C6_witness : emptyNet = emptyNet ∧ emptyNet.step = some (false, emptyNet) :=
  C6_normal_form_stable emptyNet emptyNet (by decide)

/-- The C8 scenario: Construct agent 0 with auxiliary ports wired to Erase
agents 1 and 2, and principal port wired to Erase agent 3's principal port. -/
def c8Net : Net :=
  ⟨[(0, cN (.Valid 3 0) (.Valid 1 0) (.Valid 2 0)),
    (1, eN (.Valid 0 1)), (2, eN (.Valid 0 2)), (3, eN (.Valid 0 0))], 4⟩

/-- The net after one `step()` on the C8 scenario. -/
def c8Res : Net :=
  ⟨[(1, eN (.Valid 3 0)), (2, eN (.Valid 4 0)),
    (3, eN (.Valid 1 0)), (4, eN (.Valid 2 0))], 5⟩

/-- Claim C8: on the Construct-with-three-Erase scenario one `step()` returns
`true`; afterwards the fresh identifier 4 holds the single newly created Erase
agent, the original Construct agent 0 is gone, and the involution holds. -/
theorem C8_construct_erase_scenario :
    c8Net.step = some (true, c8Res) ∧
    c8Res.node? 4 = some (eN (.Valid 2 0)) ∧
    c8Res.node? 0 = none ∧
    c8Res.next = c8Net.next + 1 ∧
    involB c8Res = true := by decide

theorem length_replaceK (l : List (Nat × Node)) (a : Nat) (m : Node) :
    (replaceK l a m).length = l.length := by
  induction l with
  | nil => rfl
  | cons hd t ih =>
    obtain ⟨k, n⟩ := hd
    by_cases h : k = a <;> simp [replaceK, h, ih]

theorem length_removeK (l : List (Nat × Node)) (a : Nat) (n : Node)
    (h : lookupN l a = some n) : (removeK l a).length + 1 = l.length := by
  induction l with
  | nil => exact absurd h (by simp [lookupN])
  | cons hd t ih =>
    obtain ⟨k, m⟩ := hd
    by_cases hk : a = k
    · simp [removeK, hk]
    · rw [lookupN] at h
      rw [if_neg hk] at h
      have hk2 : ¬ (k = a) := fun hh => hk hh.symm
      simp only [removeK, if_neg hk2, List.length_cons]
      rw [ih h]

theorem setSlot_length (net m : Net) (x v : Port) (h : net.setSlot x v = some m) :
    m.nodes.length = net.nodes.length := by
  rcases x with _ | ⟨a, p⟩
  · exact absurd h (by simp [Net.setSlot])
  · rw [Net.setSlot] at h
    rcases hn : net.node? a with _ | n
    · rw [hn] at h; exact absurd h (by simp)
    · rw [hn] at h
      simp only [Option.some_bind] at h
      rcases hs : n.setPort p v with _ | n2
      · rw [hs] at h; simp at h
      · rw [hs] at h
        simp only [Option.map_some', Option.some.injEq] at h
        subst h
        exact length_replaceK net.nodes a n2

theorem connect_length (net m : Net) (x y : Port) (h : net.connect x y = some m) :
    m.nodes.length = net.nodes.length := by
  rw [Net.connect] at h
  rcases h1 : net.setSlot x y with _ | n1
  · rw [h1] at h; exact absurd h (by simp)
  · rw [h1] at h
    simp only [Option.some_bind] at h
    rw [setSlot_length n1 m y x h, setSlot_length net n1 x y h1]

theorem create_length (net m : Net) (nd : Node) (c : Nat)
    (h : net.create nd = some (c, m)) : m.nodes.length = net.nodes.length + 1 := by
  rw [Net.create] at h
  rcases hn : net.node? net.next with _ | n
  · rw [hn] at h
    simp only [Option.some.injEq, Prod.mk.injEq] at h
    obtain ⟨-, rfl⟩ := h
    simp
  · rw [hn] at h; exact absurd h (by simp)

theorem delete_length (net m : Net) (a : Nat) (h : net.delete a = some m) :
    m.nodes.length + 1 = net.nodes.length := by
  rw [Net.delete] at h
  rcases hn : net.node? a with _ | n
  · rw [hn] at h; exact absurd h (by simp)
  · rw [hn] at h
    simp only [Option.some.injEq] at h
    subst h
    exact length_removeK net.nodes a n hn

theorem get_some_of_bind {α : Type} (x : Option Port) (f : Port → Option α) (b : α)
    (h : x.bind f = some b) : ∃ g, x = some g ∧ f g = some b := by
  rcases x with _ | g
  · exact absurd h (by simp)
  · exact ⟨g, rfl, h⟩

/-- Claim C5: the per-rule live-agent-count deltas.  Erase-Erase,
Duplicate-Duplicate and Construct-Construct each remove exactly 2 agents;
Construct-Duplicate adds exactly 2; Construct-Erase and Duplicate-Erase
leave the count unchanged (one deleted, one created). -/
theorem C5_agent_count_deltas :
    (∀ (net net2 : Net) (a b : Nat), net.eval_ee a b = some net2 →
      net2.nodes.length + 2 = net.nodes.length) ∧
    (∀ (net net2 : Net) (a b : Nat), net.eval_dd a b = some net2 →
      net2.nodes.length + 2 = net.nodes.length) ∧
    (∀ (net net2 : Net) (a b : Nat), net.eval_cc a b = some net2 →
      net2.nodes.length + 2 = net.nodes.length) ∧
    (∀ (net net2 : Net) (a b : Nat), net.eval_cd a b = some net2 →
      net2.nodes.length = net.nodes.length + 2) ∧
    (∀ (net net2 : Net) (a b : Nat), net.eval_ce a b = some net2 →
      net2.nodes.length = net.nodes.length) ∧
    (∀ (net net2 : Net) (a b : Nat), net.eval_de a b = some net2 →
      net2.nodes.length = net.nodes.length) := by
  refine ⟨?_, ?_, ?_, ?_, ?_, ?_⟩
  · intro net net2 a b h
    rw [Net.eval_ee] at h
    obtain ⟨n1, h1, h2⟩ := Option.bind_eq_some.mp h
    have e1 := delete_length net n1 a h1
    have e2 := delete_length n1 net2 b h2
    omega
  · intro net net2 a b h
    rw [Net.eval_dd] at h
    obtain ⟨g1, hg1, h⟩ := Option.bind_eq_some.mp h
    obtain ⟨g2, hg2, h⟩ := Option.bind_eq_some.mp h
    obtain ⟨n1, hc1, h⟩ := Option.bind_eq_some.mp h
    obtain ⟨g3, hg3, h⟩ := Option.bind_eq_some.mp h
    obtain ⟨g4, hg4, h⟩ := Option.bind_eq_some.mp h
    obtain ⟨n2, hc2, h⟩ := Option.bind_eq_some.mp h
    obtain ⟨n3, hd1, h⟩ := Option.bind_eq_some.mp h
    have e1 := connect_length net n1 g1 g2 hc1
    have e2 := connect_length n1 n2 g3 g4 hc2
    have e3 := delete_length n2 n3 a hd1
    have e4 := delete_length n3 net2 b h
    omega
  · intro net net2 a b h
    rw [Net.eval_cc] at h
    obtain ⟨g1, hg1, h⟩ := Option.bind_eq_some.mp h
    obtain ⟨g2, hg2, h⟩ := Option.bind_eq_some.mp h
    obtain ⟨n1, hc1, h⟩ := Option.bind_eq_some.mp h
    obtain ⟨g3, hg3, h⟩ := Option.bind_eq_some.mp h
    obtain ⟨g4, hg4, h⟩ := Option.bind_eq_some.mp h
    obtain ⟨n2, hc2, h⟩ := Option.bind_eq_some.mp h
    obtain ⟨n3, hd1, h⟩ := Option.bind_eq_some.mp h
    have e1 := connect_length net n1 g1 g2 hc1
    have e2 := connect_length n1 n2 g3 g4 hc2
    have e3 := delete_length n2 n3 a hd1
    have e4 := delete_length n3 net2 b h
    omega
  · intro net net2 a b h
    rw [Net.eval_cd] at h
    obtain ⟨cn, hcr1, h⟩ := Option.bind_eq_some.mp h
    obtain ⟨dn, hcr2, h⟩ := Option.bind_eq_some.mp h
    obtain ⟨g1, hg1, h⟩ := Option.bind_eq_some.mp h
    obtain ⟨n3, hc1, h⟩ := Option.bind_eq_some.mp h
    obtain ⟨g2, hg2, h⟩ := Option.bind_eq_some.mp h
    obtain ⟨n4, hc2, h⟩ := Option.bind_eq_some.mp h
    obtain ⟨g3, hg3, h⟩ := Option.bind_eq_some.mp h
    obtain ⟨n5, hc3, h⟩ := Option.bind_eq_some.mp h
    obtain ⟨g4, hg4, h⟩ := Option.bind_eq_some.mp h
    obtain ⟨n6, hc4, h⟩ := Option.bind_eq_some.mp h
    obtain ⟨n7, hc5, h⟩ := Option.bind_eq_some.mp h
    obtain ⟨n8, hc6, h⟩ := Option.bind_eq_some.mp h
    obtain ⟨n9, hc7, h⟩ := Option.bind_eq_some.mp h
    have e1 := create_length net cn.2 Node.construct cn.1 hcr1
    have e2 := create_length cn.2 dn.2 Node.duplicate dn.1 hcr2
    have e3 := connect_length dn.2 n3 g1 (.Valid dn.1 0) hc1
    have e4 := connect_length n3 n4 g2 (.Valid b 0) hc2
    have e5 := connect_length n4 n5 g3 (.Valid a 0) hc3
    have e6 := connect_length n5 n6 g4 (.Valid cn.1 0) hc4
    have e7 := connect_length n6 n7 (.Valid b 1) (.Valid a 2) hc5
    have e8 := connect_length n7 n8 (.Valid b 2) (.Valid cn.1 2) hc6
    have e9 := connect_length n8 n9 (.Valid dn.1 1) (.Valid a 1) hc7
    have e10 := connect_length n9 net2 (.Valid dn.1 2) (.Valid cn.1 1) h
    omega
  · intro net net2 a b h
    rw [Net.eval_ce] at h
    obtain ⟨cn, hcr1, h⟩ := Option.bind_eq_some.mp h
    obtain ⟨g1, hg1, h⟩ := Option.bind_eq_some.mp h
    obtain ⟨n2, hc1, h⟩ := Option.bind_eq_some.mp h
    obtain ⟨g2, hg2, h⟩ := Option.bind_eq_some.mp h
    obtain ⟨n3, hc2, h⟩ := Option.bind_eq_some.mp h
    have e1 := create_length net cn.2 Node.erase cn.1 hcr1
    have e2 := connect_length cn.2 n2 (.Valid b 0) g1 hc1
    have e3 := connect_length n2 n3 (.Valid cn.1 0) g2 hc2
    have e4 := delete_length n3 net2 a h
    omega
  · intro net net2 a b h
    rw [Net.eval_de] at h
    obtain ⟨cn, hcr1, h⟩ := Option.bind_eq_some.mp h
    obtain ⟨g1, hg1, h⟩ := Option.bind_eq_some.mp h
    obtain ⟨n2, hc1, h⟩ := Option.bind_eq_some.mp h
    obtain ⟨g2, hg2, h⟩ := Option.bind_eq_some.mp h
    obtain ⟨n3, hc2, h⟩ := Option.bind_eq_some.mp h
    have e1 := create_length net cn.2 Node.erase cn.1 hcr1
    have e2 := connect_length cn.2 n2 (.Valid b 0) g1 hc1
    have e3 := connect_length n2 n3 (.Valid cn.1 0) g2 hc2
    have e4 := delete_length n3 net2 a h
    omega

/-- Concrete Erase-Erase active pair for the C5 witness. -/
def wEE : Net := ⟨[(0, eN (.Valid 1 0)), (1, eN (.Valid 0 0))], 2⟩

/-- Concrete Duplicate-Duplicate active pair (self-looped auxiliaries). -/
def wDD : Net :=
  ⟨[(0, dN (.Valid 1 0) (.Valid 0 2) (.Valid 0 1)),
    (1, dN (.Valid 0 0) (.Valid 1 2) (.Valid 1 1))], 2⟩

/-- Concrete Construct-Construct active pair (self-looped auxiliaries). -/
def wCC : Net :=
  ⟨[(0, cN (.Valid 1 0) (.Valid 0 2) (.Valid 0 1)),
    (1, cN (.Valid 0 0) (.Valid 1 2) (.Valid 1 1))], 2⟩

/-- Concrete Construct-Duplicate active pair with four external Erase agents. -/
def wCD : Net :=
  ⟨[(0, cN (.Valid 1 0) (.Valid 2 0) (.Valid 3 0)),
    (1, dN (.Valid 0 0) (.Valid 4 0) (.Valid 5 0)),
    (2, eN (.Valid 0 1)), (3, eN (.Valid 0 2)),
    (4, eN (.Valid 1 1)), (5, eN (.Valid 1 2))], 6⟩

/-- Concrete Construct-Erase active pair with two external Erase agents. -/
def wCE : Net :=
  ⟨[(0, cN (.Valid 1 0) (.Valid 2 0) (.Valid 3 0)),
    (1, eN (.Valid 0 0)), (2, eN (.Valid 0 1)), (3, eN (.Valid 0 2))], 4⟩

/-- Concrete Duplicate-Erase active pair with two external Erase agents. -/
def wDE : Net :=
  ⟨[(0, dN (.Valid 1 0) (.Valid 2 0) (.Valid 3 0)),
    (1, eN (.Valid 0 0)), (2, eN (.Valid 0 1)), (3, eN (.Valid 0 2))], 4⟩

/-- Witness for C5: each of the six rules applied at a concrete active pair,
with the count delta the claim states. -/
theorem C5_witness :
    (wEE.eval_ee 0 1 = some ⟨[], 2⟩ ∧ (0 : Nat) + 2 = wEE.nodes.length) ∧
    (wDD.eval_dd 0 1 = some ⟨[], 2⟩ ∧ (0 : Nat) + 2 = wDD.nodes.length) ∧
    (wCC.eval_cc 0 1 = some ⟨[], 2⟩ ∧ (0 : Nat) + 2 = wCC.nodes.length) ∧
    (∃ m : Net, wCD.eval_cd 0 1 = some m ∧ m.nodes.length = wCD.nodes.length + 2) ∧
    (∃ m : Net, wCE.eval_ce 0 1 = some m ∧ m.nodes.length = wCE.nodes.length) ∧
    (∃ m : Net, wDE.eval_de 0 1 = some m ∧ m.nodes.length = wDE.nodes.length) := by
  refine ⟨⟨by decide, ?_⟩, ⟨by decide, ?_⟩, ⟨by decide, ?_⟩, ?_, ?_, ?_⟩
  · exact C5_agent_count_deltas.1 wEE ⟨[], 2⟩ 0 1 (by decide)
  · exact C5_agent_count_deltas.2.1 wDD ⟨[], 2⟩ 0 1 (by decide)
  · exact C5_agent_count_deltas.2.2.1 wCC ⟨[], 2⟩ 0 1 (by decide)
  · rcases hm : wCD.eval_cd 0 1 with _ | m
    · exact absurd hm (by decide)
    · exact ⟨m, rfl, C5_agent_count_deltas.2.2.2.1 wCD m 0 1 hm⟩
  · rcases hm : wCE.eval_ce 0 1 with _ | m
    · exact absurd hm (by decide)
    · exact ⟨m, rfl, C5_agent_count_deltas.2.2.2.2.1 wCE m 0 1 hm⟩
  · rcases hm : wDE.eval_de 0 1 with _ | m
    · exact absurd hm (by decide)
    · exact ⟨m, rfl, C5_agent_count_deltas.2.2.2.2.2 wDE m 0 1 hm⟩

/-- Distinct identifiers in the arena (always true of a `HashMap`). -/
def NodupK (l : List (Nat × Node)) : Prop := (l.map Prod.fst).Nodup

instance instDecidableNodupK (l : List (Nat × Node)) : Decidable (NodupK l) :=
  inferInstanceAs (Decidable (List.Nodup _))

/-- An active pair as the spec defines it: two distinct live agents whose
principal (index-0) port slots are wired to each other. -/
def ActivePair (net : Net) (a b : Nat) : Prop :=
  a ≠ b ∧ ∃ n m, net.node? a = some n ∧ net.node? b = some m ∧
    n.port 0 = some (.Valid b 0) ∧ m.port 0 = some (.Valid a 0)

/-- The kind of a live agent. -/
def kindOf? (net : Net) (a : Nat) : Option NKind := (net.node? a).map Node.kind

/-- The kind expected of the first agent passed to each rule. -/
def roleFst : RK → NKind
  | .ee => .erase
  | .de => .duplicate
  | .ce => .construct
  | .dd => .duplicate
  | .cc => .construct
  | .cd => .construct

/-- The kind expected of the second agent passed to each rule. -/
def roleSnd : RK → NKind
  | .ee => .erase
  | .de => .erase
  | .ce => .erase
  | .dd => .duplicate
  | .cc => .construct
  | .cd => .duplicate

/-- An active pair already normalized into the role order of bucket `K`. -/
def PairK (net : Net) (K : RK) (a b : Nat) : Prop :=
  ActivePair net a b ∧ kindOf? net a = some (roleFst K) ∧ kindOf? net b = some (roleSnd K)

/-- Position of each bucket in the descending priority order of `step()`. -/
def rulePriority : RK → Nat
  | .ee => 0
  | .de => 1
  | .ce => 2
  | .dd => 3
  | .cc => 4
  | .cd => 5

/-- What one scanned arena entry contributes to bucket `K`. -/
def pushOf (net : Net) (en : Nat × Node) (K : RK) : Option (Nat × Nat) :=
  match entryStep net en with
  | some (some (k, pr)) => if k = K then some pr else none
  | _ => none

theorem lastP_eq_none (l : List (Nat × Nat)) : lastP l = none ↔ l = [] := by
  induction l with
  | nil => simp [lastP]
  | cons x t ih =>
    cases t with
    | nil => simp [lastP]
    | cons y t2 => rw [lastP, ih]; simp

theorem lastP_mem (l : List (Nat × Nat)) (x : Nat × Nat) (h : lastP l = some x) : x ∈ l := by
  induction l with
  | nil => exact absurd h (by simp [lastP])
  | cons y t ih =>
    cases t with
    | nil =>
      rw [lastP] at h
      injection h with h
      simp [h]
    | cons z t2 =>
      rw [lastP] at h
      exact List.mem_cons_of_mem y (ih h)

theorem mem_of_lookupN (l : List (Nat × Node)) (k : Nat) (n : Node)
    (h : lookupN l k = some n) : (k, n) ∈ l := by
  induction l with
  | nil => exact absurd h (by simp [lookupN])
  | cons hd t ih =>
    obtain ⟨k2, n2⟩ := hd
    rw [lookupN] at h
    by_cases hk : k = k2
    · rw [if_pos hk] at h
      injection h with h
      subst hk; subst h; exact List.mem_cons_self _ _
    · rw [if_neg hk] at h
      exact List.mem_cons_of_mem _ (ih h)

theorem lookupN_eq_of_mem (l : List (Nat × Node)) (k : Nat) (n : Node)
    (hnd : NodupK l) (hm : (k, n) ∈ l) : lookupN l k = some n := by
  induction l with
  | nil => exact absurd hm (by simp)
  | cons hd t ih =>
    obtain ⟨k2, n2⟩ := hd
    rw [NodupK, List.map_cons, List.nodup_cons] at hnd
    rcases List.mem_cons.mp hm with h | h
    · injection h with h1 h2
      subst h1; subst h2
      simp [lookupN]
    · have hk : k ≠ k2 := by
        intro he
        subst he
        exact hnd.1 (List.mem_map.mpr ⟨(k, n), h, rfl⟩)
      rw [lookupN, if_neg hk]
      exact ih hnd.2 h

theorem lookupN_eq_none_iff (l : List (Nat × Node)) (k : Nat) :
    lookupN l k = none ↔ k ∉ l.map Prod.fst := by
  induction l with
  | nil => simp [lookupN]
  | cons hd t ih =>
    obtain ⟨k2, n2⟩ := hd
    by_cases hk : k = k2
    · subst hk; simp [lookupN]
    · rw [lookupN, if_neg hk, ih]
      simp [hk]

theorem lookupN_perm (l l2 : List (Nat × Node)) (k : Nat)
    (hperm : l.Perm l2) (hnd : NodupK l2) : lookupN l k = lookupN l2 k := by
  have hnd1 : NodupK l := by
    rw [NodupK]
    exact ((hperm.map Prod.fst).nodup_iff).mpr hnd
  rcases h2 : lookupN l2 k with _ | n
  · rw [lookupN_eq_none_iff] at h2 ⊢
    intro hm
    exact h2 ((hperm.map Prod.fst).mem_iff.mp hm)
  · exact lookupN_eq_of_mem l k n hnd1 (hperm.mem_iff.mpr (mem_of_lookupN l2 k n h2))

theorem scanList_some_buckets (net : Net) (l : List (Nat × Node)) (bs bs2 : Buckets)
    (h : scanList net l bs = some bs2) (K : RK) :
    bs2 K = bs K ++ l.filterMap (fun en => pushOf net en K) := by
  induction l generalizing bs with
  | nil =>
    rw [scanList] at h
    injection h with h
    subst h
    simp
  | cons en t ih =>
    rw [scanList] at h
    rcases he : entryStep net en with _ | o
    · rw [he] at h; exact absurd h (by simp)
    · rw [he] at h
      rcases o with _ | kpr
      · have hp : pushOf net en K = none := by rw [pushOf, he]
        rw [List.filterMap_cons, hp]
        exact ih bs h
      · obtain ⟨k, pr⟩ := kpr
        have hih := ih (push bs k pr) h
        by_cases hk : k = K
        · have hp : pushOf net en K = some pr := by
            simp only [pushOf, he]
            rw [if_pos hk]
          have hpush : push bs k pr K = bs K ++ [pr] := by
            simp only [push]
            rw [if_pos hk.symm]
          rw [List.filterMap_cons, hp, hih, hpush]
          simp
        · have hp : pushOf net en K = none := by
            simp only [pushOf, he]
            rw [if_neg hk]
          have hpush : push bs k pr K = bs K := by
            simp only [push]
            rw [if_neg (fun hh => hk hh.symm)]
          rw [List.filterMap_cons, hp, hih, hpush]

theorem scanList_some_entries (net : Net) (l : List (Nat × Node)) (bs bs2 : Buckets)
    (h : scanList net l bs = some bs2) : ∀ en ∈ l, entryStep net en ≠ none := by
  induction l generalizing bs with
  | nil => intro en hm; exact absurd hm (by simp)
  | cons en0 t ih =>
    intro en hm
    rw [scanList] at h
    rcases he : entryStep net en0 with _ | o
    · rw [he] at h; exact absurd h (by simp)
    · rw [he] at h
      rcases List.mem_cons.mp hm with rfl | hm2
      · rw [he]; exact fun hh => Option.noConfusion hh
      · rcases o with _ | kpr
        · exact ih bs h en hm2
        · obtain ⟨k, pr⟩ := kpr
          exact ih (push bs k pr) h en hm2

theorem scanList_total (net : Net) (l : List (Nat × Node)) (bs : Buckets)
    (h : ∀ en ∈ l, entryStep net en ≠ none) : ∃ bs2, scanList net l bs = some bs2 := by
  induction l generalizing bs with
  | nil => exact ⟨bs, rfl⟩
  | cons en0 t ih =>
    rcases he : entryStep net en0 with _ | o
    · exact absurd he (h en0 (List.mem_cons_self _ _))
    · rcases o with _ | kpr
      · obtain ⟨bs2, hbs2⟩ := ih bs (fun en hm => h en (List.mem_cons_of_mem _ hm))
        exact ⟨bs2, by rw [scanList, he]; exact hbs2⟩
      · obtain ⟨k, pr⟩ := kpr
        obtain ⟨bs2, hbs2⟩ := ih (push bs k pr) (fun en hm => h en (List.mem_cons_of_mem _ hm))
        exact ⟨bs2, by rw [scanList, he]; exact hbs2⟩

theorem chosen_none_buckets (bs : Buckets) (h : chosen bs = none) : ∀ K, bs K = [] := by
  have hee : lastP (bs .ee) = none := by
    rcases he : lastP (bs .ee) with _ | pr
    · rfl
    · rw [chosen, he] at h; exact absurd h (by simp)
  have hde : lastP (bs .de) = none := by
    rcases he : lastP (bs .de) with _ | pr
    · rfl
    · rw [chosen, hee, he] at h; exact absurd h (by simp)
  have hce : lastP (bs .ce) = none := by
    rcases he : lastP (bs .ce) with _ | pr
    · rfl
    · rw [chosen, hee, hde, he] at h; exact absurd h (by simp)
  have hdd : lastP (bs .dd) = none := by
    rcases he : lastP (bs .dd) with _ | pr
    · rfl
    · rw [chosen, hee, hde, hce, he] at h; exact absurd h (by simp)
  have hcc : lastP (bs .cc) = none := by
    rcases he : lastP (bs .cc) with _ | pr
    · rfl
    · rw [chosen, hee, hde, hce, hdd, he] at h; exact absurd h (by simp)
  have hcd : lastP (bs .cd) = none := by
    rcases he : lastP (bs .cd) with _ | pr
    · rfl
    · rw [chosen, hee, hde, hce, hdd, hcc, he] at h; exact absurd h (by simp)
  intro K
  cases K
  · exact (lastP_eq_none _).mp hee
  · exact (lastP_eq_none _).mp hde
  · exact (lastP_eq_none _).mp hce
  · exact (lastP_eq_none _).mp hdd
  · exact (lastP_eq_none _).mp hcc
  · exact (lastP_eq_none _).mp hcd

theorem chosen_none_of_buckets (bs : Buckets) (h : ∀ K, bs K = []) : chosen bs = none := by
  rw [chosen, h .ee, h .de, h .ce, h .dd, h .cc, h .cd]
  rfl

theorem chosen_some_spec (bs : Buckets) (K : RK) (pr : Nat × Nat)
    (h : chosen bs = some (K, pr)) :
    pr ∈ bs K ∧ ∀ K2, rulePriority K2 < rulePriority K → bs K2 = [] := by
  rw [chosen] at h
  split at h
  next x heq =>
    injection h with h
    injection h with hK hpr
    subst hK; subst hpr
    exact ⟨lastP_mem _ _ heq, fun K2 hk2 => absurd hk2 (Nat.not_lt_zero _)⟩
  next h1 =>
  split at h
  next x heq =>
    injection h with h
    injection h with hK hpr
    subst hK; subst hpr
    refine ⟨lastP_mem _ _ heq, fun K2 hk2 => ?_⟩
    cases K2
    · exact (lastP_eq_none _).mp h1
    · exact absurd hk2 (by decide)
    · exact absurd hk2 (by decide)
    · exact absurd hk2 (by decide)
    · exact absurd hk2 (by decide)
    · exact absurd hk2 (by decide)
  next h2 =>
  split at h
  next x heq =>
    injection h with h
    injection h with hK hpr
    subst hK; subst hpr
    refine ⟨lastP_mem _ _ heq, fun K2 hk2 => ?_⟩
    cases K2
    · exact (lastP_eq_none _).mp h1
    · exact (lastP_eq_none _).mp h2
    · exact absurd hk2 (by decide)
    · exact absurd hk2 (by decide)
    · exact absurd hk2 (by decide)
    · exact absurd hk2 (by decide)
  next h3 =>
  split at h
  next x heq =>
    injection h with h
    injection h with hK hpr
    subst hK; subst hpr
    refine ⟨lastP_mem _ _ heq, fun K2 hk2 => ?_⟩
    cases K2
    · exact (lastP_eq_none _).mp h1
    · exact (lastP_eq_none _).mp h2
    · exact (lastP_eq_none _).mp h3
    · exact absurd hk2 (by decide)
    · exact absurd hk2 (by decide)
    · exact absurd hk2 (by decide)
  next h4 =>
  split at h
  next x heq =>
    injection h with h
    injection h with hK hpr
    subst hK; subst hpr
    refine ⟨lastP_mem _ _ heq, fun K2 hk2 => ?_⟩
    cases K2
    · exact (lastP_eq_none _).mp h1
    · exact (lastP_eq_none _).mp h2
    · exact (lastP_eq_none _).mp h3
    · exact (lastP_eq_none _).mp h4
    · exact absurd hk2 (by decide)
    · exact absurd hk2 (by decide)
  next h5 =>
  split at h
  next x heq =>
    injection h with h
    injection h with hK hpr
    subst hK; subst hpr
    refine ⟨lastP_mem _ _ heq, fun K2 hk2 => ?_⟩
    cases K2
    · exact (lastP_eq_none _).mp h1
    · exact (lastP_eq_none _).mp h2
    · exact (lastP_eq_none _).mp h3
    · exact (lastP_eq_none _).mp h4
    · exact (lastP_eq_none _).mp h5
    · exact absurd hk2 (by decide)
  next h6 => exact absurd h (by simp)

theorem port_some_pos (n : Node) (pt : Port) (h : n.port 0 = some pt) :
    0 < n.ports.length := by
  rw [Node.port] at h
  rcases hl : n.ports with _ | ⟨p0, t⟩
  · rw [hl] at h; exact absurd h (by simp)
  · simp [hl]

theorem entryStep_push_inv (net : Net) (x : Nat) (n : Node) (k : RK) (pr : Nat × Nat)
    (h : entryStep net (x, n) = some (some (k, pr))) :
    ∃ b2 m, n.port 0 = some (.Valid b2 0) ∧ x < b2 ∧ net.node? b2 = some m ∧
      k = (classify n.kind m.kind).1 ∧
      pr = (if (classify n.kind m.kind).2 then (b2, x) else (x, b2)) := by
  rw [entryStep] at h
  split at h
  · exact absurd h (by simp)
  · exact absurd h (by simp)
  next b2 p heq =>
    by_cases hc : p = 0 ∧ x < b2
    · rw [if_pos hc] at h
      rcases hb : net.node? b2 with _ | m
      · rw [hb] at h; exact absurd h (by simp)
      · rw [hb] at h
        simp only [Option.some.injEq] at h
        refine ⟨b2, m, ?_, hc.2, hb, ?_, ?_⟩
        · rw [heq, hc.1]
        · exact (congrArg Prod.fst h).symm
        · exact (congrArg Prod.snd h).symm
    · rw [if_neg hc] at h
      exact absurd h (by simp)

theorem involB_spec (net : Net) (hinv : involB net = true) (x : Nat) (n : Node)
    (hmem : (x, n) ∈ net.nodes) (p : Nat) (hp : p < n.ports.length) :
    slotInvolB net x p = true := by
  have h1 := List.all_eq_true.mp hinv (x, n) hmem
  exact List.all_eq_true.mp h1 p (List.mem_range.mpr hp)

theorem invol_back (net : Net) (hinv : involB net = true) (hnd : NodupK net.nodes)
    (x b2 : Nat) (n m : Node) (hx : net.node? x = some n)
    (hport : n.port 0 = some (.Valid b2 0)) (hb : net.node? b2 = some m) :
    m.port 0 = some (.Valid x 0) := by
  have hmem : (x, n) ∈ net.nodes := mem_of_lookupN _ _ _ hx
  have hpos : 0 < n.ports.length := port_some_pos n _ hport
  have hslot := involB_spec net hinv x n hmem 0 hpos
  rw [slotInvolB] at hslot
  have hf : followB net x 0 = some (b2, 0) := by
    rw [followB, hx]
    simp only [Option.some_bind]
    rw [hport]
    rfl
  rw [hf] at hslot
  have hf2 : followB net b2 0 = some (x, 0) := eq_of_beq hslot
  rw [followB, hb] at hf2
  simp only [Option.some_bind] at hf2
  rcases hp : m.port 0 with _ | pt
  · rw [hp] at hf2; exact absurd hf2 (by simp)
  · rw [hp] at hf2
    rcases pt with _ | ⟨c, q⟩
    · exact absurd hf2 (by simp [portTarget])
    · simp only [Option.some_bind, portTarget] at hf2
      injection hf2 with hf3
      have hc : c = x := congrArg Prod.fst hf3
      have hq : q = 0 := congrArg Prod.snd hf3
      rw [hc, hq]

theorem scanned_push (net : Net) (bs : Buckets) (hscan : net.scan = some bs)
    (x b2 : Nat) (n m : Node) (hx : net.node? x = some n) (hb : net.node? b2 = some m)
    (hport : n.port 0 = some (.Valid b2 0)) (hlt : x < b2) :
    (if (classify n.kind m.kind).2 then (b2, x) else (x, b2)) ∈
      bs ((classify n.kind m.kind).1) := by
  have hmem : (x, n) ∈ net.nodes := mem_of_lookupN _ _ _ hx
  have hbe := scanList_some_buckets net net.nodes emptyB bs hscan ((classify n.kind m.kind).1)
  rw [hbe]
  refine List.mem_append_right _ (List.mem_filterMap.mpr ⟨(x, n), hmem, ?_⟩)
  have he : entryStep net (x, n) = some (some ((classify n.kind m.kind).1,
      if (classify n.kind m.kind).2 then (b2, x) else (x, b2))) := by
    simp only [entryStep, hport, hb]
    simp [hlt]
  simp only [pushOf, he]
  simp

theorem step_true_elim (net net2 : Net) (h : net.step = some (true, net2)) :
    ∃ bs K pr, net.scan = some bs ∧ chosen bs = some (K, pr) ∧
      net.evalRule K pr.1 pr.2 = some net2 := by
  rw [Net.step] at h
  rcases hscan : net.scan with _ | bs
  · rw [hscan] at h; exact absurd h (by simp)
  · rw [hscan] at h
    simp only [Option.some_bind] at h
    rcases hch : chosen bs with _ | kpr
    · simp only [hch] at h
      exact absurd h (by simp)
    · simp only [hch] at h
      rcases hev : net.evalRule kpr.1 kpr.2.1 kpr.2.2 with _ | x
      · rw [hev] at h; simp at h
      · rw [hev] at h
        simp only [Option.map_some', Option.some.injEq, Prod.mk.injEq] at h
        obtain ⟨-, rfl⟩ := h
        exact ⟨bs, kpr.1, kpr.2, rfl, by rw [hch], hev⟩

theorem step_false_elim (net m : Net) (h : net.step = some (false, m)) :
    m = net ∧ ∃ bs, net.scan = some bs ∧ chosen bs = none := by
  rw [Net.step] at h
  rcases hscan : net.scan with _ | bs
  · rw [hscan] at h; exact absurd h (by simp)
  · rw [hscan] at h
    simp only [Option.some_bind] at h
    rcases hch : chosen bs with _ | kpr
    · simp only [hch, Option.some.injEq, Prod.mk.injEq] at h
      exact ⟨h.2.symm, bs, rfl, hch⟩
    · simp only [hch] at h
      rcases hev : net.evalRule kpr.1 kpr.2.1 kpr.2.2 with _ | x
      · rw [hev] at h; simp at h
      · rw [hev] at h; simp at h

theorem step_false_intro (net : Net) (bs : Buckets) (hscan : net.scan = some bs)
    (hch : chosen bs = none) : net.step = some (false, net) := by
  rw [Net.step, hscan]
  simp only [Option.some_bind, hch]

/-- The fixed arity of each agent kind (3, 3, 1). -/
def arity : NKind → Nat
  | .construct => 3
  | .duplicate => 3
  | .erase => 1

/-- Every live agent's port array has its kind's length (guaranteed by the
Rust sum type; a side condition of this list-based embedding). -/
def arityOkB (net : Net) : Bool :=
  net.nodes.all fun en => en.2.ports.length == arity en.2.kind

theorem wfB_spec (net : Net) (hwf : wfB net = true) (x : Nat) (n : Node)
    (hmem : (x, n) ∈ net.nodes) (p : Nat) (hp : p < n.ports.length) :
    ∃ b q m, n.port p = some (.Valid b q) ∧ net.node? b = some m ∧
      q < m.ports.length := by
  have h1 := List.all_eq_true.mp hwf (x, n) hmem
  have h2 := List.all_eq_true.mp h1 p (List.mem_range.mpr hp)
  have h2b : (match (n.port p).bind portTarget with
      | some bq =>
        match net.node? bq.1 with
        | some m => decide (bq.2 < m.ports.length)
        | none => false
      | none => false) = true := h2
  rcases hpt : (n.port p).bind portTarget with _ | bq
  · simp only [hpt] at h2b
    exact absurd h2b (by decide)
  · simp only [hpt] at h2b
    rcases hb : net.node? bq.1 with _ | m2
    · simp only [hb] at h2b
      exact absurd h2b (by decide)
    · simp only [hb] at h2b
      have hq : bq.2 < m2.ports.length := of_decide_eq_true h2b
      rcases hport : n.port p with _ | pt
      · rw [hport] at hpt; exact absurd hpt (by simp)
      · rw [hport] at hpt
        rcases pt with _ | ⟨b, q⟩
        · exact absurd hpt (by simp [portTarget])
        · simp only [Option.some_bind, portTarget] at hpt
          injection hpt with hpt
          subst hpt
          exact ⟨b, q, m2, rfl, hb, hq⟩

theorem scan_total_of_wf (net : Net) (hwf : wfB net = true) (har : arityOkB net = true) :
    ∃ bs, net.scan = some bs := by
  rw [Net.scan]
  apply scanList_total
  intro en hmem
  obtain ⟨x, n⟩ := en
  have hlen : n.ports.length = arity n.kind := by
    have := List.all_eq_true.mp har (x, n) hmem
    exact eq_of_beq this
  have hpos : 0 < n.ports.length := by
    rw [hlen]; cases n.kind <;> decide
  obtain ⟨b, q, m2, hport, hb, hq⟩ := wfB_spec net hwf x n hmem 0 hpos
  simp only [entryStep, hport]
  by_cases hc : q = 0 ∧ x < b
  · rw [if_pos hc]
    simp [hb]
  · rw [if_neg hc]
    exact fun hh => Option.noConfusion hh

theorem bucket_mem_pairK (net : Net) (bs : Buckets) (hscan : net.scan = some bs)
    (hnd : NodupK net.nodes) (hinv : involB net = true) (K : RK) (pr : Nat × Nat)
    (hmem : pr ∈ bs K) : PairK net K pr.1 pr.2 := by
  have hbe := scanList_some_buckets net net.nodes emptyB bs hscan K
  rw [hbe] at hmem
  have hmem2 : pr ∈ List.filterMap (fun en => pushOf net en K) net.nodes := by
    simpa [emptyB] using hmem
  obtain ⟨en, henm, hpush⟩ := List.mem_filterMap.mp hmem2
  obtain ⟨x, n⟩ := en
  rw [pushOf] at hpush
  rcases he : entryStep net (x, n) with _ | o
  · rw [he] at hpush; exact absurd hpush (by simp)
  · rcases o with _ | kpr
    · rw [he] at hpush; exact absurd hpush (by simp)
    · obtain ⟨k, pr0⟩ := kpr
      rw [he] at hpush
      have hpush2 : (if k = K then some pr0 else none) = some pr := hpush
      by_cases hk : k = K
      · rw [if_pos hk] at hpush2
        injection hpush2 with hpr0
        obtain ⟨b2, m, hport, hlt, hb, hK2, hpr2⟩ := entryStep_push_inv net x n k pr0 he
        have hK : K = (classify n.kind m.kind).1 := by rw [← hk, hK2]
        have hpr : pr = (if (classify n.kind m.kind).2 then (b2, x) else (x, b2)) := by
          rw [← hpr0, hpr2]
        have hx : net.node? x = some n := lookupN_eq_of_mem _ _ _ hnd henm
        have hback : m.port 0 = some (.Valid x 0) := invol_back net hinv hnd x b2 n m hx hport hb
        have hxb : x ≠ b2 := Nat.ne_of_lt hlt
        have hap1 : ActivePair net x b2 := ⟨hxb, n, m, hx, hb, hport, hback⟩
        have hap2 : ActivePair net b2 x := ⟨hxb.symm, m, n, hb, hx, hback, hport⟩
        have hko1 : kindOf? net x = some n.kind := by rw [kindOf?, hx]; rfl
        have hko2 : kindOf? net b2 = some m.kind := by rw [kindOf?, hb]; rfl
        obtain ⟨p1, p2⟩ := pr
        show PairK net K p1 p2
        cases hnk : n.kind with
        | construct =>
          cases hmk : m.kind with
          | construct =>
            rw [hnk, hmk] at hK hpr
            simp [classify] at hK hpr
            subst hK
            obtain ⟨rfl, rfl⟩ := hpr
            exact ⟨hap1, by rw [hko1, hnk]; rfl, by rw [hko2, hmk]; rfl⟩
          | duplicate =>
            rw [hnk, hmk] at hK hpr
            simp [classify] at hK hpr
            subst hK
            obtain ⟨rfl, rfl⟩ := hpr
            exact ⟨hap1, by rw [hko1, hnk]; rfl, by rw [hko2, hmk]; rfl⟩
          | erase =>
            rw [hnk, hmk] at hK hpr
            simp [classify] at hK hpr
            subst hK
            obtain ⟨rfl, rfl⟩ := hpr
            exact ⟨hap1, by rw [hko1, hnk]; rfl, by rw [hko2, hmk]; rfl⟩
        | duplicate =>
          cases hmk : m.kind with
          | construct =>
            rw [hnk, hmk] at hK hpr
            simp [classify] at hK hpr
            subst hK
            obtain ⟨rfl, rfl⟩ := hpr
            exact ⟨hap2, by rw [hko2, hmk]; rfl, by rw [hko1, hnk]; rfl⟩
          | duplicate =>
            rw [hnk, hmk] at hK hpr
            simp [classify] at hK hpr
            subst hK
            obtain ⟨rfl, rfl⟩ := hpr
            exact ⟨hap1, by rw [hko1, hnk]; rfl, by rw [hko2, hmk]; rfl⟩
          | erase =>
            rw [hnk, hmk] at hK hpr
            simp [classify] at hK hpr
            subst hK
            obtain ⟨rfl, rfl⟩ := hpr
            exact ⟨hap1, by rw [hko1, hnk]; rfl, by rw [hko2, hmk]; rfl⟩
        | erase =>
          cases hmk : m.kind with
          | construct =>
            rw [hnk, hmk] at hK hpr
            simp [classify] at hK hpr
            subst hK
            obtain ⟨rfl, rfl⟩ := hpr
            exact ⟨hap2, by rw [hko2, hmk]; rfl, by rw [hko1, hnk]; rfl⟩
          | duplicate =>
            rw [hnk, hmk] at hK hpr
            simp [classify] at hK hpr
            subst hK
            obtain ⟨rfl, rfl⟩ := hpr
            exact ⟨hap2, by rw [hko2, hmk]; rfl, by rw [hko1, hnk]; rfl⟩
          | erase =>
            rw [hnk, hmk] at hK hpr
            simp [classify] at hK hpr
            subst hK
            obtain ⟨rfl, rfl⟩ := hpr
            exact ⟨hap1, by rw [hko1, hnk]; rfl, by rw [hko2, hmk]; rfl⟩
      · rw [if_neg hk] at hpush2
        exact absurd hpush2 (by simp)

theorem activePair_bucket_ne_nil (net : Net) (bs : Buckets) (hscan : net.scan = some bs)
    (a b : Nat) (hap : ActivePair net a b) : ∃ K, bs K ≠ [] := by
  obtain ⟨hab, n, m, ha, hb, hpa, hpb⟩ := hap
  rcases Nat.lt_or_ge a b with hlt | hge
  · have hp := scanned_push net bs hscan a b n m ha hb hpa hlt
    refine ⟨(classify n.kind m.kind).1, fun hnil => ?_⟩
    rw [hnil] at hp
    exact absurd hp (List.not_mem_nil _)
  · have hlt2 : b < a := Nat.lt_of_le_of_ne hge (fun hh => hab hh.symm)
    have hp := scanned_push net bs hscan b a m n hb ha hpb hlt2
    refine ⟨(classify m.kind n.kind).1, fun hnil => ?_⟩
    rw [hnil] at hp
    exact absurd hp (List.not_mem_nil _)

theorem pairK_bucket_ne_nil (net : Net) (bs : Buckets) (hscan : net.scan = some bs)
    (K : RK) (a b : Nat) (hpk : PairK net K a b) : bs K ≠ [] := by
  obtain ⟨⟨hab, n, m, ha, hb, hpa, hpb⟩, hka, hkb⟩ := hpk
  have hnk : n.kind = roleFst K := by
    rw [kindOf?, ha, Option.map_some'] at hka
    injection hka
  have hmk : m.kind = roleSnd K := by
    rw [kindOf?, hb, Option.map_some'] at hkb
    injection hkb
  rcases Nat.lt_or_ge a b with hlt | hge
  · have hp := scanned_push net bs hscan a b n m ha hb hpa hlt
    rw [hnk, hmk] at hp
    have hcl : (classify (roleFst K) (roleSnd K)).1 = K := by cases K <;> rfl
    rw [hcl] at hp
    exact fun hnil => absurd hp (by rw [hnil]; exact List.not_mem_nil _)
  · have hlt2 : b < a := Nat.lt_of_le_of_ne hge (fun hh => hab hh.symm)
    have hp := scanned_push net bs hscan b a m n hb ha hpb hlt2
    rw [hmk, hnk] at hp
    have hcl : (classify (roleSnd K) (roleFst K)).1 = K := by cases K <;> rfl
    rw [hcl] at hp
    exact fun hnil => absurd hp (by rw [hnil]; exact List.not_mem_nil _)

/-- Claim C3: under the structural invariants, `step()` returns `false` if and
only if the net holds no active pair, and whenever it returns `false` the
returned net (agents, wiring and next-identifier counter) is exactly the
input net. -/
theorem C3_step_false_iff_no_pair (net : Net)
    (hwf : wfB net = true) (har : arityOkB net = true)
    (hinv : involB net = true) (hnd : NodupK net.nodes) :
    (net.step = some (false, net) ↔ ¬ ∃ a b, ActivePair net a b) ∧
    ∀ m, net.step = some (false, m) → m = net := by
  obtain ⟨bs, hscan⟩ := scan_total_of_wf net hwf har
  constructor
  · constructor
    · rintro h ⟨a, b, hap⟩
      obtain ⟨-, bs2, hscan2, hch⟩ := step_false_elim net net h
      rw [hscan] at hscan2
      injection hscan2 with hbs
      subst hbs
      obtain ⟨K, hK⟩ := activePair_bucket_ne_nil net bs hscan a b hap
      exact hK (chosen_none_buckets bs hch K)
    · intro hno
      apply step_false_intro net bs hscan
      apply chosen_none_of_buckets
      intro K
      by_contra hne
      obtain ⟨pr, hpr⟩ := List.exists_mem_of_ne_nil _ hne
      have hpk := bucket_mem_pairK net bs hscan hnd hinv K pr hpr
      exact hno ⟨pr.1, pr.2, hpk.1⟩
  · intro m h
    exact (step_false_elim net m h).1

/-- Witness for C3 at the empty net: the hypotheses hold, `step()` returns
`false` leaving the net unchanged, and no active pair exists. -/
theorem C3_witness :
    ((emptyNet.step = some (false, emptyNet) ↔ ¬ ∃ a b, ActivePair emptyNet a b) ∧
     ∀ m, emptyNet.step = some (false, m) → m = emptyNet) :=
  C3_step_false_iff_no_pair emptyNet (by decide) (by decide) (by decide) (by decide)

/-- Claim C4: whenever `step()` performs a rewrite, the pair it rewrites is an
active pair already normalized into the role order of its bucket, the applied
rule is that bucket's rule, and no active pair of any strictly
higher-priority bucket kind exists in the net (priority order ee, de, ce, dd,
cc, cd). -/
theorem C4_priority_policy (net net2 : Net) (hinv : involB net = true)
    (hnd : NodupK net.nodes) (h : net.step = some (true, net2)) :
    ∃ K a b, PairK net K a b ∧ net.evalRule K a b = some net2 ∧
      ∀ K2 a2 b2, rulePriority K2 < rulePriority K → ¬ PairK net K2 a2 b2 := by
  obtain ⟨bs, K, pr, hscan, hch, hev⟩ := step_true_elim net net2 h
  obtain ⟨hmem, hhigher⟩ := chosen_some_spec bs K pr hch
  have hpk := bucket_mem_pairK net bs hscan hnd hinv K pr hmem
  refine ⟨K, pr.1, pr.2, hpk, hev, ?_⟩
  intro K2 a2 b2 hlt hpk2
  have hne := pairK_bucket_ne_nil net bs hscan K2 a2 b2 hpk2
  exact hne (hhigher K2 hlt)

/-- Witness for C4 at the one-step state of the seed (where Duplicate-Erase,
Construct-Erase and Construct-Duplicate pairs coexist). -/
theorem C4_witness :
    ∃ K a b, PairK st1 K a b ∧ st1.evalRule K a b = some st2 ∧
      ∀ K2 a2 b2, rulePriority K2 < rulePriority K → ¬ PairK st1 K2 a2 b2 :=
  C4_priority_policy st1 st2 (by decide) (by decide) (by decide)

theorem entryStep_congr (net1 net2 : Net) (en : Nat × Node)
    (h : ∀ b, net1.node? b = net2.node? b) : entryStep net1 en = entryStep net2 en := by
  rcases hp : en.2.port 0 with _ | pt
  · simp only [entryStep, hp]
  · rcases pt with _ | ⟨b, p⟩
    · simp only [entryStep, hp]
    · simp only [entryStep, hp]
      by_cases hc : p = 0 ∧ en.1 < b
      · rw [if_pos hc, if_pos hc, h b]
      · rw [if_neg hc, if_neg hc]

theorem pushOf_key (net : Net) (x : Nat) (n : Node) (K : RK) (pr : Nat × Nat)
    (h : pushOf net (x, n) K = some pr) :
    (x = pr.1 ∧ pr.1 < pr.2) ∨ (x = pr.2 ∧ pr.2 < pr.1) := by
  rw [pushOf] at h
  rcases he : entryStep net (x, n) with _ | o
  · rw [he] at h; exact absurd h (by simp)
  · rcases o with _ | kpr
    · rw [he] at h; exact absurd h (by simp)
    · obtain ⟨k, pr0⟩ := kpr
      rw [he] at h
      have h2 : (if k = K then some pr0 else none) = some pr := h
      by_cases hk : k = K
      · rw [if_pos hk] at h2
        injection h2 with hpr0
        obtain ⟨b2, m, hport, hlt, hb, hK2, hpr2⟩ := entryStep_push_inv net x n k pr0 he
        rw [hpr0] at hpr2
        rcases hsw : (classify n.kind m.kind).2 with _ | _
        · rw [hsw] at hpr2
          simp only [Bool.false_eq_true, if_false] at hpr2
          subst hpr2
          exact Or.inl ⟨rfl, hlt⟩
        · rw [hsw] at hpr2
          simp only [if_true] at hpr2
          subst hpr2
          exact Or.inr ⟨rfl, hlt⟩
      · rw [if_neg hk] at h2
        exact absurd h2 (by simp)

theorem pushList_nodup (net : Net) (l : List (Nat × Node)) (K : RK) (hnd : NodupK l) :
    (l.filterMap (fun en => pushOf net en K)).Nodup := by
  induction l with
  | nil => simp
  | cons en t ih =>
    obtain ⟨x, n⟩ := en
    rw [NodupK, List.map_cons, List.nodup_cons] at hnd
    rw [List.filterMap_cons]
    rcases hpo : pushOf net (x, n) K with _ | pr
    · exact ih hnd.2
    · refine List.nodup_cons.mpr ⟨?_, ih hnd.2⟩
      intro hmem
      obtain ⟨en2, hen2, hpo2⟩ := List.mem_filterMap.mp hmem
      obtain ⟨y, n2⟩ := en2
      have hxy : x = y := by
        rcases pushOf_key net x n K pr hpo with ⟨hx1, hl1⟩ | ⟨hx2, hl2⟩ <;>
          rcases pushOf_key net y n2 K pr hpo2 with ⟨hy1, hm1⟩ | ⟨hy2, hm2⟩ <;> omega
      apply hnd.1
      rw [hxy]
      exact List.mem_map.mpr ⟨(y, n2), hen2, rfl⟩

theorem eq_singleton_of_mem (l : List (Nat × Nat)) (pr : Nat × Nat) (hnd : l.Nodup)
    (hmem : pr ∈ l) (hall : ∀ x ∈ l, x = pr) : l = [pr] := by
  cases l with
  | nil => exact absurd hmem (List.not_mem_nil _)
  | cons x t =>
    rw [List.nodup_cons] at hnd
    have hx : x = pr := hall x (List.mem_cons_self _ _)
    subst hx
    have ht : t = [] := by
      rw [List.eq_nil_iff_forall_not_mem]
      intro y hy
      have := hall y (List.mem_cons_of_mem _ hy)
      subst this
      exact hnd.1 hy
    rw [ht]

theorem chosen_congr (bs1 bs2 : Buckets) (h : ∀ K, bs1 K = bs2 K) :
    chosen bs1 = chosen bs2 := by
  rw [chosen, chosen, h .ee, h .de, h .ce, h .dd, h .cc, h .cd]

theorem scan_perm (s : Net) (l : List (Nat × Node)) (bs : Buckets)
    (hperm : l.Perm s.nodes) (hnd : NodupK s.nodes) (hscan : s.scan = some bs)
    (hb : ∀ K, (bs K).length ≤ 1) :
    ∃ bs2, Net.scan ⟨l, s.next⟩ = some bs2 ∧ ∀ K, bs2 K = bs K := by
  have hndl : NodupK l := (hperm.map Prod.fst).nodup_iff.mpr hnd
  have hlk : ∀ b, Net.node? ⟨l, s.next⟩ b = s.node? b :=
    fun b => lookupN_perm l s.nodes b hperm hnd
  have hec : ∀ en, entryStep ⟨l, s.next⟩ en = entryStep s en :=
    fun en => entryStep_congr _ _ en hlk
  have hok : ∀ en ∈ l, entryStep ⟨l, s.next⟩ en ≠ none := by
    intro en hm
    rw [hec en]
    exact scanList_some_entries s s.nodes emptyB bs hscan en (hperm.mem_iff.mp hm)
  obtain ⟨bs2, hbs2⟩ := scanList_total ⟨l, s.next⟩ l emptyB hok
  have hfun : ∀ K, (fun en => pushOf (⟨l, s.next⟩ : Net) en K) = fun en => pushOf s en K :=
    fun K => funext fun en => by rw [pushOf, pushOf, hec en]
  refine ⟨bs2, hbs2, ?_⟩
  intro K
  have he1 : bs2 K = List.filterMap (fun en => pushOf s en K) l := by
    have hc := scanList_some_buckets ⟨l, s.next⟩ l emptyB bs2 hbs2 K
    rw [hc, hfun K]
    simp [emptyB]
  have he2 : bs K = List.filterMap (fun en => pushOf s en K) s.nodes := by
    have hc := scanList_some_buckets s s.nodes emptyB bs hscan K
    rw [hc]
    simp [emptyB]
  have hmm : ∀ pr, pr ∈ bs2 K ↔ pr ∈ bs K := by
    intro pr
    rw [he1, he2]
    constructor
    · intro hm
      obtain ⟨en, hen, hp⟩ := List.mem_filterMap.mp hm
      exact List.mem_filterMap.mpr ⟨en, hperm.mem_iff.mp hen, hp⟩
    · intro hm
      obtain ⟨en, hen, hp⟩ := List.mem_filterMap.mp hm
      exact List.mem_filterMap.mpr ⟨en, hperm.mem_iff.mpr hen, hp⟩
  have hnd2 : (bs2 K).Nodup := by
    rw [he1]
    exact pushList_nodup s l K hndl
  rcases hcase : bs K with _ | ⟨pr, t⟩
  · rw [List.eq_nil_iff_forall_not_mem]
    intro pr hpr
    have hx := (hmm pr).mp hpr
    rw [hcase] at hx
    exact absurd hx (List.not_mem_nil _)
  · have hlen := hb K
    rw [hcase] at hlen
    have ht : t = [] := by
      cases t with
      | nil => rfl
      | cons a b => simp at hlen
    subst ht
    have hprm : pr ∈ bs2 K := (hmm pr).mpr (by rw [hcase]; exact List.mem_cons_self _ _)
    have hall : ∀ x ∈ bs2 K, x = pr := by
      intro x hx
      have hx2 := (hmm x).mp hx
      rw [hcase] at hx2
      simpa using hx2
    exact eq_singleton_of_mem (bs2 K) pr hnd2 hprm hall


/-- The scan result of a phase-A state (and of the seed): one cd pair. -/
theorem scanNetA (e : Nat) : (netA e).scan = some (push emptyB .cd (2, 3)) := rfl

/-- The scan result of a phase-B state. -/
theorem scanNetB (e : Nat) (he : 4 ≤ e) : (netB e).scan = some (push (push (push emptyB .de (e + 2, 0)) .cd (2, 3)) .ce (e + 1, e)) := by
  have f1 : 0 ≠ e := by omega
  have f2 : e ≠ 0 := by omega
  have f3 : 2 ≠ e := by omega
  have f4 : e ≠ 2 := by omega
  have f5 : 3 ≠ e := by omega
  have f6 : e ≠ 3 := by omega
  have f7 : 0 ≠ e + 1 := by omega
  have f8 : e + 1 ≠ 0 := by omega
  have f9 : 2 ≠ e + 1 := by omega
  have f10 : e + 1 ≠ 2 := by omega
  have f11 : 3 ≠ e + 1 := by omega
  have f12 : e + 1 ≠ 3 := by omega
  have f13 : 0 ≠ e + 2 := by omega
  have f14 : e + 2 ≠ 0 := by omega
  have f15 : 2 ≠ e + 2 := by omega
  have f16 : e + 2 ≠ 2 := by omega
  have f17 : 3 ≠ e + 2 := by omega
  have f18 : e + 2 ≠ 3 := by omega
  have f19 : 0 ≠ e + 3 := by omega
  have f20 : e + 3 ≠ 0 := by omega
  have f21 : 2 ≠ e + 3 := by omega
  have f22 : e + 3 ≠ 2 := by omega
  have f23 : 3 ≠ e + 3 := by omega
  have f24 : e + 3 ≠ 3 := by omega
  have f25 : 0 ≠ e + 4 := by omega
  have f26 : e + 4 ≠ 0 := by omega
  have f27 : 2 ≠ e + 4 := by omega
  have f28 : e + 4 ≠ 2 := by omega
  have f29 : 3 ≠ e + 4 := by omega
  have f30 : e + 4 ≠ 3 := by omega
  have f31 : e ≠ e + 1 := by omega
  have f32 : e + 1 ≠ e := by omega
  have f33 : e ≠ e + 2 := by omega
  have f34 : e + 2 ≠ e := by omega
  have f35 : e ≠ e + 3 := by omega
  have f36 : e + 3 ≠ e := by omega
  have f37 : e ≠ e + 4 := by omega
  have f38 : e + 4 ≠ e := by omega
  have f39 : e + 1 ≠ e + 2 := by omega
  have f40 : e + 2 ≠ e + 1 := by omega
  have f41 : e + 1 ≠ e + 3 := by omega
  have f42 : e + 3 ≠ e + 1 := by omega
  have f43 : e + 1 ≠ e + 4 := by omega
  have f44 : e + 4 ≠ e + 1 := by omega
  have f45 : e + 2 ≠ e + 3 := by omega
  have f46 : e + 3 ≠ e + 2 := by omega
  have f47 : e + 2 ≠ e + 4 := by omega
  have f48 : e + 4 ≠ e + 2 := by omega
  have f49 : e + 3 ≠ e + 4 := by omega
  have f50 : e + 4 ≠ e + 3 := by omega
  have hp1 : 0 < e + 2 := by omega
  have hp2 : e < e + 1 := by omega
  have hp3 : e < e + 3 := by omega
  have hn1 : ¬ (e + 1 < e) := by omega
  have hn2 : ¬ (e + 3 < e) := by omega
  simp [Net.scan, scanList, entryStep, classify, Net.node?, Node.port, eN, cN, dN, Node.construct, Node.duplicate, Node.erase, lookupN_nil, lookupN_cons_self, lookupN_cons_ne, Nat.not_lt_zero, netB, f1, f2, f3, f4, f5, f6, f7, f8, f9, f10, f11, f12, f13, f14, f15, f16, f17, f18, f19, f20, f21, f22, f23, f24, f25, f26, f27, f28, f29, f30, f31, f32, f33, f34, f35, f36, f37, f38, f39, f40, f41, f42, f43, f44, f45, f46, f47, f48, f49, f50, hp1, hp2, hp3, hn1, hn2]

/-- The scan result of a phase-C state. -/
theorem scanNetC (e : Nat) (he : 4 ≤ e) : (netC e).scan = some (push (push emptyB .cd (2, 3)) .ce (e + 1, e)) := by
  have f1 : 0 ≠ e := by omega
  have f2 : e ≠ 0 := by omega
  have f3 : 2 ≠ e := by omega
  have f4 : e ≠ 2 := by omega
  have f5 : 3 ≠ e := by omega
  have f6 : e ≠ 3 := by omega
  have f7 : 0 ≠ e + 1 := by omega
  have f8 : e + 1 ≠ 0 := by omega
  have f9 : 2 ≠ e + 1 := by omega
  have f10 : e + 1 ≠ 2 := by omega
  have f11 : 3 ≠ e + 1 := by omega
  have f12 : e + 1 ≠ 3 := by omega
  have f13 : 0 ≠ e + 2 := by omega
  have f14 : e + 2 ≠ 0 := by omega
  have f15 : 2 ≠ e + 2 := by omega
  have f16 : e + 2 ≠ 2 := by omega
  have f17 : 3 ≠ e + 2 := by omega
  have f18 : e + 2 ≠ 3 := by omega
  have f19 : 0 ≠ e + 3 := by omega
  have f20 : e + 3 ≠ 0 := by omega
  have f21 : 2 ≠ e + 3 := by omega
  have f22 : e + 3 ≠ 2 := by omega
  have f23 : 3 ≠ e + 3 := by omega
  have f24 : e + 3 ≠ 3 := by omega
  have f25 : 0 ≠ e + 4 := by omega
  have f26 : e + 4 ≠ 0 := by omega
  have f27 : 2 ≠ e + 4 := by omega
  have f28 : e + 4 ≠ 2 := by omega
  have f29 : 3 ≠ e + 4 := by omega
  have f30 : e + 4 ≠ 3 := by omega
  have f31 : e ≠ e + 1 := by omega
  have f32 : e + 1 ≠ e := by omega
  have f33 : e ≠ e + 2 := by omega
  have f34 : e + 2 ≠ e := by omega
  have f35 : e ≠ e + 3 := by omega
  have f36 : e + 3 ≠ e := by omega
  have f37 : e ≠ e + 4 := by omega
  have f38 : e + 4 ≠ e := by omega
  have f39 : e + 1 ≠ e + 2 := by omega
  have f40 : e + 2 ≠ e + 1 := by omega
  have f41 : e + 1 ≠ e + 3 := by omega
  have f42 : e + 3 ≠ e + 1 := by omega
  have f43 : e + 1 ≠ e + 4 := by omega
  have f44 : e + 4 ≠ e + 1 := by omega
  have f45 : e + 2 ≠ e + 3 := by omega
  have f46 : e + 3 ≠ e + 2 := by omega
  have f47 : e + 2 ≠ e + 4 := by omega
  have f48 : e + 4 ≠ e + 2 := by omega
  have f49 : e + 3 ≠ e + 4 := by omega
  have f50 : e + 4 ≠ e + 3 := by omega
  have hp1 : 0 < e + 2 := by omega
  have hp2 : e < e + 1 := by omega
  have hp3 : e < e + 3 := by omega
  have hn1 : ¬ (e + 1 < e) := by omega
  have hn2 : ¬ (e + 3 < e) := by omega
  simp [Net.scan, scanList, entryStep, classify, Net.node?, Node.port, eN, cN, dN, Node.construct, Node.duplicate, Node.erase, lookupN_nil, lookupN_cons_self, lookupN_cons_ne, Nat.not_lt_zero, netC, f1, f2, f3, f4, f5, f6, f7, f8, f9, f10, f11, f12, f13, f14, f15, f16, f17, f18, f19, f20, f21, f22, f23, f24, f25, f26, f27, f28, f29, f30, f31, f32, f33, f34, f35, f36, f37, f38, f39, f40, f41, f42, f43, f44, f45, f46, f47, f48, f49, f50, hp1, hp2, hp3, hn1, hn2]

/-- The scan result of a phase-D state. -/
theorem scanNetD (e : Nat) (he : 4 ≤ e) : (netD e).scan = some (push (push emptyB .cd (2, 3)) .ee (e, e + 3)) := by
  have f1 : 0 ≠ e := by omega
  have f2 : e ≠ 0 := by omega
  have f3 : 2 ≠ e := by omega
  have f4 : e ≠ 2 := by omega
  have f5 : 3 ≠ e := by omega
  have f6 : e ≠ 3 := by omega
  have f7 : 0 ≠ e + 1 := by omega
  have f8 : e + 1 ≠ 0 := by omega
  have f9 : 2 ≠ e + 1 := by omega
  have f10 : e + 1 ≠ 2 := by omega
  have f11 : 3 ≠ e + 1 := by omega
  have f12 : e + 1 ≠ 3 := by omega
  have f13 : 0 ≠ e + 2 := by omega
  have f14 : e + 2 ≠ 0 := by omega
  have f15 : 2 ≠ e + 2 := by omega
  have f16 : e + 2 ≠ 2 := by omega
  have f17 : 3 ≠ e + 2 := by omega
  have f18 : e + 2 ≠ 3 := by omega
  have f19 : 0 ≠ e + 3 := by omega
  have f20 : e + 3 ≠ 0 := by omega
  have f21 : 2 ≠ e + 3 := by omega
  have f22 : e + 3 ≠ 2 := by omega
  have f23 : 3 ≠ e + 3 := by omega
  have f24 : e + 3 ≠ 3 := by omega
  have f25 : 0 ≠ e + 4 := by omega
  have f26 : e + 4 ≠ 0 := by omega
  have f27 : 2 ≠ e + 4 := by omega
  have f28 : e + 4 ≠ 2 := by omega
  have f29 : 3 ≠ e + 4 := by omega
  have f30 : e + 4 ≠ 3 := by omega
  have f31 : e ≠ e + 1 := by omega
  have f32 : e + 1 ≠ e := by omega
  have f33 : e ≠ e + 2 := by omega
  have f34 : e + 2 ≠ e := by omega
  have f35 : e ≠ e + 3 := by omega
  have f36 : e + 3 ≠ e := by omega
  have f37 : e ≠ e + 4 := by omega
  have f38 : e + 4 ≠ e := by omega
  have f39 : e + 1 ≠ e + 2 := by omega
  have f40 : e + 2 ≠ e + 1 := by omega
  have f41 : e + 1 ≠ e + 3 := by omega
  have f42 : e + 3 ≠ e + 1 := by omega
  have f43 : e + 1 ≠ e + 4 := by omega
  have f44 : e + 4 ≠ e + 1 := by omega
  have f45 : e + 2 ≠ e + 3 := by omega
  have f46 : e + 3 ≠ e + 2 := by omega
  have f47 : e + 2 ≠ e + 4 := by omega
  have f48 : e + 4 ≠ e + 2 := by omega
  have f49 : e + 3 ≠ e + 4 := by omega
  have f50 : e + 4 ≠ e + 3 := by omega
  have hp1 : 0 < e + 2 := by omega
  have hp2 : e < e + 1 := by omega
  have hp3 : e < e + 3 := by omega
  have hn1 : ¬ (e + 1 < e) := by omega
  have hn2 : ¬ (e + 3 < e) := by omega
  simp [Net.scan, scanList, entryStep, classify, Net.node?, Node.port, eN, cN, dN, Node.construct, Node.duplicate, Node.erase, lookupN_nil, lookupN_cons_self, lookupN_cons_ne, Nat.not_lt_zero, netD, f1, f2, f3, f4, f5, f6, f7, f8, f9, f10, f11, f12, f13, f14, f15, f16, f17, f18, f19, f20, f21, f22, f23, f24, f25, f26, f27, f28, f29, f30, f31, f32, f33, f34, f35, f36, f37, f38, f39, f40, f41, f42, f43, f44, f45, f46, f47, f48, f49, f50, hp1, hp2, hp3, hn1, hn2]

/-- Arena identifiers of a phase-A state are pairwise distinct. -/
theorem nodupNetA (e : Nat) (he : 4 ≤ e) : NodupK (netA e).nodes := by
  simp [NodupK, netA, eN, cN, dN]
  omega

/-- Arena identifiers of a phase-B state are pairwise distinct. -/
theorem nodupNetB (e : Nat) (he : 4 ≤ e) : NodupK (netB e).nodes := by
  simp [NodupK, netB, eN, cN, dN]
  omega

/-- Arena identifiers of a phase-C state are pairwise distinct. -/
theorem nodupNetC (e : Nat) (he : 4 ≤ e) : NodupK (netC e).nodes := by
  simp [NodupK, netC, eN, cN, dN]
  omega

/-- Arena identifiers of a phase-D state are pairwise distinct. -/
theorem nodupNetD (e : Nat) (he : 4 ≤ e) : NodupK (netD e).nodes := by
  simp [NodupK, netD, eN, cN, dN]
  omega

/-- Claim C10: on every reachable state, each of the six scan buckets holds at
most one active pair, and the scan outcome — hence the pair chosen by the
priority cascade — is identical for every iteration order (permutation) of
the arena, so the choice never depends on the `HashMap` iteration order. -/
theorem C10_buckets_deterministic (n : Nat) (s : Net) (l : List (Nat × Node))
    (hs : iterN n = some s) (hperm : l.Perm s.nodes) :
    ∃ bs bs2, s.scan = some bs ∧ Net.scan ⟨l, s.next⟩ = some bs2 ∧
      (∀ K, (bs K).length ≤ 1) ∧ chosen bs2 = chosen bs := by
  obtain ⟨s2, hs2, hsh⟩ := iterShape n
  rw [hs] at hs2
  injection hs2 with heq
  subst heq
  rcases hsh with rfl | rfl | rfl | rfl | ⟨e, he, rfl | rfl | rfl | rfl⟩
  · have hscan : seedNet.scan = some (push emptyB .cd (2, 3)) := rfl
    have hnd : NodupK seedNet.nodes := by decide
    have hb : ∀ K, ((push emptyB .cd (2, 3)) K).length ≤ 1 := by
      intro K; cases K <;> decide
    obtain ⟨bs2, hbs2, heq2⟩ := scan_perm seedNet l _ hperm hnd hscan hb
    exact ⟨_, bs2, hscan, hbs2, hb, chosen_congr _ _ heq2⟩
  · have hscan : st1.scan =
        some (push (push (push emptyB .de (5, 0)) .ce (4, 1)) .cd (2, 3)) := rfl
    have hnd : NodupK st1.nodes := by decide
    have hb : ∀ K, ((push (push (push emptyB .de (5, 0)) .ce (4, 1)) .cd (2, 3)) K).length ≤ 1 := by
      intro K; cases K <;> decide
    obtain ⟨bs2, hbs2, heq2⟩ := scan_perm st1 l _ hperm hnd hscan hb
    exact ⟨_, bs2, hscan, hbs2, hb, chosen_congr _ _ heq2⟩
  · have hscan : st2.scan = some (push (push emptyB .ce (4, 1)) .cd (2, 3)) := rfl
    have hnd : NodupK st2.nodes := by decide
    have hb : ∀ K, ((push (push emptyB .ce (4, 1)) .cd (2, 3)) K).length ≤ 1 := by
      intro K; cases K <;> decide
    obtain ⟨bs2, hbs2, heq2⟩ := scan_perm st2 l _ hperm hnd hscan hb
    exact ⟨_, bs2, hscan, hbs2, hb, chosen_congr _ _ heq2⟩
  · have hscan : st3.scan = some (push (push emptyB .ee (1, 6)) .cd (2, 3)) := rfl
    have hnd : NodupK st3.nodes := by decide
    have hb : ∀ K, ((push (push emptyB .ee (1, 6)) .cd (2, 3)) K).length ≤ 1 := by
      intro K; cases K <;> decide
    obtain ⟨bs2, hbs2, heq2⟩ := scan_perm st3 l _ hperm hnd hscan hb
    exact ⟨_, bs2, hscan, hbs2, hb, chosen_congr _ _ heq2⟩
  · have hscan := scanNetA e
    have hnd := nodupNetA e he
    have hb : ∀ K, ((push emptyB .cd (2, 3)) K).length ≤ 1 := by
      intro K; cases K <;> decide
    obtain ⟨bs2, hbs2, heq2⟩ := scan_perm (netA e) l _ hperm hnd hscan hb
    exact ⟨_, bs2, hscan, hbs2, hb, chosen_congr _ _ heq2⟩
  · have hscan := scanNetB e he
    have hnd := nodupNetB e he
    have hb : ∀ K, ((push (push (push emptyB .de (e + 2, 0)) .cd (2, 3)) .ce (e + 1, e)) K).length ≤ 1 := by
      intro K; cases K <;> simp [push, emptyB]
    obtain ⟨bs2, hbs2, heq2⟩ := scan_perm (netB e) l _ hperm hnd hscan hb
    exact ⟨_, bs2, hscan, hbs2, hb, chosen_congr _ _ heq2⟩
  · have hscan := scanNetC e he
    have hnd := nodupNetC e he
    have hb : ∀ K, ((push (push emptyB .cd (2, 3)) .ce (e + 1, e)) K).length ≤ 1 := by
      intro K; cases K <;> simp [push, emptyB]
    obtain ⟨bs2, hbs2, heq2⟩ := scan_perm (netC e) l _ hperm hnd hscan hb
    exact ⟨_, bs2, hscan, hbs2, hb, chosen_congr _ _ heq2⟩
  · have hscan := scanNetD e he
    have hnd := nodupNetD e he
    have hb : ∀ K, ((push (push emptyB .cd (2, 3)) .ee (e, e + 3)) K).length ≤ 1 := by
      intro K; cases K <;> simp [push, emptyB]
    obtain ⟨bs2, hbs2, heq2⟩ := scan_perm (netD e) l _ hperm hnd hscan hb
    exact ⟨_, bs2, hscan, hbs2, hb, chosen_congr _ _ heq2⟩

/-- Witness for C10: the seed net scanned in reversed arena order yields the
same bucket contents and the same chosen pair. -/
theorem C10_witness :
    ∃ bs bs2, seedNet.scan = some bs ∧
      Net.scan ⟨seedNet.nodes.reverse, seedNet.next⟩ = some bs2 ∧
      (∀ K, (bs K).length ≤ 1) ∧ chosen bs2 = chosen bs :=
  C10_buckets_deterministic 0 seedNet seedNet.nodes.reverse (by decide)
    (List.reverse_perm _)

theorem lookupN_append_some (l l2 : List (Nat × Node)) (a : Nat) (n : Node)
    (h : lookupN l a = some n) : lookupN (l ++ l2) a = some n := by
  induction l with
  | nil => exact absurd h (by simp [lookupN])
  | cons hd t ih =>
    obtain ⟨k, m⟩ := hd
    rw [lookupN] at h
    rw [List.cons_append, lookupN]
    by_cases hk : a = k
    · rw [if_pos hk] at h ⊢; exact h
    · rw [if_neg hk] at h ⊢; exact ih h

theorem lookupN_replaceK_ne (l : List (Nat × Node)) (u c : Nat) (m : Node)
    (h : c ≠ u) : lookupN (replaceK l u m) c = lookupN l c := by
  induction l with
  | nil => rfl
  | cons hd t ih =>
    obtain ⟨k, n⟩ := hd
    by_cases hk : k = u
    · subst hk
      rw [replaceK, if_pos rfl, lookupN, lookupN, if_neg h, if_neg h]
      exact ih
    · rw [replaceK, if_neg hk, lookupN, lookupN]
      by_cases hck : c = k
      · rw [if_pos hck, if_pos hck]
      · rw [if_neg hck, if_neg hck]
        exact ih

theorem lookupN_replaceK_self (l : List (Nat × Node)) (u : Nat) (m m2 : Node)
    (h : lookupN l u = some m) : lookupN (replaceK l u m2) u = some m2 := by
  induction l with
  | nil => exact absurd h (by simp [lookupN])
  | cons hd t ih =>
    obtain ⟨k, n⟩ := hd
    rw [lookupN] at h
    by_cases hk : u = k
    · rw [replaceK, if_pos hk.symm, lookupN, if_pos hk]
    · rw [if_neg hk] at h
      rw [replaceK, if_neg (fun hh => hk hh.symm), lookupN, if_neg hk]
      exact ih h

theorem setSlot_inv (net net2 : Net) (u v : Nat) (w : Port)
    (h : net.setSlot (.Valid u v) w = some net2) :
    ∃ m, net.node? u = some m ∧ v < m.ports.length ∧
      net2 = ⟨replaceK net.nodes u ⟨m.kind, m.ports.set v w⟩, net.next⟩ := by
  rw [Net.setSlot] at h
  rcases hm : net.node? u with _ | m
  · rw [hm] at h; exact absurd h (by simp)
  · rw [hm] at h
    simp only [Option.some_bind] at h
    rw [Node.setPort] at h
    by_cases hv : v < m.ports.length
    · rw [if_pos hv] at h
      simp only [Option.map_some', Option.some.injEq] at h
      exact ⟨m, rfl, hv, h.symm⟩
    · rw [if_neg hv] at h
      exact absurd h (by simp)

theorem setSlot_node_ne (net net2 : Net) (u v : Nat) (w : Port) (c : Nat)
    (h : net.setSlot (.Valid u v) w = some net2) (hc : c ≠ u) :
    net2.node? c = net.node? c := by
  obtain ⟨m, hm, hv, rfl⟩ := setSlot_inv net net2 u v w h
  exact lookupN_replaceK_ne net.nodes u c _ hc

theorem setSlot_node_self (net net2 : Net) (u v : Nat) (w : Port) (m : Node)
    (h : net.setSlot (.Valid u v) w = some net2) (hm : net.node? u = some m) :
    net2.node? u = some ⟨m.kind, m.ports.set v w⟩ := by
  obtain ⟨m2, hm2, hv, rfl⟩ := setSlot_inv net net2 u v w h
  rw [hm] at hm2
  injection hm2 with hm2
  subst hm2
  exact lookupN_replaceK_self net.nodes u m _ hm

theorem setSlot_node_len (net net2 : Net) (u v : Nat) (w : Port) (c : Nat) (mc : Node)
    (h : net.setSlot (.Valid u v) w = some net2) (hc : net.node? c = some mc) :
    ∃ mc2, net2.node? c = some mc2 ∧ mc2.ports.length = mc.ports.length ∧
      mc2.kind = mc.kind := by
  by_cases hcu : c = u
  · subst hcu
    exact ⟨_, setSlot_node_self net net2 c v w mc h hc, by simp, rfl⟩
  · exact ⟨mc, by rw [setSlot_node_ne net net2 u v w c h hcu, hc], rfl, rfl⟩

theorem get_setSlot_ne (net net2 : Net) (u v : Nat) (w : Port) (c r : Nat)
    (h : net.setSlot (.Valid u v) w = some net2) (hne : ¬ (c = u ∧ r = v)) :
    net2.get (.Valid c r) = net.get (.Valid c r) := by
  by_cases hcu : c = u
  · subst hcu
    have hrv : r ≠ v := fun hh => hne ⟨rfl, hh⟩
    obtain ⟨m, hm, hv, rfl⟩ := setSlot_inv net net2 c v w h
    rw [Net.get, Net.get, hm]
    have hself : Net.node? ⟨replaceK net.nodes c ⟨m.kind, m.ports.set v w⟩, net.next⟩ c =
        some ⟨m.kind, m.ports.set v w⟩ := lookupN_replaceK_self net.nodes c m _ hm
    rw [hself]
    simp only [Option.some_bind]
    rw [Node.port, Node.port]
    exact List.getElem?_set_ne (Ne.symm hrv) 
  · rw [Net.get, Net.get, setSlot_node_ne net net2 u v w c h hcu]

theorem connect_get_ne (net net2 : Net) (u1 v1 u2 v2 c r : Nat)
    (h : net.connect (.Valid u1 v1) (.Valid u2 v2) = some net2)
    (h1 : ¬ (c = u1 ∧ r = v1)) (h2 : ¬ (c = u2 ∧ r = v2)) :
    net2.get (.Valid c r) = net.get (.Valid c r) := by
  rw [Net.connect] at h
  rcases hmid : net.setSlot (.Valid u1 v1) (.Valid u2 v2) with _ | mid
  · rw [hmid] at h; exact absurd h (by simp)
  · rw [hmid] at h
    simp only [Option.some_bind] at h
    rw [get_setSlot_ne mid net2 u2 v2 _ c r h h2,
      get_setSlot_ne net mid u1 v1 _ c r hmid h1]

theorem connect_node_len (net net2 : Net) (u1 v1 u2 v2 : Nat)
    (h : net.connect (.Valid u1 v1) (.Valid u2 v2) = some net2) (c : Nat) (mc : Node)
    (hc : net.node? c = some mc) :
    ∃ mc2, net2.node? c = some mc2 ∧ mc2.ports.length = mc.ports.length ∧
      mc2.kind = mc.kind := by
  rw [Net.connect] at h
  rcases hmid : net.setSlot (.Valid u1 v1) (.Valid u2 v2) with _ | mid
  · rw [hmid] at h; exact absurd h (by simp)
  · rw [hmid] at h
    simp only [Option.some_bind] at h
    obtain ⟨mA, hA, hlA, hkA⟩ := setSlot_node_len net mid u1 v1 _ c mc hmid hc
    obtain ⟨mB, hB, hlB, hkB⟩ := setSlot_node_len mid net2 u2 v2 _ c mA h hA
    exact ⟨mB, hB, by rw [hlB, hlA], by rw [hkB, hkA]⟩

theorem connect_some (net : Net) (u v w z : Nat) (mu mw : Node)
    (hu : net.node? u = some mu) (hv : v < mu.ports.length)
    (hw : net.node? w = some mw) (hz : z < mw.ports.length) :
    ∃ net2, net.connect (.Valid u v) (.Valid w z) = some net2 := by
  have hmid : net.setSlot (.Valid u v) (.Valid w z) =
      some ⟨replaceK net.nodes u ⟨mu.kind, mu.ports.set v (.Valid w z)⟩, net.next⟩ := by
    rw [Net.setSlot, hu]
    simp only [Option.some_bind]
    rw [Node.setPort, if_pos hv]
    rfl
  obtain ⟨mw2, hw2, hlw2, -⟩ := setSlot_node_len net _ u v _ w mw hmid hw
  have hs2 : Net.setSlot
      ⟨replaceK net.nodes u ⟨mu.kind, mu.ports.set v (.Valid w z)⟩, net.next⟩
      (.Valid w z) (.Valid u v) =
      some ⟨replaceK (replaceK net.nodes u ⟨mu.kind, mu.ports.set v (.Valid w z)⟩) w
        ⟨mw2.kind, mw2.ports.set z (.Valid u v)⟩, net.next⟩ := by
    rw [Net.setSlot, hw2]
    simp only [Option.some_bind]
    rw [Node.setPort, if_pos (by rw [hlw2]; exact hz)]
    rfl
  refine ⟨⟨replaceK (replaceK net.nodes u ⟨mu.kind, mu.ports.set v (.Valid w z)⟩) w
    ⟨mw2.kind, mw2.ports.set z (.Valid u v)⟩, net.next⟩, ?_⟩
  rw [Net.connect, hmid]
  simp only [Option.some_bind]
  exact hs2

theorem create_eq (net : Net) (nd : Node) (hnone : net.node? net.next = none) :
    net.create nd = some (net.next, ⟨net.nodes ++ [(net.next, nd)], net.next + 1⟩) := by
  rw [Net.create, hnone]

theorem node_lt_next (net : Net) (hkeys : ∀ en ∈ net.nodes, en.1 < net.next)
    (a : Nat) (n : Node) (h : net.node? a = some n) : a < net.next :=
  hkeys (a, n) (mem_of_lookupN _ _ _ h)

theorem node_none_of_ge (net : Net) (hkeys : ∀ en ∈ net.nodes, en.1 < net.next)
    (a : Nat) (h : net.next ≤ a) : net.node? a = none := by
  rw [Net.node?, lookupN_eq_none_iff]
  intro hm
  obtain ⟨en, hen, hfst⟩ := List.mem_map.mp hm
  have := hkeys en hen
  omega

/-- The reference Construct-Duplicate procedure as the spec words it: read all
four neighbors `neighbor(a,1)`, `neighbor(a,2)`, `neighbor(b,1)`,
`neighbor(b,2)` before performing any `connect`, then wire the same four
external and four internal edges as `eval_cd`. -/
def Net.refCD (net : Net) (a b : Nat) : Option Net :=
  (net.create Node.construct).bind fun cn =>
  (cn.2.create Node.duplicate).bind fun dn =>
  (dn.2.get (.Valid a 1)).bind fun g1 =>
  (dn.2.get (.Valid a 2)).bind fun g2 =>
  (dn.2.get (.Valid b 1)).bind fun g3 =>
  (dn.2.get (.Valid b 2)).bind fun g4 =>
  (dn.2.connect g1 (.Valid dn.1 0)).bind fun n3 =>
  (n3.connect g2 (.Valid b 0)).bind fun n4 =>
  (n4.connect g3 (.Valid a 0)).bind fun n5 =>
  (n5.connect g4 (.Valid cn.1 0)).bind fun n6 =>
  (n6.connect (.Valid b 1) (.Valid a 2)).bind fun n7 =>
  (n7.connect (.Valid b 2) (.Valid cn.1 2)).bind fun n8 =>
  (n8.connect (.Valid dn.1 1) (.Valid a 1)).bind fun n9 =>
  n9.connect (.Valid dn.1 2) (.Valid cn.1 1)

/-- Claim C7 is false as stated: on the seed net — a fully wired net whose
Construct-Duplicate active pair has auxiliary ports wired back into the pair
itself — `eval_cd` and the read-all-neighbors-first reference procedure
produce different nets. -/
theorem C7_cex_seed_pair :
    involB seedNet = true ∧ wfB seedNet = true ∧
    kindOf? seedNet 2 = some .construct ∧ kindOf? seedNet 3 = some .duplicate ∧
    followB seedNet 2 0 = some (3, 0) ∧ followB seedNet 3 0 = some (2, 0) ∧
    seedNet.eval_cd 2 3 ≠ seedNet.refCD 2 3 := by decide

theorem lookupN_append_none (l l2 : List (Nat × Node)) (a : Nat)
    (h : lookupN l a = none) : lookupN (l ++ l2) a = lookupN l2 a := by
  induction l with
  | nil => rfl
  | cons hd t ih =>
    obtain ⟨k, m⟩ := hd
    rw [lookupN] at h
    rw [List.cons_append, lookupN]
    by_cases hk : a = k
    · rw [if_pos hk] at h; exact absurd h (by simp)
    · rw [if_neg hk] at h ⊢; exact ih h

/-- Claim C7 (amended): for every net containing a Construct-Duplicate active
pair whose four auxiliary neighbors are ports of agents other than the pair
itself, `eval_cd` and the read-all-neighbors-first reference procedure
produce the same net. -/
theorem C7_external_neighbors_agree (net : Net) (a b : Nat)
    (x1 q1 x2 q2 x3 q3 x4 q4 : Nat) (m1 m2 m3 m4 na nb : Node)
    (hkeys : ∀ en ∈ net.nodes, en.1 < net.next)
    (ha : net.node? a = some na) (hb : net.node? b = some nb)
    (ha3 : na.ports.length = 3) (hb3 : nb.ports.length = 3)
    (hg1 : net.get (.Valid a 1) = some (.Valid x1 q1))
    (hg2 : net.get (.Valid a 2) = some (.Valid x2 q2))
    (hg3 : net.get (.Valid b 1) = some (.Valid x3 q3))
    (hg4 : net.get (.Valid b 2) = some (.Valid x4 q4))
    (hm1 : net.node? x1 = some m1) (hq1 : q1 < m1.ports.length)
    (hm2 : net.node? x2 = some m2) (hq2 : q2 < m2.ports.length)
    (hm3 : net.node? x3 = some m3) (hq3 : q3 < m3.ports.length)
    (hm4 : net.node? x4 = some m4) (hq4 : q4 < m4.ports.length)
    (hx1a : x1 ≠ a) (hx1b : x1 ≠ b) (hx2a : x2 ≠ a) (hx2b : x2 ≠ b)
    (hx3a : x3 ≠ a) (hx3b : x3 ≠ b) (hx4a : x4 ≠ a) (hx4b : x4 ≠ b) :
    net.eval_cd a b = net.refCD a b := by
  have hba : a < net.next := node_lt_next net hkeys a na ha
  have hbb : b < net.next := node_lt_next net hkeys b nb hb
  have hbx1 : x1 < net.next := node_lt_next net hkeys x1 m1 hm1
  have hbx2 : x2 < net.next := node_lt_next net hkeys x2 m2 hm2
  have hbx3 : x3 < net.next := node_lt_next net hkeys x3 m3 hm3
  have hbx4 : x4 < net.next := node_lt_next net hkeys x4 m4 hm4
  have h1 : net.node? net.next = none := node_none_of_ge net hkeys net.next (Nat.le_refl _)
  have hcr1 := create_eq net Node.construct h1
  have hnone2 : lookupN (net.nodes ++ [(net.next, Node.construct)]) (net.next + 1) = none := by
    rw [lookupN_eq_none_iff]
    intro hm
    obtain ⟨en, hen, hfst⟩ := List.mem_map.mp hm
    rcases List.mem_append.mp hen with hh | hh
    · have := hkeys en hh; omega
    · simp only [List.mem_singleton] at hh
      subst hh
      have hx2 : net.next = net.next + 1 := hfst
      omega
  have hcr2 : Net.create ⟨net.nodes ++ [(net.next, Node.construct)], net.next + 1⟩
      Node.duplicate = some (net.next + 1, ⟨(net.nodes ++ [(net.next, Node.construct)]) ++ [(net.next + 1, Node.duplicate)], net.next + 1 + 1⟩) := by
    rw [Net.create]
    have hx : Net.node? ⟨net.nodes ++ [(net.next, Node.construct)], net.next + 1⟩
        (net.next + 1) = none := hnone2
    rw [hx]
  have hN0a : Net.node? ⟨(net.nodes ++ [(net.next, Node.construct)]) ++ [(net.next + 1, Node.duplicate)], net.next + 1 + 1⟩ a = some na :=
    lookupN_append_some _ _ _ _ (lookupN_append_some _ _ _ _ ha)
  have hN0b : Net.node? ⟨(net.nodes ++ [(net.next, Node.construct)]) ++ [(net.next + 1, Node.duplicate)], net.next + 1 + 1⟩ b = some nb :=
    lookupN_append_some _ _ _ _ (lookupN_append_some _ _ _ _ hb)
  have hN0x2 : Net.node? ⟨(net.nodes ++ [(net.next, Node.construct)]) ++ [(net.next + 1, Node.duplicate)], net.next + 1 + 1⟩ x2 = some m2 :=
    lookupN_append_some _ _ _ _ (lookupN_append_some _ _ _ _ hm2)
  have hN0x3 : Net.node? ⟨(net.nodes ++ [(net.next, Node.construct)]) ++ [(net.next + 1, Node.duplicate)], net.next + 1 + 1⟩ x3 = some m3 :=
    lookupN_append_some _ _ _ _ (lookupN_append_some _ _ _ _ hm3)
  have hN0x4 : Net.node? ⟨(net.nodes ++ [(net.next, Node.construct)]) ++ [(net.next + 1, Node.duplicate)], net.next + 1 + 1⟩ x4 = some m4 :=
    lookupN_append_some _ _ _ _ (lookupN_append_some _ _ _ _ hm4)
  have hN0x1 : Net.node? ⟨(net.nodes ++ [(net.next, Node.construct)]) ++ [(net.next + 1, Node.duplicate)], net.next + 1 + 1⟩ x1 = some m1 :=
    lookupN_append_some _ _ _ _ (lookupN_append_some _ _ _ _ hm1)
  have hN0c : Net.node? ⟨(net.nodes ++ [(net.next, Node.construct)]) ++ [(net.next + 1, Node.duplicate)], net.next + 1 + 1⟩ (net.next) = some Node.construct := by
    show lookupN _ _ = _
    exact lookupN_append_some _ _ _ _ (by rw [lookupN_append_none _ _ _ h1, lookupN]; simp)
  have hN0d : Net.node? ⟨(net.nodes ++ [(net.next, Node.construct)]) ++ [(net.next + 1, Node.duplicate)], net.next + 1 + 1⟩ (net.next + 1) = some Node.duplicate := by
    show lookupN _ _ = _
    rw [lookupN_append_none _ _ _ hnone2, lookupN]
    simp
  have hna1 : na.port 1 = some (.Valid x1 q1) := by rw [Net.get, ha] at hg1; exact hg1
  have hna2 : na.port 2 = some (.Valid x2 q2) := by rw [Net.get, ha] at hg2; exact hg2
  have hnb1 : nb.port 1 = some (.Valid x3 q3) := by rw [Net.get, hb] at hg3; exact hg3
  have hnb2 : nb.port 2 = some (.Valid x4 q4) := by rw [Net.get, hb] at hg4; exact hg4
  have hr1 : Net.get ⟨(net.nodes ++ [(net.next, Node.construct)]) ++ [(net.next + 1, Node.duplicate)], net.next + 1 + 1⟩ (.Valid a 1) = some (.Valid x1 q1) := by
    rw [Net.get, hN0a]
    exact hna1
  have hr2 : Net.get ⟨(net.nodes ++ [(net.next, Node.construct)]) ++ [(net.next + 1, Node.duplicate)], net.next + 1 + 1⟩ (.Valid a 2) = some (.Valid x2 q2) := by
    rw [Net.get, hN0a]
    exact hna2
  have hr3 : Net.get ⟨(net.nodes ++ [(net.next, Node.construct)]) ++ [(net.next + 1, Node.duplicate)], net.next + 1 + 1⟩ (.Valid b 1) = some (.Valid x3 q3) := by
    rw [Net.get, hN0b]
    exact hnb1
  have hr4 : Net.get ⟨(net.nodes ++ [(net.next, Node.construct)]) ++ [(net.next + 1, Node.duplicate)], net.next + 1 + 1⟩ (.Valid b 2) = some (.Valid x4 q4) := by
    rw [Net.get, hN0b]
    exact hnb2
  obtain ⟨N1, hc1⟩ := connect_some ⟨(net.nodes ++ [(net.next, Node.construct)]) ++ [(net.next + 1, Node.duplicate)], net.next + 1 + 1⟩ (x1) q1 (net.next + 1) 0 m1 Node.duplicate
    hN0x1 (by exact hq1) hN0d (by decide)
  obtain ⟨nx21, hnx21, hlx21, -⟩ :=
    connect_node_len ⟨(net.nodes ++ [(net.next, Node.construct)]) ++ [(net.next + 1, Node.duplicate)], net.next + 1 + 1⟩ N1 (x1) q1 (net.next + 1) 0 hc1 (x2) m2 hN0x2
  obtain ⟨nb1, hnb1, hlb1, -⟩ :=
    connect_node_len ⟨(net.nodes ++ [(net.next, Node.construct)]) ++ [(net.next + 1, Node.duplicate)], net.next + 1 + 1⟩ N1 (x1) q1 (net.next + 1) 0 hc1 (b) nb hN0b
  obtain ⟨nx31, hnx31, hlx31, -⟩ :=
    connect_node_len ⟨(net.nodes ++ [(net.next, Node.construct)]) ++ [(net.next + 1, Node.duplicate)], net.next + 1 + 1⟩ N1 (x1) q1 (net.next + 1) 0 hc1 (x3) m3 hN0x3
  obtain ⟨na1, hna1, hla1, -⟩ :=
    connect_node_len ⟨(net.nodes ++ [(net.next, Node.construct)]) ++ [(net.next + 1, Node.duplicate)], net.next + 1 + 1⟩ N1 (x1) q1 (net.next + 1) 0 hc1 (a) na hN0a
  obtain ⟨nx41, hnx41, hlx41, -⟩ :=
    connect_node_len ⟨(net.nodes ++ [(net.next, Node.construct)]) ++ [(net.next + 1, Node.duplicate)], net.next + 1 + 1⟩ N1 (x1) q1 (net.next + 1) 0 hc1 (x4) m4 hN0x4
  obtain ⟨nc1, hnc1, hlc1, -⟩ :=
    connect_node_len ⟨(net.nodes ++ [(net.next, Node.construct)]) ++ [(net.next + 1, Node.duplicate)], net.next + 1 + 1⟩ N1 (x1) q1 (net.next + 1) 0 hc1 (net.next) Node.construct hN0c
  obtain ⟨nd1, hnd1, hld1, -⟩ :=
    connect_node_len ⟨(net.nodes ++ [(net.next, Node.construct)]) ++ [(net.next + 1, Node.duplicate)], net.next + 1 + 1⟩ N1 (x1) q1 (net.next + 1) 0 hc1 (net.next + 1) Node.duplicate hN0d
  obtain ⟨N2, hc2⟩ := connect_some N1 (x2) q2 (b) 0 nx21 nb1
    hnx21 (by rw [hlx21]; exact hq2) hnb1 (by rw [hlb1]; rw [hb3]; decide)
  obtain ⟨nx32, hnx32, hlx32, -⟩ :=
    connect_node_len N1 N2 (x2) q2 (b) 0 hc2 (x3) nx31 hnx31
  obtain ⟨na2, hna2, hla2, -⟩ :=
    connect_node_len N1 N2 (x2) q2 (b) 0 hc2 (a) na1 hna1
  obtain ⟨nx42, hnx42, hlx42, -⟩ :=
    connect_node_len N1 N2 (x2) q2 (b) 0 hc2 (x4) nx41 hnx41
  obtain ⟨nc2, hnc2, hlc2, -⟩ :=
    connect_node_len N1 N2 (x2) q2 (b) 0 hc2 (net.next) nc1 hnc1
  obtain ⟨nb2, hnb2, hlb2, -⟩ :=
    connect_node_len N1 N2 (x2) q2 (b) 0 hc2 (b) nb1 hnb1
  obtain ⟨nd2, hnd2, hld2, -⟩ :=
    connect_node_len N1 N2 (x2) q2 (b) 0 hc2 (net.next + 1) nd1 hnd1
  obtain ⟨N3, hc3⟩ := connect_some N2 (x3) q3 (a) 0 nx32 na2
    hnx32 (by rw [hlx32, hlx31]; exact hq3) hna2 (by rw [hla2, hla1]; rw [ha3]; decide)
  obtain ⟨nx43, hnx43, hlx43, -⟩ :=
    connect_node_len N2 N3 (x3) q3 (a) 0 hc3 (x4) nx42 hnx42
  obtain ⟨nc3, hnc3, hlc3, -⟩ :=
    connect_node_len N2 N3 (x3) q3 (a) 0 hc3 (net.next) nc2 hnc2
  obtain ⟨nb3, hnb3, hlb3, -⟩ :=
    connect_node_len N2 N3 (x3) q3 (a) 0 hc3 (b) nb2 hnb2
  obtain ⟨na3, hna3, hla3, -⟩ :=
    connect_node_len N2 N3 (x3) q3 (a) 0 hc3 (a) na2 hna2
  obtain ⟨nd3, hnd3, hld3, -⟩ :=
    connect_node_len N2 N3 (x3) q3 (a) 0 hc3 (net.next + 1) nd2 hnd2
  obtain ⟨N4, hc4⟩ := connect_some N3 (x4) q4 (net.next) 0 nx43 nc3
    hnx43 (by rw [hlx43, hlx42, hlx41]; exact hq4) hnc3 (by rw [hlc3, hlc2, hlc1]; decide)
  obtain ⟨nb4, hnb4, hlb4, -⟩ :=
    connect_node_len N3 N4 (x4) q4 (net.next) 0 hc4 (b) nb3 hnb3
  obtain ⟨na4, hna4, hla4, -⟩ :=
    connect_node_len N3 N4 (x4) q4 (net.next) 0 hc4 (a) na3 hna3
  obtain ⟨nc4, hnc4, hlc4, -⟩ :=
    connect_node_len N3 N4 (x4) q4 (net.next) 0 hc4 (net.next) nc3 hnc3
  obtain ⟨nd4, hnd4, hld4, -⟩ :=
    connect_node_len N3 N4 (x4) q4 (net.next) 0 hc4 (net.next + 1) nd3 hnd3
  obtain ⟨N5, hc5⟩ := connect_some N4 (b) 1 (a) 2 nb4 na4
    hnb4 (by rw [hlb4, hlb3, hlb2, hlb1]; rw [hb3]; decide) hna4 (by rw [hla4, hla3, hla2, hla1]; rw [ha3]; decide)
  obtain ⟨nb5, hnb5, hlb5, -⟩ :=
    connect_node_len N4 N5 (b) 1 (a) 2 hc5 (b) nb4 hnb4
  obtain ⟨nc5, hnc5, hlc5, -⟩ :=
    connect_node_len N4 N5 (b) 1 (a) 2 hc5 (net.next) nc4 hnc4
  obtain ⟨na5, hna5, hla5, -⟩ :=
    connect_node_len N4 N5 (b) 1 (a) 2 hc5 (a) na4 hna4
  obtain ⟨nd5, hnd5, hld5, -⟩ :=
    connect_node_len N4 N5 (b) 1 (a) 2 hc5 (net.next + 1) nd4 hnd4
  obtain ⟨N6, hc6⟩ := connect_some N5 (b) 2 (net.next) 2 nb5 nc5
    hnb5 (by rw [hlb5, hlb4, hlb3, hlb2, hlb1]; rw [hb3]; decide) hnc5 (by rw [hlc5, hlc4, hlc3, hlc2, hlc1]; decide)
  obtain ⟨nd6, hnd6, hld6, -⟩ :=
    connect_node_len N5 N6 (b) 2 (net.next) 2 hc6 (net.next + 1) nd5 hnd5
  obtain ⟨na6, hna6, hla6, -⟩ :=
    connect_node_len N5 N6 (b) 2 (net.next) 2 hc6 (a) na5 hna5
  obtain ⟨nc6, hnc6, hlc6, -⟩ :=
    connect_node_len N5 N6 (b) 2 (net.next) 2 hc6 (net.next) nc5 hnc5
  obtain ⟨N7, hc7⟩ := connect_some N6 (net.next + 1) 1 (a) 1 nd6 na6
    hnd6 (by rw [hld6, hld5, hld4, hld3, hld2, hld1]; decide) hna6 (by rw [hla6, hla5, hla4, hla3, hla2, hla1]; rw [ha3]; decide)
  have hne1a2 : ¬ (a = x1 ∧ 2 = q1) := by rintro ⟨h, -⟩; exact hx1a h.symm
  have hne1a2d : ¬ (a = net.next + 1 ∧ 2 = 0) := by rintro ⟨h, -⟩; omega
  have hrE2 : N1.get (.Valid a 2) = some (.Valid x2 q2) := by
    rw [connect_get_ne ⟨(net.nodes ++ [(net.next, Node.construct)]) ++ [(net.next + 1, Node.duplicate)], net.next + 1 + 1⟩ N1 x1 q1 (net.next + 1) 0 a 2 hc1 hne1a2 hne1a2d]
    exact hr2
  have hne2b1 : ¬ (b = x2 ∧ 1 = q2) := by rintro ⟨h, -⟩; exact hx2b h.symm
  have hne2b1b : ¬ (b = b ∧ 1 = 0) := by rintro ⟨-, h⟩; omega
  have hne1b1 : ¬ (b = x1 ∧ 1 = q1) := by rintro ⟨h, -⟩; exact hx1b h.symm
  have hne1b1d : ¬ (b = net.next + 1 ∧ 1 = 0) := by rintro ⟨h, -⟩; omega
  have hrE3 : N2.get (.Valid b 1) = some (.Valid x3 q3) := by
    rw [connect_get_ne N1 N2 x2 q2 b 0 b 1 hc2 hne2b1 hne2b1b,
      connect_get_ne ⟨(net.nodes ++ [(net.next, Node.construct)]) ++ [(net.next + 1, Node.duplicate)], net.next + 1 + 1⟩ N1 x1 q1 (net.next + 1) 0 b 1 hc1 hne1b1 hne1b1d]
    exact hr3
  have hne3b2 : ¬ (b = x3 ∧ 2 = q3) := by rintro ⟨h, -⟩; exact hx3b h.symm
  have hne3b2a : ¬ (b = a ∧ 2 = 0) := by rintro ⟨-, h⟩; omega
  have hne2b2 : ¬ (b = x2 ∧ 2 = q2) := by rintro ⟨h, -⟩; exact hx2b h.symm
  have hne2b2b : ¬ (b = b ∧ 2 = 0) := by rintro ⟨-, h⟩; omega
  have hne1b2 : ¬ (b = x1 ∧ 2 = q1) := by rintro ⟨h, -⟩; exact hx1b h.symm
  have hne1b2d : ¬ (b = net.next + 1 ∧ 2 = 0) := by rintro ⟨h, -⟩; omega
  have hrE4 : N3.get (.Valid b 2) = some (.Valid x4 q4) := by
    rw [connect_get_ne N2 N3 x3 q3 a 0 b 2 hc3 hne3b2 hne3b2a,
      connect_get_ne N1 N2 x2 q2 b 0 b 2 hc2 hne2b2 hne2b2b,
      connect_get_ne ⟨(net.nodes ++ [(net.next, Node.construct)]) ++ [(net.next + 1, Node.duplicate)], net.next + 1 + 1⟩ N1 x1 q1 (net.next + 1) 0 b 2 hc1 hne1b2 hne1b2d]
    exact hr4
  rw [Net.eval_cd, Net.refCD]
  simp only [hcr1, Option.some_bind, hcr2, hr1, hr2, hr3, hr4, hc1, hrE2, hc2, hrE3,
    hc3, hrE4, hc4, hc5, hc6, hc7]

/-- A concrete Construct-Duplicate active pair (agents 0 and 1) whose four
auxiliary neighbors are four distinct external Erase agents. -/
def c7wNet : Net :=
  ⟨[(0, cN (.Valid 1 0) (.Valid 2 0) (.Valid 3 0)),
    (1, dN (.Valid 0 0) (.Valid 4 0) (.Valid 5 0)),
    (2, eN (.Valid 0 1)), (3, eN (.Valid 0 2)),
    (4, eN (.Valid 1 1)), (5, eN (.Valid 1 2))], 6⟩

theorem C7_external_neighbors_agree_witness :
    c7wNet.eval_cd 0 1 = c7wNet.refCD 0 1 :=
  C7_external_neighbors_agree c7wNet 0 1 2 0 3 0 4 0 5 0
    (eN (.Valid 0 1)) (eN (.Valid 0 2)) (eN (.Valid 1 1)) (eN (.Valid 1 2))
    (cN (.Valid 1 0) (.Valid 2 0) (.Valid 3 0))
    (dN (.Valid 0 0) (.Valid 4 0) (.Valid 5 0))
    (by decide) (by decide) (by decide) (by decide) (by decide)
    (by decide) (by decide) (by decide) (by decide)
    (by decide) (by decide) (by decide) (by decide)
    (by decide) (by decide) (by decide) (by decide)
    (by decide) (by decide) (by decide) (by decide)
    (by decide) (by decide) (by decide) (by decide)
